import Mathlib

/-!
# NightRain: a shallow embedding of the particle and weather simulation

The definitions below follow `src/NightRain.c` function by function.

Modelling conventions.

* `float` values are rationals (`ℚ`). In `update_ripples` and `update_camera`
  every `float` operation is rounded to IEEE binary32 (`f32`: round to nearest,
  ties to even; overflow is not modelled), because there the rounding decides
  an integer result or whether the camera moves at all. In the other
  functions the arithmetic is exact and rounding is not modelled.
* `int` values are `Int`; C division and remainder on `int` are `Int.tdiv`
  and `Int.tmod` (truncation toward zero).
* `Uint32` and `Uint8` values are `Nat`, reduced modulo `2^32` and `2^8`
  where the program computes them.
* A fixed-capacity pool (`Raindrop raindrops[MAX_RAINDROPS]` ...) is a list;
  its capacity is the length of the list and a loop over the array is a
  loop over all indices of the list.
* `rand()` reads an arbitrary sequence `rnd : Nat → Nat`; the number of calls
  made so far is part of the state, so every call reads a fresh element.
* `SDL_GetTicks()` is the field `ticks` of the environment.
* The functions are total: a remainder or division by zero and a write outside
  an array are not faults of the definitions themselves. For `create_lightning`
  these run-time checks are made explicit in a second, checked version
  (`lightning_path_checked`, `create_lightning_checked`) with results in
  `Except Fault`.
-/

namespace NightRain

/-! ## Constants -/

def WINDOW_WIDTH : Int := 800
def WINDOW_HEIGHT : Int := 600
def MAX_RAINDROPS : Nat := 1000
def MAX_RIPPLES : Nat := 500
def MAX_SPLASHES : Nat := 300
def MAX_LIGHTNING : Nat := 5
def POND_HEIGHT : Int := Int.tdiv (WINDOW_HEIGHT * 2) 3
def RIPPLE_LIFETIME : Nat := 2000
def SPLASH_LIFETIME : Nat := 800
def RAINDROP_FALL_SPEED_MIN : Int := 200
def RAINDROP_FALL_SPEED_MAX : Int := 500
def LOTUS_PAD_COUNT : Nat := 25

/-- Largest value of `rand()` (the C library constant of the Windows runtime
the program is written for). Only its positivity is used in proofs. -/
def RAND_MAX : Nat := 32767

def WEATHER_LIGHT_RAIN : Nat := 0
def WEATHER_MEDIUM_RAIN : Nat := 1
def WEATHER_HEAVY_RAIN : Nat := 2
def WEATHER_THUNDERSTORM : Nat := 3
def WEATHER_COUNT : Nat := 4

/-- Global `weather_duration_min`, never assigned after its initialiser. -/
def weather_duration_min : Nat := 10000
/-- Global `weather_duration_max`, never assigned after its initialiser. -/
def weather_duration_max : Nat := 30000
/-- Global `wind_change_speed`, never assigned after its initialiser. -/
def wind_change_speed : ℚ := 0.02

/-! ## Conversions and machine arithmetic -/

/-- Conversion of a `float` to `int`: truncation toward zero. -/
def castInt (q : ℚ) : Int := if 0 ≤ q then ⌊q⌋ else ⌈q⌉

/-- Conversion of a `float` to `Uint8`: the low eight bits of the truncated
value. -/
def castU8 (q : ℚ) : Nat := (castInt q % 256).toNat

/-- Conversion of an `int` to `Uint8`. -/
def intU8 (n : Int) : Nat := (n % 256).toNat

/-- Difference of two `Uint32` values. -/
def u32sub (a b : Nat) : Nat := (((a : Int) - (b : Int)) % 4294967296).toNat

/-- Absolute value of a `float` (`fabsf`). -/
def fabsf (q : ℚ) : ℚ := if q < 0 then -q else q

/-- Nearest integer, ties to the even one. -/
def roundEven (x : ℚ) : Int :=
  if x - ⌊x⌋ < 1 / 2 then ⌊x⌋
  else if x - ⌊x⌋ > 1 / 2 then ⌊x⌋ + 1
  else if ⌊x⌋ % 2 = 0 then ⌊x⌋ else ⌊x⌋ + 1

/-- Exponent of the binade of `q` in IEEE binary32, not below the exponent of the
subnormal numbers. -/
def f32_exponent (q : ℚ) : Int := max (Int.log 2 |q|) (-126)

/-- Rounding to `float` (IEEE binary32, round to nearest, ties to even): the
multiple of the unit in the last place of `q` nearest to `q`. Overflow to
infinity is not modelled. -/
def f32 (q : ℚ) : ℚ :=
  (roundEven (q / (2 : ℚ) ^ (f32_exponent q - 23)) : ℚ) * (2 : ℚ) ^ (f32_exponent q - 23)

/-! ## Data model -/

structure SDL_Color where
  r : Nat
  g : Nat
  b : Nat
  a : Nat
deriving DecidableEq, Inhabited

/-- Every channel of the colour fits in eight bits. -/
def SDL_Color.valid (c : SDL_Color) : Prop :=
  c.r < 256 ∧ c.g < 256 ∧ c.b < 256 ∧ c.a < 256

instance (c : SDL_Color) : Decidable c.valid := by
  unfold SDL_Color.valid; infer_instance

structure Raindrop where
  x : ℚ
  y : ℚ
  z : ℚ
  speed_y : ℚ
  speed_x : ℚ
  color : SDL_Color
  size : Int
  active : Bool
  in_water : Bool
  creation_time : Nat
  water_time : Nat
deriving DecidableEq, Inhabited

structure Ripple where
  x : ℚ
  y : ℚ
  z : ℚ
  radius : ℚ
  max_radius : ℚ
  color : SDL_Color
  creation_time : Nat
  active : Bool
deriving DecidableEq, Inhabited

structure Splash where
  x : ℚ
  y : ℚ
  z : ℚ
  speed_x : ℚ
  speed_y : ℚ
  size : ℚ
  color : SDL_Color
  creation_time : Nat
  active : Bool
deriving DecidableEq, Inhabited

/-- A lightning bolt; `points` is the array `int points[20][2]`. -/
structure Lightning where
  segments : Int
  points : List (Int × Int)
  width : Int
  brightness : Nat
  creation_time : Nat
  duration : Int
  active : Bool
  type : Int
deriving DecidableEq, Inhabited

structure LotusPad where
  x : ℚ
  y : ℚ
  z : ℚ
  radius : ℚ
  wave_phase : ℚ
  wave_speed : ℚ
  tilt_angle : ℚ
  color : SDL_Color
deriving DecidableEq, Inhabited

/-- The global variables of the program that the simulation reads or writes,
and the number of `rand()` calls made so far. -/
structure World where
  raindrops : List Raindrop
  ripples : List Ripple
  splashes : List Splash
  lightnings : List Lightning
  lotus_pads : List LotusPad
  raindrop_count : Int
  ripple_count : Int
  splash_count : Int
  lightning_count : Int
  camera_x : ℚ
  camera_target_x : ℚ
  camera_moving : Bool
  wind_strength : ℚ
  target_wind_strength : ℚ
  current_weather : Nat
  target_weather : Nat
  last_weather_change_time : Nat
  weather_intensity : Int
  thunder_active : Bool
  thunder_start_time : Nat
  thunder_duration : Int
  rand_calls : Nat
deriving DecidableEq, Inhabited

/-- What the program reads from outside: the values `rand()` returns, the
value of `SDL_GetTicks()`, and the library functions `cosf` and `sinf`. -/
structure Env where
  rnd : Nat → Nat
  ticks : Nat
  cosf : ℚ → ℚ
  sinf : ℚ → ℚ

/-- The value returned by the next `rand()` call, in `0..RAND_MAX`. -/
def rand (e : Env) (w : World) : Nat := e.rnd w.rand_calls % (RAND_MAX + 1)

/-- The state after `k` calls of `rand()`. -/
def World.tick (w : World) (k : Nat) : World := { w with rand_calls := w.rand_calls + k }

/-- The `k`-th next value of `rand()`, counted from 0. -/
def randAt (e : Env) (w : World) (k : Nat) : Nat := rand e (w.tick k)

/-- The expression `(float)rand() / RAND_MAX` for the `k`-th next call. -/
def frand (e : Env) (w : World) (k : Nat) : ℚ := (randAt e w k : ℚ) / (RAND_MAX : ℚ)

/-! ## Projection and depth utilities -/

def get_z_scale (z : ℚ) : ℚ := 0.2 + z * 0.8

def project_x (w : World) (x z : ℚ) : ℚ :=
  let perspective_strength : ℚ := 0.3
  x - w.camera_x * perspective_strength * z

def adjust_color_by_depth (color : SDL_Color) (z : ℚ) : SDL_Color :=
  let fog_factor : ℚ := 1.0 - z * 0.7
  { r := castU8 ((color.r : ℚ) * z + 0 * fog_factor)
    g := castU8 ((color.g : ℚ) * z + 5 * fog_factor)
    b := castU8 ((color.b : ℚ) * z + 30 * fog_factor)
    a := color.a }

def get_random_color (e : Env) (w : World) : SDL_Color × World :=
  ({ r := intU8 (150 + (randAt e w 0 : Int) % 105)
     g := intU8 (150 + (randAt e w 1 : Int) % 105)
     b := intU8 (150 + (randAt e w 2 : Int) % 105)
     a := intU8 (150 + (randAt e w 3 : Int) % 105) }, w.tick 4)

/-! ## Pools -/

/-- Index of the first slot that is not active: the scan
`for (i = 0; i < MAX; i++) if (!pool[i].active)`. -/
def firstFree {α : Type} (active : α → Bool) : List α → Option Nat
  | [] => none
  | a :: as => if active a then (firstFree active as).map (fun i => i + 1) else some 0

/-- Number of slots of a pool whose active flag is set. -/
def activeCount {α : Type} (active : α → Bool) (l : List α) : Nat := l.countP active

/-- The loop `for (i = lo; i < lo + n; i++) body(i)`. -/
def forLoop {σ : Type} (body : Nat → σ → σ) : Nat → Nat → σ → σ
  | _, 0, s => s
  | lo, n + 1, s => forLoop body (lo + 1) n (body lo s)

/-! ## Creating particles -/

def create_ripple (e : Env) (x y z : ℚ) (color : SDL_Color) (w : World) : World :=
  match firstFree Ripple.active w.ripples with
  | none => w
  | some i =>
    let z_radius_scale := get_z_scale z
    let rp : Ripple :=
      { x := x, y := y, z := z, radius := 0
        max_radius := ((20 + rand e w % 40 : Nat) : ℚ) * z_radius_scale
        color := color, creation_time := e.ticks, active := true }
    { w.tick 1 with ripples := w.ripples.set i rp, ripple_count := w.ripple_count + 1 }

def create_raindrop (e : Env) (on_surface : Bool) (w : World) : World :=
  match firstFree Raindrop.active w.raindrops with
  | none => w
  | some i =>
    let d0 := w.raindrops.getD i default
    let z := frand e w 0
    let z_width_scale : ℚ := 1.0 + (1.0 - z) * 2.0
    let x : ℚ := ((Int.tmod (randAt e w 1) (castInt (WINDOW_WIDTH * z_width_scale)) : Int) : ℚ)
                  - ((z_width_scale - 1.0) * WINDOW_WIDTH / 2)
    let d1 : Raindrop := { d0 with active := true, z := z, x := x }
    let w1 : World := w.tick 2
    let d2 : Raindrop :=
      if on_surface then
        { d1 with y := ((POND_HEIGHT + Int.tmod (rand e w1) (WINDOW_HEIGHT - POND_HEIGHT) : Int) : ℚ)
                  in_water := true, water_time := e.ticks }
      else
        { d1 with in_water := false, y := ((-10 - Int.tmod (rand e w1) 50 : Int) : ℚ) }
    let w2 : World := { w1.tick 1 with raindrops := w.raindrops.set i d2 }
    let w3 : World := if on_surface then create_ripple e d2.x d2.y d2.z d2.color w2 else w2
    let z_speed_scale : ℚ := 0.2 + d2.z * 0.8
    let intensity_factor : ℚ := 1.0 + ((w3.weather_intensity : ℚ) / 100.0)
    let speed_y : ℚ := ((RAINDROP_FALL_SPEED_MIN : ℚ)
        + frand e w3 0 * ((RAINDROP_FALL_SPEED_MAX - RAINDROP_FALL_SPEED_MIN : Int) : ℚ))
        * z_speed_scale * intensity_factor
    let speed_x : ℚ := w3.wind_strength * 50.0 * z_speed_scale * intensity_factor
    let cw := get_random_color e (w3.tick 1)
    let d3 : Raindrop :=
      { d2 with speed_y := speed_y, speed_x := speed_x, color := cw.1
                size := 2 + Int.tmod (rand e cw.2) 5, creation_time := e.ticks }
    { cw.2.tick 1 with raindrops := cw.2.raindrops.set i d3
                       raindrop_count := cw.2.raindrop_count + 1 }

/-- The particle written into a free splash slot by `create_splash`. -/
def new_splash (e : Env) (x y z : ℚ) (color : SDL_Color) (w : World) : Splash :=
  let angle0 : ℚ := frand e w 0 * 6.28
  let intensity_factor : ℚ := 1.0 + ((w.weather_intensity : ℚ) / 100.0)
  let speed : ℚ := (50.0 + frand e w 1 * 150.0) * intensity_factor
  let angle : ℚ := angle0 + w.wind_strength * 0.5
  { x := x, y := y, z := z
    speed_x := e.cosf angle * speed
    speed_y := e.sinf angle * speed - 200.0
    size := 1.0 + frand e w 2 * 2.0
    color := color, creation_time := e.ticks, active := true }

/-- Number of inactive slots of the splash pool. -/
def freeSplashes (w : World) : Nat := w.splashes.countP (fun s => !s.active)

/-- One pass of the inner scan of `create_splash`: the world after the first
free slot, at index `j`, has been filled. The global `splash_count` is not
touched: the `splash_count++` of the source acts on the local variable. -/
def fill_splash (e : Env) (x y z : ℚ) (color : SDL_Color) (j : Nat) (w : World) : World :=
  { w.tick 3 with splashes := w.splashes.set j (new_splash e x y z color w) }

/-! ### Facts about the free-slot scan, needed to define the splash burst -/

theorem map_succ_eq_some {o : Option Nat} {i : Nat}
    (h : o.map (fun i => i + 1) = some i) : ∃ k, o = some k ∧ k + 1 = i := by
  cases o with
  | none => simp at h
  | some k => exact ⟨k, rfl, by simpa using h⟩

theorem firstFree_lt {α : Type} (act : α → Bool) :
    ∀ (l : List α) (i : Nat), firstFree act l = some i → i < l.length
  | [], i, h => by simp [firstFree] at h
  | a :: as, i, h => by
    by_cases ha : act a = true
    · simp only [firstFree, ha, if_true] at h
      obtain ⟨k, hk, rfl⟩ := map_succ_eq_some h
      have := firstFree_lt act as k hk
      simp only [List.length_cons]; omega
    · simp only [firstFree, ha, Bool.false_eq_true, if_false, Option.some.injEq] at h
      subst h; simp

theorem firstFree_get {α : Type} (act : α → Bool) :
    ∀ (l : List α) (i : Nat), firstFree act l = some i → ∃ a, l[i]? = some a ∧ act a = false
  | [], i, h => by simp [firstFree] at h
  | a :: as, i, h => by
    by_cases ha : act a = true
    · simp only [firstFree, ha, if_true] at h
      obtain ⟨k, hk, rfl⟩ := map_succ_eq_some h
      obtain ⟨b, hb, hb2⟩ := firstFree_get act as k hk
      exact ⟨b, by simpa using hb, hb2⟩
    · simp only [firstFree, ha, Bool.false_eq_true, if_false, Option.some.injEq] at h
      subst h
      exact ⟨a, by simp, by simpa using ha⟩

theorem firstFree_none {α : Type} (act : α → Bool) :
    ∀ (l : List α), firstFree act l = none ↔ ∀ a ∈ l, act a = true
  | [] => by simp [firstFree]
  | a :: as => by
    by_cases ha : act a = true
    · simp [firstFree, ha, firstFree_none act as]
    · simp [firstFree, ha]

theorem countP_set_get {α : Type} (p : α → Bool) (b : α) :
    ∀ (l : List α) (i : Nat) (a : α), l[i]? = some a →
      (l.set i b).countP p + (if p a then 1 else 0) = l.countP p + (if p b then 1 else 0)
  | [], i, a, hget => by simp at hget
  | c :: cs, 0, a, hget => by
    have : c = a := by simpa using hget
    subst this
    simp only [List.set_cons_zero, List.countP_cons]
    omega
  | c :: cs, k + 1, a, hget => by
    have hget2 : cs[k]? = some a := by simpa using hget
    have ih := countP_set_get p b cs k a hget2
    simp only [List.set_cons_succ, List.countP_cons]
    omega

theorem freeSplashes_fill (e : Env) (x y z : ℚ) (color : SDL_Color) (j : Nat) (w : World)
    (h : firstFree Splash.active w.splashes = some j) :
    freeSplashes (fill_splash e x y z color j w) + 1 = freeSplashes w := by
  obtain ⟨a, ha, hact⟩ := firstFree_get _ _ _ h
  have := countP_set_get (fun s : Splash => !s.active)
    (new_splash e x y z color w) w.splashes j a ha
  simp only [hact, new_splash, Bool.not_false, Bool.not_true, if_true, Bool.false_eq_true,
    if_false, Nat.add_zero] at this
  simp only [freeSplashes, fill_splash, World.tick, new_splash]
  exact this

/-- The outer loop of `create_splash`, `for (i = 0; i < splash_count; i++)`,
where `n` is the local variable `splash_count`: every pass that fills a slot
also increments `n`. -/
def create_splash_loop (e : Env) (x y z : ℚ) (color : SDL_Color) (i n : Int) (w : World) :
    World :=
  if i < n then
    match h : firstFree Splash.active w.splashes with
    | some j => create_splash_loop e x y z color (i + 1) (n + 1) (fill_splash e x y z color j w)
    | none => create_splash_loop e x y z color (i + 1) n w
  else w
termination_by freeSplashes w + (n - i).toNat
decreasing_by
  · have := freeSplashes_fill e x y z color j w h
    have h2 : (n + 1 - (i + 1)) = n - i := by ring
    rw [h2]; omega
  · have h2 : (n - (i + 1)).toNat + 1 = (n - i).toNat := by omega
    omega

def create_splash (e : Env) (x y z : ℚ) (color : SDL_Color) (w : World) : World :=
  let splash_count0 : Int := 5 + Int.tmod (rand e w) 8
  let splash_count1 : Int :=
    castInt ((splash_count0 : ℚ) * (1.0 + (w.weather_intensity : ℚ) / 100.0))
  create_splash_loop e x y z color 0 splash_count1 (w.tick 1)

/-- The path loop of `create_lightning`, `for (j = 1; j <= segments; j++)`, for
the bolt in slot `i`; `k` is the number of passes still to run and `branch`
stands for the recursive call `create_lightning(.., .., .., .., 1)`. -/
def lightning_path (e : Env) (i : Nat) (segments width type : Int)
    (zigzag_factor branch_prob : ℚ) (branch : Int → Int → Int → Int → World → World) :
    Nat → Int → Int → Int → World → World
  | 0, _, _, _, w => w
  | k + 1, j, current_x, current_y, w =>
    let current_x1 : Int := current_x
      + (Int.tmod (rand e w) (castInt zigzag_factor) - castInt (zigzag_factor / 2))
    let current_y0 : Int := current_y + Int.tdiv WINDOW_HEIGHT segments
    let current_y1 : Int := if current_y0 > POND_HEIGHT then POND_HEIGHT else current_y0
    let l := w.lightnings.getD i default
    let w1 : World :=
      { w.tick 1 with
        lightnings := w.lightnings.set i
          { l with points := l.points.set j.toNat (current_x1, current_y1) } }
    let w2 : World :=
      if type = 0 ∧ segments > 3 ∧ j > 1 ∧ j < segments - 1 then
        if ((Int.tmod (rand e w1) 100 : Int) : ℚ) < branch_prob then
          let branch_segments0 : Int := Int.tdiv segments 2
          let branch_segments : Int :=
            if w1.weather_intensity > 70 then branch_segments0 + 1 else branch_segments0
          branch current_x1 current_y1 branch_segments (width - 1) (w1.tick 1)
        else w1.tick 1
      else w1
    lightning_path e i segments width type zigzag_factor branch_prob branch
      k (j + 1) current_x1 current_y1 w2

/-- The function `create_lightning`. The recursive call sits in the path loop and
is made only for `type = 0`; the test is repeated around the call so that the
recursion is visibly well founded (a call with `type = 1` makes no call). -/
def create_lightning (e : Env) (x y segments width type : Int) (w : World) : World :=
  match firstFree Lightning.active w.lightnings with
  | none => w
  | some i =>
    let l0 := w.lightnings.getD i default
    let brightness0 : Nat := intU8 (180 + Int.tmod (rand e w) 75 + Int.tdiv w.weather_intensity 2)
    let brightness : Nat := if brightness0 > 255 then 255 else brightness0
    let duration_factor : ℚ := 1.0 + ((w.weather_intensity : ℚ) / 100.0)
    let duration : Int := castInt (((100 + Int.tmod (randAt e w 1) 200 : Int) : ℚ) * duration_factor)
    let l1 : Lightning :=
      { l0 with active := true, segments := segments, width := width, type := type
                brightness := brightness, creation_time := e.ticks, duration := duration
                points := l0.points.set 0 (x, y) }
    let zigzag_factor : ℚ := 40.0 * (1.0 + (w.weather_intensity : ℚ) / 200.0)
    let branch_prob : ℚ := 30.0 * (1.0 + (w.weather_intensity : ℚ) / 150.0)
    let w1 : World := { w.tick 2 with lightnings := w.lightnings.set i l1 }
    let w2 : World :=
      lightning_path e i segments width type zigzag_factor branch_prob
        (fun bx bY bs bw w' =>
          if _h : type = 0 then create_lightning e bx bY bs bw 1 w' else w')
        segments.toNat 1 x y w1
    { w2 with lightning_count := w2.lightning_count + 1 }
termination_by (if type = 0 then 1 else 0 : Nat)
decreasing_by
  simp [_h]

/-! ## Collision -/

/-- The test `sqrtf(d) < r` for `d ≥ 0`, decided on the squares. -/
def sqrtf_lt (d r : ℚ) : Bool := decide (0 < r ∧ d < r * r)

/-- Body of the loop of `check_raindrop_lotus_collision` for one pad: whether
this pad makes the function return true. -/
def pad_hit (w : World) (raindrop : Raindrop) (pad : LotusPad) : Bool :=
  let proj_x := project_x w raindrop.x raindrop.z
  let pad_proj_x := project_x w pad.x pad.z
  if fabsf (raindrop.z - pad.z) < 0.2 then
    let dx := proj_x - pad_proj_x
    let dy := raindrop.y - pad.y
    let tilt_factor : ℚ := 1.0 + fabsf pad.tilt_angle * 0.5
    let scaled_radius : ℚ := pad.radius / tilt_factor
    sqrtf_lt (dx * dx + dy * dy) scaled_radius
  else false

def check_raindrop_lotus_collision (w : World) (raindrop : Raindrop) : Bool :=
  w.lotus_pads.any (pad_hit w raindrop)

/-! ## Updating particles -/

/-- Body of the loop of `update_raindrops` for slot `i`. -/
def update_raindrops_body (e : Env) (current_time : Nat) (delta_time : ℚ) (i : Nat)
    (w : World) : World :=
  match w.raindrops[i]? with
  | none => w
  | some d =>
    if d.active then
      if !d.in_water then
        let wind_effect0 : ℚ := w.wind_strength * 100.0 * delta_time
        let heavy : Bool := decide (w.current_weather ≥ WEATHER_HEAVY_RAIN)
        let wind_effect : ℚ :=
          if heavy then
            wind_effect0 + (frand e w 0 * 2.0 - 1.0) * 20.0 * delta_time
              * (0.5 + (w.weather_intensity : ℚ) / 100.0)
          else wind_effect0
        let w1 : World := if heavy then w.tick 1 else w
        let d1 : Raindrop := { d with x := d.x + (d.speed_x * delta_time + wind_effect) }
        let d2 : Raindrop := { d1 with y := d1.y + d1.speed_y * delta_time }
        if Int.tmod w1.raindrop_count 5 = 0 ∧ check_raindrop_lotus_collision w1 d2 = true then
          let d3 : Raindrop := { d2 with in_water := true, water_time := current_time }
          create_splash e d3.x d3.y d3.z d3.color { w1 with raindrops := w1.raindrops.set i d3 }
        else if d2.y ≥ (POND_HEIGHT : ℚ) then
          let d3 : Raindrop := { d2 with in_water := true, water_time := current_time }
          create_ripple e d3.x (POND_HEIGHT : ℚ) d3.z d3.color
            { w1 with raindrops := w1.raindrops.set i d3 }
        else { w1 with raindrops := w1.raindrops.set i d2 }
      else
        if u32sub current_time d.water_time > 500 then
          { w with raindrops := w.raindrops.set i { d with active := false }
                   raindrop_count := w.raindrop_count - 1 }
        else w
    else w

def update_raindrops (e : Env) (current_time : Nat) (delta_time : ℚ) (w : World) : World :=
  forLoop (update_raindrops_body e current_time delta_time) 0 w.raindrops.length w

/-- Body of the loop of `update_ripples` for slot `i`. -/
def update_ripples_body (current_time : Nat) (i : Nat) (w : World) : World :=
  match w.ripples[i]? with
  | none => w
  | some r =>
    if r.active then
      let ripple_age : Nat := u32sub current_time r.creation_time
      let progress0 : ℚ := f32 (f32 (ripple_age : ℚ) / f32 (RIPPLE_LIFETIME : ℚ))
      let progress : ℚ := if progress0 > 1.0 then 1.0 else progress0
      let r1 : Ripple :=
        { r with radius := f32 (r.max_radius * progress)
                 color := { r.color with a := castU8 (f32 (f32 255 * f32 (1.0 - progress))) } }
      if ripple_age ≥ RIPPLE_LIFETIME then
        { w with ripples := w.ripples.set i { r1 with active := false }
                 ripple_count := w.ripple_count - 1 }
      else { w with ripples := w.ripples.set i r1 }
    else w

def update_ripples (current_time : Nat) (w : World) : World :=
  forLoop (update_ripples_body current_time) 0 w.ripples.length w

/-- Body of the loop of `update_splashes` for slot `i`. The two `if` statements
of the source follow one another; the second is not an `else` of the first. -/
def update_splashes_body (e : Env) (current_time : Nat) (delta_time : ℚ) (i : Nat)
    (w : World) : World :=
  match w.splashes[i]? with
  | none => w
  | some s =>
    if s.active then
      let splash_age : Nat := u32sub current_time s.creation_time
      let s1 : Splash := { s with speed_y := s.speed_y + 500.0 * delta_time }
      let s2 : Splash := { s1 with x := s1.x + s1.speed_x * delta_time
                                   y := s1.y + s1.speed_y * delta_time }
      let progress : ℚ := (splash_age : ℚ) / (SPLASH_LIFETIME : ℚ)
      let s3 : Splash := if progress > 1.0 then { s2 with active := false } else s2
      let w1 : World :=
        { w with splashes := w.splashes.set i s3
                 splash_count := if progress > 1.0 then w.splash_count - 1 else w.splash_count }
      if s3.y ≥ (POND_HEIGHT : ℚ) ∧ s3.speed_y > 0 then
        let ripple_color : SDL_Color :=
          { s3.color with a := castU8 ((s3.color.a : ℚ) * (1.0 - progress)) }
        let w2 : World := create_ripple e s3.x (POND_HEIGHT : ℚ) s3.z ripple_color w1
        { w2 with splashes := w2.splashes.set i { s3 with active := false }
                  splash_count := w2.splash_count - 1 }
      else w1
    else w

def update_splashes (e : Env) (current_time : Nat) (delta_time : ℚ) (w : World) : World :=
  forLoop (update_splashes_body e current_time delta_time) 0 w.splashes.length w

/-- Conversion of an `int` to `Uint32`, as in the comparison of a `Uint32`
with an `int`. -/
def intU32 (n : Int) : Nat := (n % 4294967296).toNat

/-- Body of the loop of `update_lightning` for slot `i`. -/
def update_lightning_body (current_time : Nat) (i : Nat) (w : World) : World :=
  match w.lightnings[i]? with
  | none => w
  | some l =>
    if l.active then
      let lightning_age : Nat := u32sub current_time l.creation_time
      if lightning_age ≥ intU32 l.duration then
        { w with lightnings := w.lightnings.set i { l with active := false }
                 lightning_count := w.lightning_count - 1 }
      else w
    else w

def update_lightning (current_time : Nat) (w : World) : World :=
  forLoop (update_lightning_body current_time) 0 w.lightnings.length w

/-! ## Weather and wind -/

/-- The loop `do target_weather = rand() % WEATHER_COUNT; while (target_weather ==
current_weather)`. It runs for as long as `rand()` keeps returning the current
tier, so the model takes a bound on the number of passes and yields `none` when
the bound is reached. -/
def pick_target_weather (e : Env) : Nat → World → Option World
  | 0, _ => none
  | fuel + 1, w =>
    let w1 : World := { w.tick 1 with target_weather := rand e w % WEATHER_COUNT }
    if w1.target_weather = w1.current_weather then pick_target_weather e fuel w1 else some w1

/-- First statement of `update_weather_and_wind`: the dwell test and the choice
of a new target tier. -/
def weather_trigger (e : Env) (fuel : Nat) (current_time : Nat) (w : World) : Option World :=
  let weather_duration : Nat :=
    (weather_duration_min + rand e w % (weather_duration_max - weather_duration_min))
      % 4294967296
  let w1 : World := w.tick 1
  if u32sub current_time w1.last_weather_change_time > weather_duration
      ∧ w1.current_weather = w1.target_weather then
    (pick_target_weather e fuel w1).map
      (fun w2 => { w2 with last_weather_change_time := current_time })
  else some w1

/-- Second statement of `update_weather_and_wind`: the tier change and the new
wind target. -/
def weather_transition (e : Env) (w : World) : World :=
  if w.current_weather ≠ w.target_weather then
    let w1 : World := { w with current_weather := w.target_weather }
    if w1.current_weather = WEATHER_LIGHT_RAIN then
      { w1.tick 1 with target_wind_strength := -0.2 + frand e w1 0 * 0.4 }
    else if w1.current_weather = WEATHER_MEDIUM_RAIN then
      { w1.tick 1 with target_wind_strength := -0.5 + frand e w1 0 * 1.0 }
    else if w1.current_weather = WEATHER_HEAVY_RAIN then
      { w1.tick 1 with target_wind_strength := -0.8 + frand e w1 0 * 1.6 }
    else if w1.current_weather = WEATHER_THUNDERSTORM then
      { w1.tick 1 with target_wind_strength := -1.0 + frand e w1 0 * 2.0 }
    else w1
  else w

/-- Third statement of `update_weather_and_wind`: the random nudge of the wind
target. -/
def wind_nudge (e : Env) (w : World) : World :=
  let w1 : World := w.tick 1
  if rand e w % 100 = 0 then
    let wind_variance0 : ℚ :=
      if w1.current_weather = WEATHER_LIGHT_RAIN then 0.1
      else if w1.current_weather = WEATHER_MEDIUM_RAIN then 0.2
      else if w1.current_weather = WEATHER_HEAVY_RAIN then 0.4
      else if w1.current_weather = WEATHER_THUNDERSTORM then 0.5
      else 0.0
    let wind_variance : ℚ := wind_variance0 * (0.5 + (w1.weather_intensity : ℚ) / 100.0)
    let t0 : ℚ := w1.target_wind_strength + (frand e w1 0 * 2.0 - 1.0) * wind_variance
    let t1 : ℚ := if t0 > 1.0 then 1.0 else t0
    let t2 : ℚ := if t1 < -1.0 then -1.0 else t1
    { w1.tick 1 with target_wind_strength := t2 }
  else w1

/-- Last statement of `update_weather_and_wind`: the wind eases toward its
target. -/
def wind_ease (w : World) : World :=
  let wind_diff : ℚ := w.target_wind_strength - w.wind_strength
  if fabsf wind_diff > 0.01 then
    { w with wind_strength := w.wind_strength + wind_diff * wind_change_speed }
  else { w with wind_strength := w.target_wind_strength }

def update_weather_and_wind (e : Env) (fuel : Nat) (current_time : Nat) (w : World) :
    Option World :=
  (weather_trigger e fuel current_time w).map
    (fun w1 => wind_ease (wind_nudge e (weather_transition e w1)))

/-! ## Keyboard commands of `main` -/

/-- The case `SDLK_UP` of the event switch. -/
def handle_SDLK_UP (w : World) : World :=
  let v : Int := w.weather_intensity + 10
  { w with weather_intensity := if v > 100 then 100 else v }

/-- The case `SDLK_DOWN` of the event switch. -/
def handle_SDLK_DOWN (w : World) : World :=
  let v : Int := w.weather_intensity - 10
  { w with weather_intensity := if v < 0 then 0 else v }

/-- The two intensity commands. -/
inductive IntensityKey where
  | up
  | down
deriving DecidableEq

def handle_intensity_key : IntensityKey → World → World
  | .up, w => handle_SDLK_UP w
  | .down, w => handle_SDLK_DOWN w

/-! ## The state at program start -/

def zero_color : SDL_Color := { r := 0, g := 0, b := 0, a := 0 }

def zero_raindrop : Raindrop :=
  { x := 0, y := 0, z := 0, speed_y := 0, speed_x := 0, color := zero_color, size := 0
    active := false, in_water := false, creation_time := 0, water_time := 0 }

def zero_ripple : Ripple :=
  { x := 0, y := 0, z := 0, radius := 0, max_radius := 0, color := zero_color
    creation_time := 0, active := false }

def zero_splash : Splash :=
  { x := 0, y := 0, z := 0, speed_x := 0, speed_y := 0, size := 0, color := zero_color
    creation_time := 0, active := false }

def zero_lightning : Lightning :=
  { segments := 0, points := List.replicate 20 (0, 0), width := 0, brightness := 0
    creation_time := 0, duration := 0, active := false, type := 0 }

def zero_lotus_pad : LotusPad :=
  { x := 0, y := 0, z := 0, radius := 0, wave_phase := 0, wave_speed := 0, tilt_angle := 0
    color := zero_color }

/-- The global variables as the program starts: zeroed arrays and the
initialisers of the source. -/
def initial_world : World :=
  { raindrops := List.replicate MAX_RAINDROPS zero_raindrop
    ripples := List.replicate MAX_RIPPLES zero_ripple
    splashes := List.replicate MAX_SPLASHES zero_splash
    lightnings := List.replicate MAX_LIGHTNING zero_lightning
    lotus_pads := List.replicate LOTUS_PAD_COUNT zero_lotus_pad
    raindrop_count := 0, ripple_count := 0, splash_count := 0, lightning_count := 0
    camera_x := 0, camera_target_x := 0, camera_moving := false
    wind_strength := 0, target_wind_strength := 0
    current_weather := WEATHER_LIGHT_RAIN, target_weather := WEATHER_LIGHT_RAIN
    last_weather_change_time := 0, weather_intensity := 50
    thunder_active := false, thunder_start_time := 0, thunder_duration := 0
    rand_calls := 0 }

/-- A state in which every pool has the capacity of the source, every slot is
inactive and every counter is zero; the other globals are arbitrary. -/
def World.Fresh (w : World) : Prop :=
  w.raindrops.length = MAX_RAINDROPS ∧ w.ripples.length = MAX_RIPPLES
  ∧ w.splashes.length = MAX_SPLASHES ∧ w.lightnings.length = MAX_LIGHTNING
  ∧ (∀ d ∈ w.raindrops, d.active = false) ∧ (∀ r ∈ w.ripples, r.active = false)
  ∧ (∀ s ∈ w.splashes, s.active = false) ∧ (∀ l ∈ w.lightnings, l.active = false)
  ∧ w.raindrop_count = 0 ∧ w.ripple_count = 0 ∧ w.splash_count = 0 ∧ w.lightning_count = 0

/-- An environment for concrete runs: `rand()` always returns the value `n`,
the clock reads 0, and the trigonometric functions are constant. -/
def const_env (n : Nat) : Env :=
  { rnd := fun _ => n, ticks := 0, cosf := fun _ => 1, sinf := fun _ => 0 }

/-- A state in which every slot of every pool is in use. -/
def full_world : World :=
  { initial_world with
    raindrops := List.replicate MAX_RAINDROPS { zero_raindrop with active := true }
    ripples := List.replicate MAX_RIPPLES { zero_ripple with active := true }
    splashes := List.replicate MAX_SPLASHES { zero_splash with active := true }
    lightnings := List.replicate MAX_LIGHTNING { zero_lightning with active := true }
    raindrop_count := 1000, ripple_count := 500, splash_count := 300, lightning_count := 5 }

/-- A splash particle older than `SPLASH_LIFETIME` at time 1000, one pixel above
the water line and moving down. -/
def old_splash : Splash :=
  { x := 0, y := 399, z := 1 / 2, speed_x := 0, speed_y := 100, size := 1
    color := { r := 200, g := 200, b := 200, a := 200 }, creation_time := 0, active := true }

/-- The start state with `old_splash` in slot 0 of the splash pool and the
counter of active splashes at 1. -/
def one_splash_world : World :=
  { initial_world with
    splashes := old_splash :: List.replicate 299 zero_splash
    splash_count := 1 }

/-! ## Sequences of calls -/

/-- A call of one of the particle functions, with its arguments. -/
inductive Call where
  | create_raindrop (on_surface : Bool)
  | create_ripple (x y z : ℚ) (color : SDL_Color)
  | create_splash (x y z : ℚ) (color : SDL_Color)
  | create_lightning (x y segments width type : Int)
  | update_raindrops (current_time : Nat) (delta_time : ℚ)
  | update_ripples (current_time : Nat)
  | update_splashes (current_time : Nat) (delta_time : ℚ)
  | update_lightning (current_time : Nat)

/-- The state after one call, made in environment `e`. -/
def Call.exec (e : Env) : Call → World → World
  | .create_raindrop on_surface, w => NightRain.create_raindrop e on_surface w
  | .create_ripple x y z color, w => NightRain.create_ripple e x y z color w
  | .create_splash x y z color, w => NightRain.create_splash e x y z color w
  | .create_lightning x y segments width type, w =>
      NightRain.create_lightning e x y segments width type w
  | .update_raindrops t dt, w => NightRain.update_raindrops e t dt w
  | .update_ripples t, w => NightRain.update_ripples t w
  | .update_splashes t dt, w => NightRain.update_splashes e t dt w
  | .update_lightning t, w => NightRain.update_lightning t w

/-- The state after a sequence of calls, each made in its own environment. -/
def run : List (Env × Call) → World → World
  | [], w => w
  | (e, c) :: cs, w => run cs (c.exec e w)

/-- The arguments of a call respect the capacity of the `points` array:
`create_lightning` is called with at most 19 segments. -/
def Call.inBounds : Call → Prop
  | .create_lightning _ _ segments _ _ => segments ≤ 19
  | _ => True

/-- The counters of the raindrop, ripple and lightning pools agree with the
pools, up to the offsets `kr` and `kl` (0 between calls; 1 inside `create_raindrop`
and `create_lightning`, between the activation of a slot and the increment of its
counter), and the pools have the capacities of the source. -/
def PoolInv (kr kl : Int) (w : World) : Prop :=
  w.raindrop_count + kr = (activeCount Raindrop.active w.raindrops : Int)
  ∧ w.ripple_count = (activeCount Ripple.active w.ripples : Int)
  ∧ w.lightning_count + kl = (activeCount Lightning.active w.lightnings : Int)
  ∧ w.raindrops.length = MAX_RAINDROPS
  ∧ w.ripples.length = MAX_RIPPLES
  ∧ w.lightnings.length = MAX_LIGHTNING

/-! ## Per-slot effect of the update loops on the active flag -/

def MAX_CLOUD_LAYERS : Nat := 7

def update_camera (w : World) : World :=
  if w.camera_moving then
    let move_speed : ℚ := f32 0.1
    let diff : ℚ := f32 (w.camera_target_x - w.camera_x)
    if fabsf diff < 0.5 then
      { w with camera_x := w.camera_target_x, camera_moving := false }
    else
      { w with camera_x := f32 (w.camera_x + f32 (diff * move_speed)) }
  else w

/-- The state after `n` calls of `update_camera`. -/
def camera_steps : Nat → World → World
  | 0, w => w
  | n + 1, w => camera_steps n (update_camera w)

/-- Distance of the camera from its target. -/
def camera_distance (w : World) : ℚ := fabsf (w.camera_target_x - w.camera_x)

def get_rain_interval (weather : Nat) (intensity : Int) : ℚ :=
  let base_interval : ℚ :=
    if weather = WEATHER_LIGHT_RAIN then 150.0
    else if weather = WEATHER_MEDIUM_RAIN then 80.0
    else if weather = WEATHER_HEAVY_RAIN ∨ weather = WEATHER_THUNDERSTORM then 20.0
    else 100.0
  base_interval * (1.0 - (intensity : ℚ) / 200.0)

def update_thunder (current_time : Nat) (w : World) : World :=
  if w.thunder_active = true ∧ current_time ≥ w.thunder_start_time then
    if u32sub current_time w.thunder_start_time > intU32 w.thunder_duration then
      { w with thunder_active := false }
    else w
  else w

/-- The case `SDLK_SPACE` of the event switch. The two `rand()` calls in the
argument list of `create_lightning` are taken from left to right. -/
def handle_SDLK_SPACE (e : Env) (current_time : Nat) (w : World) : World :=
  if w.current_weather ≥ WEATHER_HEAVY_RAIN then
    let x : Int := Int.tdiv WINDOW_WIDTH 2 + Int.tmod (randAt e w 0) 300 - 150
    let segments : Int := 5 + Int.tmod (randAt e w 1) 10
    let width : Int := 2 + Int.tmod (randAt e w 2) 3
    let w1 : World := create_lightning e x 0 segments width 0 (w.tick 3)
    { w1.tick 1 with
      thunder_active := true
      thunder_start_time := current_time
      thunder_duration := 1000 + Int.tmod (rand e w1) 2000 }
  else w

/-- The local variable `cloud_layers` of `render` when the loop over the cloud
layers starts. -/
def cloud_layers (w : World) : Int :=
  let cloud_layers0 : Int := 3
  let cloud_layers1 : Int := if w.current_weather = WEATHER_HEAVY_RAIN then 5 else cloud_layers0
  let cloud_layers2 : Int :=
    if w.current_weather = WEATHER_THUNDERSTORM then 7 else cloud_layers1
  castInt ((cloud_layers2 : ℚ) * (0.7 + (w.weather_intensity : ℚ) / 100.0 * 0.6))

/-- The values of `layer` with which `render` reads and writes
`cloud_offsets[layer]` and reads `cloud_textures[layer]`, in the order of the loop
`for (layer = cloud_layers - 1; layer >= 0; layer--)`. -/
def cloud_layer_indices (w : World) : List Nat :=
  if w.current_weather ≥ WEATHER_MEDIUM_RAIN then
    (List.range (cloud_layers w).toNat).reverse
  else []

/-! ## The slot written by `create_lightning` -/

/-- The slot of `create_lightning` as it is written before the path loop starts:
the fields of the bolt and point 0 of its path; `l0` is the old content. -/
def new_lightning (e : Env) (x y segments width type : Int) (w : World) (l0 : Lightning) :
    Lightning :=
  { l0 with
    active := true, segments := segments, width := width, type := type
    brightness :=
      if intU8 (180 + Int.tmod (rand e w) 75 + Int.tdiv w.weather_intensity 2) > 255 then 255
      else intU8 (180 + Int.tmod (rand e w) 75 + Int.tdiv w.weather_intensity 2)
    creation_time := e.ticks
    duration := castInt (((100 + Int.tmod (randAt e w 1) 200 : Int) : ℚ)
      * (1.0 + ((w.weather_intensity : ℚ) / 100.0)))
    points := l0.points.set 0 (x, y) }

/-- The value of `current_y` after `t` passes of the path loop that start from
`current_y`. -/
def path_y (segments : Int) : Nat → Int → Int
  | 0, current_y => current_y
  | t + 1, current_y =>
    path_y segments t
      (if current_y + Int.tdiv WINDOW_HEIGHT segments > POND_HEIGHT then POND_HEIGHT
       else current_y + Int.tdiv WINDOW_HEIGHT segments)

/-- The variable `progress` of `update_ripples` for a ripple of the given age:
the `float` quotient of the age by `RIPPLE_LIFETIME`, capped at 1. -/
def ripple_progress (age : Nat) : ℚ :=
  let progress0 : ℚ := f32 (f32 (age : ℚ) / f32 (RIPPLE_LIFETIME : ℚ))
  if progress0 > 1.0 then 1.0 else progress0

/-- The `float` value that `update_ripples` converts to the alpha channel. -/
def ripple_alpha_value (age : Nat) : ℚ := f32 (f32 255 * f32 (1.0 - ripple_progress age))

/-- What `update_ripples` does to a slot that is in use: the radius and the alpha
channel are recomputed from the age, the slot is released at `RIPPLE_LIFETIME`,
and nothing else is written. -/
def ripple_growth (t : Nat) (r r2 : Ripple) : Prop :=
  r.active = true →
    r2 = { r with
      radius := f32 (r.max_radius * ripple_progress (u32sub t r.creation_time))
      color := { r.color with
        a := castU8 (ripple_alpha_value (u32sub t r.creation_time)) }
      active := decide (u32sub t r.creation_time < RIPPLE_LIFETIME) }

/-- A state with one ripple in use, created at time 0 with full alpha. -/
def one_ripple_world : World :=
  { initial_world with
    ripples := { zero_ripple with
        active := true, max_radius := 40, color := { r := 200, g := 220, b := 255, a := 255 } }
      :: List.replicate 499 zero_ripple
    ripple_count := 1 }

/-- The state after the wind draw that `update_raindrops` makes for an airborne
drop: one value of `rand()` is consumed in heavy rain and in a thunderstorm. -/
def wind_drawn (w : World) : World :=
  if w.current_weather ≥ WEATHER_HEAVY_RAIN then w.tick 1 else w

/-- An airborne drop after the integration step of `update_raindrops`. -/
def moved_raindrop (e : Env) (delta_time : ℚ) (w : World) (d : Raindrop) : Raindrop :=
  let wind_effect0 : ℚ := w.wind_strength * 100.0 * delta_time
  let wind_effect : ℚ :=
    if w.current_weather ≥ WEATHER_HEAVY_RAIN then
      wind_effect0 + (frand e w 0 * 2.0 - 1.0) * 20.0 * delta_time
        * (0.5 + (w.weather_intensity : ℚ) / 100.0)
    else wind_effect0
  { d with x := d.x + (d.speed_x * delta_time + wind_effect)
           y := d.y + d.speed_y * delta_time }

/-- What `update_raindrops` does to a slot that holds an airborne drop on entry:
the drop stays active, `y` is integrated, depth and colour are kept, and a drop
at or below the water line is in water with `water_time` the time of the call. -/
def raindrop_fall (t : Nat) (dt : ℚ) (d d2 : Raindrop) : Prop :=
  d.active = true → d.in_water = false →
    d2.active = true ∧ d2.y = d.y + d.speed_y * dt ∧ d2.z = d.z ∧ d2.color = d.color
    ∧ (d2.y ≥ (POND_HEIGHT : ℚ) → d2.in_water = true)
    ∧ (d2.in_water = true → d2.water_time = t)

/-- No drop that is in water is old enough to be released at time `t`. -/
def NoExpiry (t : Nat) (w : World) : Prop :=
  ∀ d ∈ w.raindrops, d.active = true → d.in_water = true → u32sub t d.water_time ≤ 500

/-- A lotus pad of radius 30 centred at `(100, 300)`, at depth 0.5, not tilted. -/
def leaf_pad : LotusPad :=
  { zero_lotus_pad with x := 100, y := 300, z := 0.5, radius := 30 }

/-- An airborne drop at the centre of `leaf_pad`, above the water line. -/
def leaf_drop : Raindrop :=
  { zero_raindrop with x := 100, y := 300, z := 0.5, speed_y := 300, active := true }

/-- A state with five airborne drops, in slots 0 to 4 of the raindrop pool, all
at the centre of the one lotus pad that has a radius; `raindrop_count` is 5. -/
def leaf_world : World :=
  { initial_world with
    raindrops := List.replicate 5 leaf_drop ++ List.replicate 995 zero_raindrop
    lotus_pads := leaf_pad :: List.replicate 24 zero_lotus_pad
    raindrop_count := 5 }

/-- The body of `create_lightning` with the recursive call replaced by `branch`. -/
def create_lightning_with (branch : Int → Int → Int → Int → World → World)
    (e : Env) (x y segments width type : Int) (w : World) : World :=
  match firstFree Lightning.active w.lightnings with
  | none => w
  | some i =>
    let l0 := w.lightnings.getD i default
    let brightness0 : Nat := intU8 (180 + Int.tmod (rand e w) 75 + Int.tdiv w.weather_intensity 2)
    let brightness : Nat := if brightness0 > 255 then 255 else brightness0
    let duration_factor : ℚ := 1.0 + ((w.weather_intensity : ℚ) / 100.0)
    let duration : Int := castInt (((100 + Int.tmod (randAt e w 1) 200 : Int) : ℚ) * duration_factor)
    let l1 : Lightning :=
      { l0 with active := true, segments := segments, width := width, type := type
                brightness := brightness, creation_time := e.ticks, duration := duration
                points := l0.points.set 0 (x, y) }
    let zigzag_factor : ℚ := 40.0 * (1.0 + (w.weather_intensity : ℚ) / 200.0)
    let branch_prob : ℚ := 30.0 * (1.0 + (w.weather_intensity : ℚ) / 150.0)
    let w1 : World := { w.tick 2 with lightnings := w.lightnings.set i l1 }
    let w2 : World :=
      lightning_path e i segments width type zigzag_factor branch_prob branch
        segments.toNat 1 x y w1
    { w2 with lightning_count := w2.lightning_count + 1 }

/-- A call of `create_lightning` in which no recursive call is made. -/
def create_lightning_leaf (e : Env) (x y segments width type : Int) (w : World) : World :=
  create_lightning_with (fun _ _ _ _ v => v) e x y segments width type w

/-- Run-time faults of `create_lightning`: a write outside `points[0..19]`, and a
division or remainder with divisor zero. -/
inductive Fault where
  | index_out_of_bounds
  | zero_divisor
  deriving DecidableEq

/-- The path loop of `create_lightning` with its run-time checks made explicit:
the remainder by `(int)zigzag_factor`, the division by `segments` and the write
to `points[j]` (capacity 20) are checked in the order the source evaluates them;
`branch` stands for the recursive call. -/
def lightning_path_checked (e : Env) (i : Nat) (segments width type : Int)
    (zigzag_factor branch_prob : ℚ)
    (branch : Int → Int → Int → Int → World → Except Fault World) :
    Nat → Int → Int → Int → World → Except Fault World
  | 0, _, _, _, w => Except.ok w
  | k + 1, j, current_x, current_y, w =>
    if castInt zigzag_factor = 0 then Except.error Fault.zero_divisor
    else if segments = 0 then Except.error Fault.zero_divisor
    else if j < 0 ∨ j ≥ 20 then Except.error Fault.index_out_of_bounds
    else
      let current_x1 : Int := current_x
        + (Int.tmod (rand e w) (castInt zigzag_factor) - castInt (zigzag_factor / 2))
      let current_y0 : Int := current_y + Int.tdiv WINDOW_HEIGHT segments
      let current_y1 : Int := if current_y0 > POND_HEIGHT then POND_HEIGHT else current_y0
      let l := w.lightnings.getD i default
      let w1 : World :=
        { w.tick 1 with
          lightnings := w.lightnings.set i
            { l with points := l.points.set j.toNat (current_x1, current_y1) } }
      let r2 : Except Fault World :=
        if type = 0 ∧ segments > 3 ∧ j > 1 ∧ j < segments - 1 then
          if ((Int.tmod (rand e w1) 100 : Int) : ℚ) < branch_prob then
            let branch_segments0 : Int := Int.tdiv segments 2
            let branch_segments : Int :=
              if w1.weather_intensity > 70 then branch_segments0 + 1 else branch_segments0
            branch current_x1 current_y1 branch_segments (width - 1) (w1.tick 1)
          else Except.ok (w1.tick 1)
        else Except.ok w1
      r2.bind (fun w2 =>
        lightning_path_checked e i segments width type zigzag_factor branch_prob branch
          k (j + 1) current_x1 current_y1 w2)

/-- The body of `create_lightning` with its run-time checks made explicit and the
recursive call replaced by `branch`. The write to `points[0]` and the divisions
by constants cannot fault. -/
def create_lightning_checked_with (branch : Int → Int → Int → Int → World → Except Fault World)
    (e : Env) (x y segments width type : Int) (w : World) : Except Fault World :=
  match firstFree Lightning.active w.lightnings with
  | none => Except.ok w
  | some i =>
    let l0 := w.lightnings.getD i default
    let brightness0 : Nat := intU8 (180 + Int.tmod (rand e w) 75 + Int.tdiv w.weather_intensity 2)
    let brightness : Nat := if brightness0 > 255 then 255 else brightness0
    let duration_factor : ℚ := 1.0 + ((w.weather_intensity : ℚ) / 100.0)
    let duration : Int := castInt (((100 + Int.tmod (randAt e w 1) 200 : Int) : ℚ) * duration_factor)
    let l1 : Lightning :=
      { l0 with active := true, segments := segments, width := width, type := type
                brightness := brightness, creation_time := e.ticks, duration := duration
                points := l0.points.set 0 (x, y) }
    let zigzag_factor : ℚ := 40.0 * (1.0 + (w.weather_intensity : ℚ) / 200.0)
    let branch_prob : ℚ := 30.0 * (1.0 + (w.weather_intensity : ℚ) / 150.0)
    let w1 : World := { w.tick 2 with lightnings := w.lightnings.set i l1 }
    (lightning_path_checked e i segments width type zigzag_factor branch_prob branch
        segments.toNat 1 x y w1).bind
      (fun w2 => Except.ok { w2 with lightning_count := w2.lightning_count + 1 })

/-- The function `create_lightning` with its run-time checks made explicit. The
recursive calls have type 1 and make no further call. -/
def create_lightning_checked (e : Env) (x y segments width type : Int) (w : World) :
    Except Fault World :=
  create_lightning_checked_with
    (fun bx bY bs bw v =>
      if type = 0 then
        create_lightning_checked_with (fun _ _ _ _ u => Except.ok u) e bx bY bs bw 1 v
      else Except.ok v)
    e x y segments width type w

/-- A checked run ends without fault in a state of weather intensity `c`, or
stops at a write outside `points`. -/
def NoZeroDivisor (c : Int) : Except Fault World → Prop
  | Except.ok v => v.weather_intensity = c
  | Except.error f => f = Fault.index_out_of_bounds

/-- A state far from the origin in which the moving camera is at distance 0.5
from its target. -/
def stalled_camera_world : World :=
  { initial_world with
    camera_x := 1048999.5, camera_target_x := 1049000, camera_moving := true }

/-- The local variable `weather_duration` of `update_weather_and_wind`: the dwell
time drawn at the start of the call. -/
def weather_duration_drawn (e : Env) (w : World) : Nat :=
  (weather_duration_min + rand e w % (weather_duration_max - weather_duration_min))
    % 4294967296

/-- The state at program start, but settled in heavy rain. -/
def heavy_rain_world : World :=
  { initial_world with
    current_weather := WEATHER_HEAVY_RAIN, target_weather := WEATHER_HEAVY_RAIN }

/-- A state with four airborne drops, in slots 0 to 3 of the raindrop pool, all
at the centre of the one lotus pad that has a radius; `raindrop_count` is 4. -/
def four_drop_world : World :=
  { initial_world with
    raindrops := List.replicate 4 leaf_drop ++ List.replicate 996 zero_raindrop
    lotus_pads := leaf_pad :: List.replicate 24 zero_lotus_pad
    raindrop_count := 4 }

/-- The camera at `c`, moving towards the target 1049000. -/
def far_camera_world (c : ℚ) : World :=
  { initial_world with camera_x := c, camera_target_x := 1049000, camera_moving := true }

/-! ## Basic facts about the conversions -/

/-! ### Rounding to `float` -/

theorem roundEven_bounds (x : ℚ) :
    x - 1 / 2 ≤ (roundEven x : ℚ) ∧ (roundEven x : ℚ) ≤ x + 1 / 2 := by
  have h1 := Int.floor_le x
  have h2 := Int.lt_floor_add_one x
  unfold roundEven
  split_ifs with a b c
  · constructor <;> linarith
  · push_cast; constructor <;> linarith
  · have : x - ⌊x⌋ = 1 / 2 := le_antisymm (not_lt.mp b) (not_lt.mp a)
    constructor <;> linarith
  · have : x - ⌊x⌋ = 1 / 2 := le_antisymm (not_lt.mp b) (not_lt.mp a)
    push_cast; constructor <;> linarith

theorem roundEven_mono {x y : ℚ} (h : x ≤ y) : roundEven x ≤ roundEven y := by
  rcases eq_or_lt_of_le h with rfl | hlt
  · exact le_refl _
  · have hx := (roundEven_bounds x).2
    have hy := (roundEven_bounds y).1
    have : (roundEven x : ℚ) < (roundEven y : ℚ) + 1 := by linarith
    have : roundEven x < roundEven y + 1 := by exact_mod_cast this
    omega

theorem roundEven_eq_of_lt {x : ℚ} {n : Int} (h1 : (n : ℚ) - 1 / 2 < x)
    (h2 : x < (n : ℚ) + 1 / 2) : roundEven x = n := by
  have hx := roundEven_bounds x
  have a : (roundEven x : ℚ) < (n : ℚ) + 1 := by linarith
  have b : (n : ℚ) - 1 < (roundEven x : ℚ) := by linarith
  have a' : roundEven x < n + 1 := by exact_mod_cast a
  have b' : n - 1 < roundEven x := by exact_mod_cast b
  omega

theorem roundEven_intCast (n : Int) : roundEven (n : ℚ) = n :=
  roundEven_eq_of_lt (by linarith) (by linarith)

theorem f32_exponent_ge (q : ℚ) : -126 ≤ f32_exponent q := le_max_right _ _

theorem f32_ulp_pos (q : ℚ) : (0 : ℚ) < (2 : ℚ) ^ (f32_exponent q - 23) :=
  zpow_pos (by norm_num) _

theorem two_zpow_log_le {q : ℚ} (hq : q ≠ 0) : (2 : ℚ) ^ (Int.log 2 |q|) ≤ |q| := by
  have := Int.zpow_log_le_self (b := 2) (by norm_num) (abs_pos.mpr hq)
  simpa using this

theorem lt_two_zpow_log (q : ℚ) : |q| < (2 : ℚ) ^ (Int.log 2 |q| + 1) := by
  have := Int.lt_zpow_succ_log_self (b := 2) (by norm_num) |q|
  simpa using this

theorem abs_lt_two_zpow_exponent (q : ℚ) : |q| < (2 : ℚ) ^ (f32_exponent q + 1) := by
  refine lt_of_lt_of_le (lt_two_zpow_log q) ?_
  apply zpow_le_zpow_right₀ (by norm_num)
  have : Int.log 2 |q| ≤ f32_exponent q := le_max_left _ _
  omega

theorem f32_zero : f32 0 = 0 := by
  unfold f32
  rw [zero_div, show roundEven 0 = 0 from roundEven_intCast 0]
  simp

/-- The rounding error of `f32` is at most half a unit in the last place. -/
theorem f32_error_ulp (q : ℚ) :
    |f32 q - q| ≤ (2 : ℚ) ^ (f32_exponent q - 23) / 2 := by
  have hu := f32_ulp_pos q
  have hb := roundEven_bounds (q / (2 : ℚ) ^ (f32_exponent q - 23))
  unfold f32
  have hq : q = q / (2 : ℚ) ^ (f32_exponent q - 23) * (2 : ℚ) ^ (f32_exponent q - 23) := by
    field_simp
  rw [abs_le]
  constructor
  · nlinarith [hb.1, hb.2]
  · nlinarith [hb.1, hb.2]

/-- Relative error of the rounding, with the absolute error of the subnormal
range added. -/
theorem f32_error (q : ℚ) : |f32 q - q| ≤ |q| / 2 ^ 24 + 1 / 2 ^ 150 := by
  by_cases hq : q = 0
  · subst hq
    rw [f32_zero]
    norm_num
  have h := f32_error_ulp q
  have hpos : (0 : ℚ) ≤ |q| / 2 ^ 24 := by positivity
  rcases le_total (Int.log 2 |q|) (-126) with hl | hl
  · have he : f32_exponent q = -126 := max_eq_right hl
    rw [he] at h
    have : (2 : ℚ) ^ ((-126 : ℤ) - 23) / 2 = 1 / 2 ^ 150 := by norm_num
    rw [this] at h
    linarith
  · have he : f32_exponent q = Int.log 2 |q| := max_eq_left hl
    rw [he] at h
    have h2 := two_zpow_log_le hq
    have : (2 : ℚ) ^ (Int.log 2 |q| - 23) / 2 = (2 : ℚ) ^ (Int.log 2 |q|) / 2 ^ 24 := by
      rw [zpow_sub₀ (by norm_num)]
      norm_num
      ring
    rw [this] at h
    have h3 : (2 : ℚ) ^ (Int.log 2 |q|) / 2 ^ 24 ≤ |q| / 2 ^ 24 := by
      apply div_le_div_of_nonneg_right h2 (by positivity)
    have h4 : (0 : ℚ) ≤ 1 / 2 ^ 150 := by positivity
    linarith

theorem f32_exponent_eq {q : ℚ} {e : Int} (he : -126 ≤ e) (h1 : (2 : ℚ) ^ e ≤ |q|)
    (h2 : |q| < (2 : ℚ) ^ (e + 1)) : f32_exponent q = e := by
  have hpos : (0 : ℚ) < |q| := lt_of_lt_of_le (zpow_pos (by norm_num) e) h1
  have a : e ≤ Int.log 2 |q| := by
    rw [← Int.zpow_le_iff_le_log (b := 2) (by norm_num) hpos]
    simpa using h1
  have b : Int.log 2 |q| < e + 1 := by
    rw [← Int.lt_zpow_iff_log_lt (b := 2) (by norm_num) hpos]
    simpa using h2
  unfold f32_exponent
  rw [max_eq_left (by omega)]
  omega

/-- Evaluation of `f32` on a number of known binade whose quotient by the unit in
the last place is not half way between two integers. -/
theorem f32_eval {q : ℚ} (e n : Int) (he : -126 ≤ e) (h1 : (2 : ℚ) ^ e ≤ |q|)
    (h2 : |q| < (2 : ℚ) ^ (e + 1)) (h3 : (n : ℚ) - 1 / 2 < q / (2 : ℚ) ^ (e - 23))
    (h4 : q / (2 : ℚ) ^ (e - 23) < (n : ℚ) + 1 / 2) :
    f32 q = (n : ℚ) * (2 : ℚ) ^ (e - 23) := by
  unfold f32
  rw [f32_exponent_eq he h1 h2, roundEven_eq_of_lt h3 h4]

theorem f32_nonneg {q : ℚ} (h : 0 ≤ q) : 0 ≤ f32 q := by
  unfold f32
  have hu := f32_ulp_pos q
  have h0 : roundEven 0 ≤ roundEven (q / (2 : ℚ) ^ (f32_exponent q - 23)) :=
    roundEven_mono (div_nonneg h hu.le)
  rw [show roundEven 0 = 0 from roundEven_intCast 0] at h0
  have : (0 : ℚ) ≤ (roundEven (q / (2 : ℚ) ^ (f32_exponent q - 23)) : ℚ) := by exact_mod_cast h0
  exact mul_nonneg this hu.le

theorem f32_le_of_le {q : ℚ} (n : Int)
    (h : q ≤ (n : ℚ) * (2 : ℚ) ^ (f32_exponent q - 23)) :
    f32 q ≤ (n : ℚ) * (2 : ℚ) ^ (f32_exponent q - 23) := by
  unfold f32
  have hu := f32_ulp_pos q
  have h1 : q / (2 : ℚ) ^ (f32_exponent q - 23) ≤ (n : ℚ) := by
    rw [div_le_iff₀ hu]; exact h
  have h2 := roundEven_mono h1
  rw [roundEven_intCast] at h2
  have : (roundEven (q / (2 : ℚ) ^ (f32_exponent q - 23)) : ℚ) ≤ (n : ℚ) := by exact_mod_cast h2
  exact mul_le_mul_of_nonneg_right this hu.le

theorem f32_ge_of_ge {q : ℚ} (n : Int)
    (h : (n : ℚ) * (2 : ℚ) ^ (f32_exponent q - 23) ≤ q) :
    (n : ℚ) * (2 : ℚ) ^ (f32_exponent q - 23) ≤ f32 q := by
  unfold f32
  have hu := f32_ulp_pos q
  have h1 : (n : ℚ) ≤ q / (2 : ℚ) ^ (f32_exponent q - 23) := by
    rw [le_div_iff₀ hu]; exact h
  have h2 := roundEven_mono h1
  rw [roundEven_intCast] at h2
  have : (n : ℚ) ≤ (roundEven (q / (2 : ℚ) ^ (f32_exponent q - 23)) : ℚ) := by exact_mod_cast h2
  exact mul_le_mul_of_nonneg_right this hu.le

theorem two_zpow_split (e : Int) :
    (2 : ℚ) ^ (e + 1) = ((2 ^ 24 : Int) : ℚ) * (2 : ℚ) ^ (e - 23)
    ∧ (2 : ℚ) ^ e = ((2 ^ 23 : Int) : ℚ) * (2 : ℚ) ^ (e - 23) := by
  have h1 : e + 1 = 24 + (e - 23) := by ring
  have h2 : e = 23 + (e - 23) := by ring
  constructor
  · rw [h1, zpow_add₀ (by norm_num)]
    norm_num
  · nth_rewrite 1 [h2]
    rw [zpow_add₀ (by norm_num)]
    norm_num

/-- Rounding to `float` is monotone on the non-negative numbers. -/
theorem f32_mono {x y : ℚ} (h0 : 0 ≤ x) (h : x ≤ y) : f32 x ≤ f32 y := by
  rcases eq_or_lt_of_le h0 with rfl | hx
  · rw [f32_zero]; exact f32_nonneg h
  have hy : 0 < y := lt_of_lt_of_le hx h
  have hlog : Int.log 2 |x| ≤ Int.log 2 |y| := by
    rw [abs_of_pos hx, abs_of_pos hy]
    exact Int.log_mono_right hx h
  have hexp : f32_exponent x ≤ f32_exponent y := max_le_max hlog (le_refl _)
  rcases eq_or_lt_of_le hexp with he | he
  · unfold f32
    rw [he]
    have hu := f32_ulp_pos y
    have h1 : x / (2 : ℚ) ^ (f32_exponent y - 23) ≤ y / (2 : ℚ) ^ (f32_exponent y - 23) :=
      div_le_div_of_nonneg_right h hu.le
    have h2 : (roundEven (x / (2 : ℚ) ^ (f32_exponent y - 23)) : ℚ)
        ≤ (roundEven (y / (2 : ℚ) ^ (f32_exponent y - 23)) : ℚ) := by
      exact_mod_cast roundEven_mono h1
    exact mul_le_mul_of_nonneg_right h2 hu.le
  · have hxu : f32 x ≤ (2 : ℚ) ^ (f32_exponent x + 1) := by
      rw [(two_zpow_split (f32_exponent x)).1]
      apply f32_le_of_le
      rw [← (two_zpow_split (f32_exponent x)).1]
      have := abs_lt_two_zpow_exponent x
      rw [abs_of_pos hx] at this
      exact this.le
    have hmid : (2 : ℚ) ^ (f32_exponent x + 1) ≤ (2 : ℚ) ^ (f32_exponent y) :=
      zpow_le_zpow_right₀ (by norm_num) (by omega)
    have hey : f32_exponent y = Int.log 2 |y| := by
      have hge := f32_exponent_ge x
      unfold f32_exponent at he ⊢
      rcases le_total (Int.log 2 |y|) (-126) with hl | hl
      · rw [max_eq_right hl] at he
        unfold f32_exponent at hge
        omega
      · exact max_eq_left hl
    have hyl : (2 : ℚ) ^ (f32_exponent y) ≤ f32 y := by
      rw [(two_zpow_split (f32_exponent y)).2]
      apply f32_ge_of_ge
      rw [← (two_zpow_split (f32_exponent y)).2, hey]
      have := two_zpow_log_le (ne_of_gt hy)
      rw [abs_of_pos hy] at this ⊢
      exact this
    linarith

theorem f32_one : f32 1 = 1 := by
  rw [f32_eval 0 8388608 (by norm_num) (by norm_num) (by norm_num) (by norm_num) (by norm_num)]
  norm_num

theorem f32_half : f32 (1 / 2) = 1 / 2 := by
  rw [f32_eval (-1) 8388608 (by norm_num) (by norm_num [abs_of_pos])
    (by norm_num [abs_of_pos]) (by norm_num) (by norm_num)]
  norm_num

theorem f32_255 : f32 255 = 255 := by
  rw [f32_eval 7 16711680 (by norm_num) (by norm_num) (by norm_num) (by norm_num) (by norm_num)]
  norm_num

theorem f32_2000 : f32 2000 = 2000 := by
  rw [f32_eval 10 16384000 (by norm_num) (by norm_num) (by norm_num) (by norm_num) (by norm_num)]
  norm_num

theorem f32_tenth : f32 (1 / 10) = 13421773 / 134217728 := by
  rw [f32_eval (-4) 13421773 (by norm_num) (by norm_num [abs_of_pos])
    (by norm_num [abs_of_pos]) (by norm_num) (by norm_num)]
  norm_num

theorem roundEven_tie_even (x : ℚ)
    (h : (roundEven x : ℚ) - x = 1 / 2 ∨ x - (roundEven x : ℚ) = 1 / 2) :
    roundEven x % 2 = 0 := by
  have h1 := Int.floor_le x
  have h2 := Int.lt_floor_add_one x
  unfold roundEven at h ⊢
  split_ifs at h ⊢ with a b c
  · rcases h with h | h <;> linarith
  · push_cast at h
    rcases h with h | h <;> linarith
  · exact c
  · omega

theorem roundEven_unique (x : ℚ) (n : Int) (h1 : x - 1 / 2 ≤ (n : ℚ))
    (h2 : (n : ℚ) ≤ x + 1 / 2)
    (h3 : (n : ℚ) - x = 1 / 2 ∨ x - (n : ℚ) = 1 / 2 → n % 2 = 0) :
    roundEven x = n := by
  have hb := roundEven_bounds x
  have ht := roundEven_tie_even x
  have a : (roundEven x : ℚ) ≤ (n : ℚ) + 1 := by linarith
  have b : (n : ℚ) - 1 ≤ (roundEven x : ℚ) := by linarith
  have a' : roundEven x ≤ n + 1 := by exact_mod_cast a
  have b' : n - 1 ≤ roundEven x := by exact_mod_cast b
  rcases (by omega : roundEven x = n ∨ roundEven x = n + 1 ∨ roundEven x = n - 1)
    with h | h | h
  · exact h
  · exfalso
    have hq : (roundEven x : ℚ) = (n : ℚ) + 1 := by rw [h]; push_cast; ring
    have e1 : (roundEven x : ℚ) - x = 1 / 2 := by linarith
    have e2 : x - (n : ℚ) = 1 / 2 := by linarith
    have p1 := ht (Or.inl e1)
    have p2 := h3 (Or.inr e2)
    omega
  · exfalso
    have hq : (roundEven x : ℚ) = (n : ℚ) - 1 := by rw [h]; push_cast; ring
    have e1 : x - (roundEven x : ℚ) = 1 / 2 := by linarith
    have e2 : (n : ℚ) - x = 1 / 2 := by linarith
    have p1 := ht (Or.inr e1)
    have p2 := h3 (Or.inl e2)
    omega

theorem roundEven_neg (x : ℚ) : roundEven (-x) = -roundEven x := by
  have hb := roundEven_bounds x
  have ht := roundEven_tie_even x
  apply roundEven_unique
  · push_cast; linarith
  · push_cast; linarith
  · intro h
    push_cast at h
    have : roundEven x % 2 = 0 := by
      apply ht
      rcases h with h | h
      · right; linarith
      · left; linarith
    omega

theorem f32_neg (q : ℚ) : f32 (-q) = -f32 q := by
  unfold f32 f32_exponent
  rw [abs_neg, neg_div, roundEven_neg]
  push_cast
  ring

/-- Rounding to `float` is monotone. -/
theorem f32_monotone {x y : ℚ} (h : x ≤ y) : f32 x ≤ f32 y := by
  rcases le_total 0 x with hx | hx
  · exact f32_mono hx h
  · rcases le_total 0 y with hy | hy
    · have h1 := f32_nonneg (q := -x) (by linarith)
      rw [f32_neg] at h1
      have h2 := f32_nonneg hy
      linarith
    · have := f32_mono (x := -y) (y := -x) (by linarith) (by linarith)
      rw [f32_neg, f32_neg] at this
      linarith

theorem f32_abs_le (q : ℚ) : |f32 q| ≤ |q| + (|q| / 2 ^ 24 + 1 / 2 ^ 150) := by
  have h := f32_error q
  have : |f32 q| ≤ |q| + |f32 q - q| := by
    have := abs_add q (f32 q - q)
    simpa using this
  linarith

theorem f32_abs_ge (q : ℚ) : |q| - (|q| / 2 ^ 24 + 1 / 2 ^ 150) ≤ |f32 q| := by
  have h := f32_error q
  have : |q| ≤ |f32 q| + |f32 q - q| := by
    have := abs_sub_abs_le_abs_sub q (f32 q)
    rw [abs_sub_comm q (f32 q)] at this
    linarith
  linarith

theorem castInt_of_nonneg {q : ℚ} (h : 0 ≤ q) : castInt q = ⌊q⌋ := by
  simp [castInt, h]

theorem castU8_of_range {q : ℚ} (h0 : 0 ≤ q) (h1 : q < 256) : (castU8 q : Int) = ⌊q⌋ := by
  have hf0 : 0 ≤ ⌊q⌋ := Int.floor_nonneg.mpr h0
  have hf1 : ⌊q⌋ < 256 := by
    have : (⌊q⌋ : ℚ) ≤ q := Int.floor_le q
    have h2 : ((⌊q⌋ : Int) : ℚ) < ((256 : Int) : ℚ) := by push_cast; linarith
    exact_mod_cast h2
  unfold castU8
  rw [castInt_of_nonneg h0, Int.emod_eq_of_lt hf0 hf1, Int.toNat_of_nonneg hf0]

theorem castU8_mono {p q : ℚ} (h0 : 0 ≤ p) (hpq : p ≤ q) (h1 : q < 256) :
    castU8 p ≤ castU8 q := by
  have hp := castU8_of_range h0 (lt_of_le_of_lt hpq h1)
  have hq := castU8_of_range (le_trans h0 hpq) h1
  have : (castU8 p : Int) ≤ (castU8 q : Int) := by
    rw [hp, hq]; exact Int.floor_le_floor hpq
  exact_mod_cast this

/-! ## Depth utilities (C8, C9) -/

/-- C8: `get_z_scale z` is `0.2 + 0.8 * z`; for `z` in `[0, 1]` it lies in
`[0.2, 1.0]`; and for depths `z1 < z2` the scale at `z1` is at most the scale at
`z2`. -/
theorem get_z_scale_spec :
    (∀ z : ℚ, get_z_scale z = 0.2 + 0.8 * z)
    ∧ (∀ z : ℚ, 0 ≤ z → z ≤ 1 → 0.2 ≤ get_z_scale z ∧ get_z_scale z ≤ 1.0)
    ∧ (∀ z1 z2 : ℚ, z1 < z2 → get_z_scale z1 ≤ get_z_scale z2) := by
  refine ⟨?_, ?_, ?_⟩
  · intro z; unfold get_z_scale; ring
  · intro z h0 h1; unfold get_z_scale; constructor <;> norm_num <;> linarith
  · intro z1 z2 h; unfold get_z_scale; norm_num; linarith

theorem get_z_scale_spec_witness :
    (0.2 ≤ get_z_scale (1 / 2) ∧ get_z_scale (1 / 2) ≤ 1.0)
    ∧ get_z_scale 0 ≤ get_z_scale 1 :=
  ⟨get_z_scale_spec.2.1 (1 / 2) (by norm_num) (by norm_num),
   get_z_scale_spec.2.2 0 1 (by norm_num)⟩

/-- C9, as the claim states it, fails: for black the green channel is 5 at depth 0
and 1 at depth 1, and the blue channel is 30 at depth 0 and 9 at depth 1, so the
colour at the smaller depth is not the darker one. -/
theorem adjust_color_by_depth_not_monotone :
    (adjust_color_by_depth { r := 0, g := 0, b := 0, a := 255 } 0).g = 5
    ∧ (adjust_color_by_depth { r := 0, g := 0, b := 0, a := 255 } 1).g = 1
    ∧ (adjust_color_by_depth { r := 0, g := 0, b := 0, a := 255 } 0).b = 30
    ∧ (adjust_color_by_depth { r := 0, g := 0, b := 0, a := 255 } 1).b = 9
    ∧ ¬ ((adjust_color_by_depth { r := 0, g := 0, b := 0, a := 255 } 0).g
          ≤ (adjust_color_by_depth { r := 0, g := 0, b := 0, a := 255 } 1).g) := by
  have e1 : castU8 5 = 5 := by
    have h := castU8_of_range (q := 5) (by norm_num) (by norm_num)
    have : ⌊(5 : ℚ)⌋ = 5 := by norm_num [Int.floor_eq_iff]
    rw [this] at h; exact_mod_cast h
  have e2 : castU8 (3 / 2) = 1 := by
    have h := castU8_of_range (q := 3 / 2) (by norm_num) (by norm_num)
    have : ⌊(3 / 2 : ℚ)⌋ = 1 := by norm_num [Int.floor_eq_iff]
    rw [this] at h; exact_mod_cast h
  have e3 : castU8 30 = 30 := by
    have h := castU8_of_range (q := 30) (by norm_num) (by norm_num)
    have : ⌊(30 : ℚ)⌋ = 30 := by norm_num [Int.floor_eq_iff]
    rw [this] at h; exact_mod_cast h
  have e4 : castU8 9 = 9 := by
    have h := castU8_of_range (q := 9) (by norm_num) (by norm_num)
    have : ⌊(9 : ℚ)⌋ = 9 := by norm_num [Int.floor_eq_iff]
    rw [this] at h; exact_mod_cast h
  have g0 : (adjust_color_by_depth { r := 0, g := 0, b := 0, a := 255 } 0).g = 5 := by
    simp only [adjust_color_by_depth]; norm_num [e1]
  have g1 : (adjust_color_by_depth { r := 0, g := 0, b := 0, a := 255 } 1).g = 1 := by
    simp only [adjust_color_by_depth]; norm_num [e2]
  have b0 : (adjust_color_by_depth { r := 0, g := 0, b := 0, a := 255 } 0).b = 30 := by
    simp only [adjust_color_by_depth]; norm_num [e3]
  have b1 : (adjust_color_by_depth { r := 0, g := 0, b := 0, a := 255 } 1).b = 9 := by
    simp only [adjust_color_by_depth]; norm_num [e4]
  refine ⟨g0, g1, b0, b1, ?_⟩
  rw [g0, g1]; decide

/-- C9, amended: for an 8-bit colour and depths `0 ≤ z1 < z2 ≤ 1`, the alpha is the
same at both depths and the red channel at `z1` is at most the red channel at
`z2`; the green channel is so when `g ≥ 4` and the blue channel when `b ≥ 21`,
provided the channel formula at `z2` stays below 256. -/
theorem adjust_color_by_depth_monotone (c : SDL_Color) (z1 z2 : ℚ) (hc : c.valid)
    (h0 : 0 ≤ z1) (h12 : z1 < z2) (h1 : z2 ≤ 1) :
    (adjust_color_by_depth c z1).a = (adjust_color_by_depth c z2).a
    ∧ (adjust_color_by_depth c z1).r ≤ (adjust_color_by_depth c z2).r
    ∧ (4 ≤ c.g → (c.g : ℚ) * z2 + 5 * (1 - 0.7 * z2) < 256 →
        (adjust_color_by_depth c z1).g ≤ (adjust_color_by_depth c z2).g)
    ∧ (21 ≤ c.b → (c.b : ℚ) * z2 + 30 * (1 - 0.7 * z2) < 256 →
        (adjust_color_by_depth c z1).b ≤ (adjust_color_by_depth c z2).b) := by
  obtain ⟨hr, -, -, -⟩ := hc
  have hr0 : (0 : ℚ) ≤ (c.r : ℚ) := Nat.cast_nonneg _
  have hg0 : (0 : ℚ) ≤ (c.g : ℚ) := Nat.cast_nonneg _
  have hb0 : (0 : ℚ) ≤ (c.b : ℚ) := Nat.cast_nonneg _
  have hr1 : (c.r : ℚ) ≤ 255 := by
    have : c.r ≤ 255 := by omega
    exact_mod_cast this
  have hz2 : 0 ≤ z2 := le_trans h0 (le_of_lt h12)
  have hd : 0 ≤ z2 - z1 := by linarith
  refine ⟨rfl, ?_, ?_, ?_⟩
  · simp only [adjust_color_by_depth]
    apply castU8_mono
    · have := mul_nonneg hr0 h0; linarith
    · have := mul_nonneg hr0 hd; nlinarith
    · have : (c.r : ℚ) * z2 ≤ 255 * 1 := mul_le_mul hr1 h1 hz2 (by norm_num)
      linarith
  · intro hg hlt
    have hg4 : (4 : ℚ) ≤ (c.g : ℚ) := by exact_mod_cast hg
    simp only [adjust_color_by_depth]
    apply castU8_mono
    · have := mul_nonneg hg0 h0; norm_num; linarith
    · have := mul_nonneg (show (0 : ℚ) ≤ (c.g : ℚ) - 7 / 2 by linarith) hd
      norm_num; nlinarith
    · norm_num; norm_num at hlt; linarith
  · intro hb hlt
    have hb21 : (21 : ℚ) ≤ (c.b : ℚ) := by exact_mod_cast hb
    simp only [adjust_color_by_depth]
    apply castU8_mono
    · have := mul_nonneg hb0 h0; norm_num; linarith
    · have := mul_nonneg (show (0 : ℚ) ≤ (c.b : ℚ) - 21 by linarith) hd
      norm_num; nlinarith
    · norm_num; norm_num at hlt; linarith

theorem adjust_color_by_depth_monotone_witness :
    (adjust_color_by_depth { r := 200, g := 180, b := 160, a := 255 } (1 / 4)).a
      = (adjust_color_by_depth { r := 200, g := 180, b := 160, a := 255 } (3 / 4)).a
    ∧ (adjust_color_by_depth { r := 200, g := 180, b := 160, a := 255 } (1 / 4)).r
      ≤ (adjust_color_by_depth { r := 200, g := 180, b := 160, a := 255 } (3 / 4)).r
    ∧ (adjust_color_by_depth { r := 200, g := 180, b := 160, a := 255 } (1 / 4)).g
      ≤ (adjust_color_by_depth { r := 200, g := 180, b := 160, a := 255 } (3 / 4)).g
    ∧ (adjust_color_by_depth { r := 200, g := 180, b := 160, a := 255 } (1 / 4)).b
      ≤ (adjust_color_by_depth { r := 200, g := 180, b := 160, a := 255 } (3 / 4)).b := by
  have h := adjust_color_by_depth_monotone { r := 200, g := 180, b := 160, a := 255 }
    (1 / 4) (3 / 4) (by decide) (by norm_num) (by norm_num) (by norm_num)
  exact ⟨h.1, h.2.1, h.2.2.1 (by decide) (by norm_num), h.2.2.2 (by decide) (by norm_num)⟩

/-! ## Intensity commands (C7) -/

theorem handle_intensity_key_range (k : IntensityKey) (w : World)
    (h : 0 ≤ w.weather_intensity ∧ w.weather_intensity ≤ 100) :
    0 ≤ (handle_intensity_key k w).weather_intensity
    ∧ (handle_intensity_key k w).weather_intensity ≤ 100 := by
  cases k
  · simp only [handle_intensity_key, handle_SDLK_UP]
    split <;> omega
  · simp only [handle_intensity_key, handle_SDLK_DOWN]
    split <;> omega

theorem foldl_intensity_key_range (keys : List IntensityKey) :
    ∀ w : World, (0 ≤ w.weather_intensity ∧ w.weather_intensity ≤ 100) →
      0 ≤ (keys.foldl (fun w k => handle_intensity_key k w) w).weather_intensity
      ∧ (keys.foldl (fun w k => handle_intensity_key k w) w).weather_intensity ≤ 100 := by
  induction keys with
  | nil => intro w h; simpa using h
  | cons k ks ih =>
    intro w h
    simp only [List.foldl_cons]
    exact ih _ (handle_intensity_key_range k w h)

/-- C7: from `weather_intensity = 50`, after any finite sequence of the Up and Down
commands the intensity lies in `[0, 100]`; Up at 100 and Down at 0 leave the state
as it is. -/
theorem weather_intensity_contained :
    (∀ (keys : List IntensityKey) (w : World), w.weather_intensity = 50 →
      0 ≤ (keys.foldl (fun w k => handle_intensity_key k w) w).weather_intensity
      ∧ (keys.foldl (fun w k => handle_intensity_key k w) w).weather_intensity ≤ 100)
    ∧ (∀ w : World, w.weather_intensity = 100 → handle_SDLK_UP w = w)
    ∧ (∀ w : World, w.weather_intensity = 0 → handle_SDLK_DOWN w = w) := by
  refine ⟨?_, ?_, ?_⟩
  · intro keys w h
    exact foldl_intensity_key_range keys w (by omega)
  · intro w h
    simp [handle_SDLK_UP, h]
    rw [← h]
  · intro w h
    simp [handle_SDLK_DOWN, h]
    rw [← h]

theorem weather_intensity_contained_witness :
    (0 ≤ ([IntensityKey.up, IntensityKey.up, IntensityKey.down].foldl
          (fun w k => handle_intensity_key k w) initial_world).weather_intensity
      ∧ ([IntensityKey.up, IntensityKey.up, IntensityKey.down].foldl
          (fun w k => handle_intensity_key k w) initial_world).weather_intensity ≤ 100)
    ∧ handle_SDLK_UP { initial_world with weather_intensity := 100 }
        = { initial_world with weather_intensity := 100 }
    ∧ handle_SDLK_DOWN { initial_world with weather_intensity := 0 }
        = { initial_world with weather_intensity := 0 } :=
  ⟨weather_intensity_contained.1 _ initial_world rfl,
   weather_intensity_contained.2.1 _ rfl,
   weather_intensity_contained.2.2 _ rfl⟩

/-! ## Wind containment (C6) -/

theorem rand_le (e : Env) (w : World) : rand e w ≤ RAND_MAX := by
  unfold rand
  exact Nat.lt_succ_iff.mp (Nat.mod_lt _ (Nat.succ_pos _))

theorem frand_nonneg (e : Env) (w : World) (k : Nat) : 0 ≤ frand e w k := by
  unfold frand
  exact div_nonneg (Nat.cast_nonneg _) (Nat.cast_nonneg _)

theorem frand_le_one (e : Env) (w : World) (k : Nat) : frand e w k ≤ 1 := by
  unfold frand randAt
  have h : ((rand e (w.tick k) : ℕ) : ℚ) ≤ (RAND_MAX : ℚ) := by
    exact_mod_cast rand_le e (w.tick k)
  have hpos : (0 : ℚ) < (RAND_MAX : ℚ) := by norm_num [RAND_MAX]
  exact (div_le_one hpos).mpr h

theorem pick_target_weather_wind (e : Env) :
    ∀ (fuel : Nat) (w w' : World), pick_target_weather e fuel w = some w' →
      w'.wind_strength = w.wind_strength ∧ w'.target_wind_strength = w.target_wind_strength
  | 0, w, w', h => by simp [pick_target_weather] at h
  | fuel + 1, w, w', h => by
    simp only [pick_target_weather] at h
    split at h
    · have := pick_target_weather_wind e fuel _ w' h
      simpa [World.tick] using this
    · simp only [Option.some.injEq] at h
      subst h
      simp [World.tick]

theorem weather_trigger_wind (e : Env) (fuel now : Nat) (w w' : World)
    (h : weather_trigger e fuel now w = some w') :
    w'.wind_strength = w.wind_strength ∧ w'.target_wind_strength = w.target_wind_strength := by
  simp only [weather_trigger] at h
  split at h
  · cases hp : pick_target_weather e fuel (w.tick 1) with
    | none => simp [hp] at h
    | some w2 =>
      simp only [hp, Option.map_some', Option.some.injEq] at h
      subst h
      have := pick_target_weather_wind e fuel _ w2 hp
      simpa [World.tick] using this
  · simp only [Option.some.injEq] at h
    subst h
    simp [World.tick]

theorem weather_transition_wind (e : Env) (w : World)
    (ht : -1 ≤ w.target_wind_strength ∧ w.target_wind_strength ≤ 1) :
    (weather_transition e w).wind_strength = w.wind_strength
    ∧ -1 ≤ (weather_transition e w).target_wind_strength
    ∧ (weather_transition e w).target_wind_strength ≤ 1 := by
  have h0 := frand_nonneg e { w with current_weather := w.target_weather } 0
  have h1 := frand_le_one e { w with current_weather := w.target_weather } 0
  unfold weather_transition
  split
  · simp only
    split
    · refine ⟨rfl, ?_, ?_⟩ <;> simp only [World.tick] <;> norm_num <;> linarith
    · split
      · refine ⟨rfl, ?_, ?_⟩ <;> simp only [World.tick] <;> norm_num <;> linarith
      · split
        · refine ⟨rfl, ?_, ?_⟩ <;> simp only [World.tick] <;> norm_num <;> linarith
        · split
          · refine ⟨rfl, ?_, ?_⟩ <;> simp only [World.tick] <;> norm_num <;> linarith
          · exact ⟨rfl, ht.1, ht.2⟩
  · exact ⟨rfl, ht.1, ht.2⟩

theorem clamp_range (t0 : ℚ) :
    -1 ≤ (if (if t0 > 1.0 then (1.0 : ℚ) else t0) < -1.0 then (-1.0 : ℚ)
          else (if t0 > 1.0 then (1.0 : ℚ) else t0))
    ∧ (if (if t0 > 1.0 then (1.0 : ℚ) else t0) < -1.0 then (-1.0 : ℚ)
          else (if t0 > 1.0 then (1.0 : ℚ) else t0)) ≤ 1 := by
  split_ifs <;> constructor <;> norm_num at * <;> linarith

theorem wind_nudge_wind (e : Env) (w : World)
    (ht : -1 ≤ w.target_wind_strength ∧ w.target_wind_strength ≤ 1) :
    (wind_nudge e w).wind_strength = w.wind_strength
    ∧ -1 ≤ (wind_nudge e w).target_wind_strength
    ∧ (wind_nudge e w).target_wind_strength ≤ 1 := by
  unfold wind_nudge
  simp only
  split
  · exact ⟨rfl, clamp_range _⟩
  · exact ⟨rfl, ht.1, ht.2⟩

theorem wind_ease_wind (w : World)
    (hw : -1 ≤ w.wind_strength ∧ w.wind_strength ≤ 1)
    (ht : -1 ≤ w.target_wind_strength ∧ w.target_wind_strength ≤ 1) :
    (-1 ≤ (wind_ease w).wind_strength ∧ (wind_ease w).wind_strength ≤ 1)
    ∧ (wind_ease w).target_wind_strength = w.target_wind_strength := by
  unfold wind_ease
  simp only
  split
  · refine ⟨⟨?_, ?_⟩, rfl⟩ <;> simp only [wind_change_speed] <;> norm_num <;> linarith
  · exact ⟨⟨ht.1, ht.2⟩, rfl⟩

theorem pick_target_weather_returns (e : Env) :
    ∀ (fuel : Nat) (w : World),
      (∃ k, k < fuel ∧ randAt e w k % WEATHER_COUNT ≠ w.current_weather) →
      ∃ w', pick_target_weather e fuel w = some w'
  | 0, w, h => by obtain ⟨k, hk, -⟩ := h; omega
  | fuel + 1, w, h => by
    simp only [pick_target_weather]
    split
    · rename_i heq
      obtain ⟨k, hk, hne⟩ := h
      apply pick_target_weather_returns e fuel
      cases k with
      | zero =>
        exfalso; apply hne
        simpa [randAt, World.tick, rand] using heq
      | succ k =>
        refine ⟨k, by omega, ?_⟩
        simpa [randAt, World.tick, rand, Nat.add_assoc, Nat.add_comm 1 k] using hne
    · exact ⟨_, rfl⟩

theorem weather_trigger_returns (e : Env) (fuel now : Nat) (w : World)
    (h : ∃ k, k < fuel ∧ randAt e w (k + 1) % WEATHER_COUNT ≠ w.current_weather) :
    ∃ w', weather_trigger e fuel now w = some w' := by
  simp only [weather_trigger]
  split
  · obtain ⟨k, hk, hne⟩ := h
    have := pick_target_weather_returns e fuel (w.tick 1)
      ⟨k, hk, by simpa [randAt, World.tick, rand, Nat.add_assoc, Nat.add_comm 1 k] using hne⟩
    obtain ⟨w', hw'⟩ := this
    exact ⟨_, by rw [hw']; rfl⟩
  · exact ⟨_, rfl⟩

/-- C6: if the wind and its target lie in `[-1, 1]` before `update_weather_and_wind`,
then whenever the call returns both lie in `[-1, 1]`, for every time, tier,
intensity and every sequence of random draws; and the call does return as soon as
one of the first `fuel` draws of the tier loop differs from the current tier. -/
theorem wind_contained (e : Env) (fuel now : Nat) (w : World)
    (hw : -1 ≤ w.wind_strength ∧ w.wind_strength ≤ 1)
    (ht : -1 ≤ w.target_wind_strength ∧ w.target_wind_strength ≤ 1) :
    (∀ w', update_weather_and_wind e fuel now w = some w' →
      (-1 ≤ w'.wind_strength ∧ w'.wind_strength ≤ 1)
      ∧ (-1 ≤ w'.target_wind_strength ∧ w'.target_wind_strength ≤ 1))
    ∧ ((∃ k, k < fuel ∧ randAt e w (k + 1) % WEATHER_COUNT ≠ w.current_weather) →
        ∃ w', update_weather_and_wind e fuel now w = some w') := by
  constructor
  · intro w' h
    unfold update_weather_and_wind at h
    cases h1 : weather_trigger e fuel now w with
    | none => simp [h1] at h
    | some w1 =>
      simp only [h1, Option.map_some', Option.some.injEq] at h
      subst h
      obtain ⟨a1, a2⟩ := weather_trigger_wind e fuel now w w1 h1
      have hw1 : -1 ≤ w1.wind_strength ∧ w1.wind_strength ≤ 1 := by rw [a1]; exact hw
      have ht1 : -1 ≤ w1.target_wind_strength ∧ w1.target_wind_strength ≤ 1 := by
        rw [a2]; exact ht
      obtain ⟨b1, b2, b3⟩ := weather_transition_wind e w1 ht1
      obtain ⟨c1, c2, c3⟩ := wind_nudge_wind e (weather_transition e w1) ⟨b2, b3⟩
      have hw3 : -1 ≤ (wind_nudge e (weather_transition e w1)).wind_strength
          ∧ (wind_nudge e (weather_transition e w1)).wind_strength ≤ 1 := by
        rw [c1, b1]; exact hw1
      obtain ⟨d1, d2⟩ := wind_ease_wind _ hw3 ⟨c2, c3⟩
      exact ⟨d1, by rw [d2]; exact ⟨c2, c3⟩⟩
  · intro h
    obtain ⟨w1, h1⟩ := weather_trigger_returns e fuel now w h
    exact ⟨_, by unfold update_weather_and_wind; rw [h1]; rfl⟩

theorem wind_contained_witness :
    (∀ w', update_weather_and_wind (const_env 1) 1 40000 initial_world = some w' →
      (-1 ≤ w'.wind_strength ∧ w'.wind_strength ≤ 1)
      ∧ (-1 ≤ w'.target_wind_strength ∧ w'.target_wind_strength ≤ 1))
    ∧ ∃ w', update_weather_and_wind (const_env 1) 1 40000 initial_world = some w' := by
  have h := wind_contained (const_env 1) 1 40000 initial_world
    (by simp [initial_world]) (by simp [initial_world])
  refine ⟨h.1, h.2 ⟨0, by decide, ?_⟩⟩
  simp [randAt, rand, const_env, RAND_MAX, WEATHER_COUNT, initial_world, WEATHER_LIGHT_RAIN]

/-! ## Pool exhaustion (C4) -/

theorem create_splash_loop_full (e : Env) (x y z : ℚ) (color : SDL_Color) (w : World)
    (h : firstFree Splash.active w.splashes = none) :
    ∀ (m : Nat) (i n : Int), (n - i).toNat = m →
      create_splash_loop e x y z color i n w = w := by
  intro m
  induction m with
  | zero =>
    intro i n hm
    rw [create_splash_loop]
    have : ¬ i < n := by omega
    simp [this]
  | succ m ih =>
    intro i n hm
    rw [create_splash_loop]
    split
    · split
      · rename_i j hj
        rw [h] at hj; cases hj
      · exact ih (i + 1) n (by omega)
    · rfl

/-- C4: when every slot of its pool is active, each of `create_raindrop` (for either
value of `on_surface`), `create_ripple` and `create_lightning` returns the state
it was given, and `create_splash` returns it with only the count of `rand()`
calls advanced by one; so the four pools and the four counters are unchanged and
no ripple is emitted. -/
theorem create_on_full_pool (e : Env) (w : World) :
    (∀ on_surface : Bool, (∀ d ∈ w.raindrops, d.active = true) →
      create_raindrop e on_surface w = w)
    ∧ (∀ (x y z : ℚ) (color : SDL_Color), (∀ r ∈ w.ripples, r.active = true) →
      create_ripple e x y z color w = w)
    ∧ (∀ (x y z : ℚ) (color : SDL_Color), (∀ s ∈ w.splashes, s.active = true) →
      create_splash e x y z color w = { w with rand_calls := w.rand_calls + 1 })
    ∧ (∀ (x y segments width type : Int), (∀ l ∈ w.lightnings, l.active = true) →
      create_lightning e x y segments width type w = w) := by
  refine ⟨?_, ?_, ?_, ?_⟩
  · intro b h
    have hf := (firstFree_none Raindrop.active w.raindrops).mpr h
    simp only [create_raindrop, hf]
  · intro x y z c h
    have hf := (firstFree_none Ripple.active w.ripples).mpr h
    simp only [create_ripple, hf]
  · intro x y z c h
    have hf : firstFree Splash.active (w.tick 1).splashes = none :=
      (firstFree_none Splash.active w.splashes).mpr h
    simp only [create_splash]
    exact create_splash_loop_full e x y z c (w.tick 1) hf _ _ _ rfl
  · intro x y sg wd t h
    have hf := (firstFree_none Lightning.active w.lightnings).mpr h
    rw [create_lightning]
    simp only [hf]

theorem create_on_full_pool_witness :
    create_raindrop (const_env 0) true full_world = full_world
    ∧ create_ripple (const_env 0) 10 400 (1 / 2) zero_color full_world = full_world
    ∧ create_splash (const_env 0) 10 300 (1 / 2) zero_color full_world
        = { full_world with rand_calls := full_world.rand_calls + 1 }
    ∧ create_lightning (const_env 0) 400 0 10 3 0 full_world = full_world := by
  have h := create_on_full_pool (const_env 0) full_world
  refine ⟨h.1 true ?_, h.2.1 _ _ _ _ ?_, h.2.2.1 _ _ _ _ ?_, h.2.2.2 _ _ _ _ _ ?_⟩
  · intro d hd
    simp only [full_world, List.mem_replicate] at hd
    rw [hd.2]
  · intro d hd
    simp only [full_world, List.mem_replicate] at hd
    rw [hd.2]
  · intro d hd
    simp only [full_world, List.mem_replicate] at hd
    rw [hd.2]
  · intro d hd
    simp only [full_world, List.mem_replicate] at hd
    rw [hd.2]

/-! ## Scenario A: a raindrop spawned on the surface (C10) -/

theorem exists_firstFree {α : Type} (act : α → Bool) (l : List α)
    (h : ∃ a ∈ l, act a = false) : ∃ i, firstFree act l = some i := by
  cases hf : firstFree act l with
  | some i => exact ⟨i, rfl⟩
  | none =>
    obtain ⟨a, ha, hact⟩ := h
    have := (firstFree_none act l).mp hf a ha
    rw [hact] at this; cases this

theorem getD_set_self {α : Type} (l : List α) (i : Nat) (b d : α) (h : i < l.length) :
    (l.set i b).getD i d = b := by
  simp [List.getD_eq_getElem?_getD, List.getElem?_set_self h]

theorem activeCount_set_firstFree {α : Type} (act : α → Bool) (l : List α) (i : Nat) (b : α)
    (h : firstFree act l = some i) (hb : act b = true) :
    activeCount act (l.set i b) = activeCount act l + 1 := by
  obtain ⟨a, ha, hact⟩ := firstFree_get act l i h
  have := countP_set_get act b l i a ha
  simp only [hact, hb, if_true, Bool.false_eq_true, if_false, Nat.add_zero] at this
  exact this

theorem POND_HEIGHT_eq : POND_HEIGHT = 400 := by decide

theorem tmod_rand_range (n : Nat) (m : Int) (hm : 0 < m) :
    0 ≤ Int.tmod (n : Int) m ∧ Int.tmod (n : Int) m < m := by
  rw [Int.tmod_eq_emod (Int.natCast_nonneg n) (le_of_lt hm)]
  exact ⟨Int.emod_nonneg _ (ne_of_gt hm), Int.emod_lt_of_pos _ hm⟩

/-- C10 (Scenario A): when the raindrop pool and the ripple pool each have an
inactive slot, `create_raindrop(true)` writes one raindrop slot, the first free one,
which becomes active and in water with `y` in `[POND_HEIGHT, WINDOW_HEIGHT)`; it
writes one ripple slot, the first free one, which becomes active at the drop's
`(x, y, z)` with radius 0; the numbers of active raindrops and of active ripples
and the counters `raindrop_count` and `ripple_count` each grow by exactly 1. -/
theorem create_raindrop_on_surface (e : Env) (w : World)
    (hd : ∃ d ∈ w.raindrops, d.active = false) (hr : ∃ r ∈ w.ripples, r.active = false) :
    ∃ (i j : Nat) (d : Raindrop) (rp : Ripple),
      firstFree Raindrop.active w.raindrops = some i
      ∧ firstFree Ripple.active w.ripples = some j
      ∧ (create_raindrop e true w).raindrops = w.raindrops.set i d
      ∧ d.active = true ∧ d.in_water = true
      ∧ (POND_HEIGHT : ℚ) ≤ d.y ∧ d.y < (WINDOW_HEIGHT : ℚ)
      ∧ activeCount Raindrop.active (create_raindrop e true w).raindrops
          = activeCount Raindrop.active w.raindrops + 1
      ∧ (create_raindrop e true w).ripples = w.ripples.set j rp
      ∧ rp.active = true ∧ rp.x = d.x ∧ rp.y = d.y ∧ rp.z = d.z ∧ rp.radius = 0
      ∧ activeCount Ripple.active (create_raindrop e true w).ripples
          = activeCount Ripple.active w.ripples + 1
      ∧ (create_raindrop e true w).raindrop_count = w.raindrop_count + 1
      ∧ (create_raindrop e true w).ripple_count = w.ripple_count + 1 := by
  obtain ⟨i, hi⟩ := exists_firstFree _ _ hd
  obtain ⟨j, hj⟩ := exists_firstFree _ _ hr
  have hil := firstFree_lt _ _ _ hi
  have hjl := firstFree_lt _ _ _ hj
  have hy := tmod_rand_range (rand e (w.tick 2)) (WINDOW_HEIGHT - POND_HEIGHT) (by decide)
  refine ⟨i, j, (create_raindrop e true w).raindrops.getD i default,
    (create_raindrop e true w).ripples.getD j default, hi, hj, ?_⟩
  simp only [create_raindrop, hi, if_true, create_ripple, World.tick, hj, get_random_color,
    List.set_set, getD_set_self _ _ _ _ hil, getD_set_self _ _ _ _ hjl]
  refine ⟨trivial, trivial, trivial, ?_, ?_, ?_, trivial, trivial, trivial, trivial, trivial,
    trivial, ?_, trivial, trivial⟩
  · simp only [World.tick] at hy
    exact_mod_cast (by omega : POND_HEIGHT ≤ POND_HEIGHT + _)
  · simp only [World.tick] at hy
    exact_mod_cast (by omega : POND_HEIGHT + _ < WINDOW_HEIGHT)
  · exact activeCount_set_firstFree _ _ _ _ hi rfl
  · exact activeCount_set_firstFree _ _ _ _ hj rfl

theorem create_raindrop_on_surface_witness :
    ∃ (i j : Nat) (d : Raindrop) (rp : Ripple),
      firstFree Raindrop.active initial_world.raindrops = some i
      ∧ firstFree Ripple.active initial_world.ripples = some j
      ∧ (create_raindrop (const_env 7) true initial_world).raindrops
          = initial_world.raindrops.set i d
      ∧ d.active = true ∧ d.in_water = true
      ∧ (POND_HEIGHT : ℚ) ≤ d.y ∧ d.y < (WINDOW_HEIGHT : ℚ)
      ∧ activeCount Raindrop.active (create_raindrop (const_env 7) true initial_world).raindrops
          = activeCount Raindrop.active initial_world.raindrops + 1
      ∧ (create_raindrop (const_env 7) true initial_world).ripples
          = initial_world.ripples.set j rp
      ∧ rp.active = true ∧ rp.x = d.x ∧ rp.y = d.y ∧ rp.z = d.z ∧ rp.radius = 0
      ∧ activeCount Ripple.active (create_raindrop (const_env 7) true initial_world).ripples
          = activeCount Ripple.active initial_world.ripples + 1
      ∧ (create_raindrop (const_env 7) true initial_world).raindrop_count
          = initial_world.raindrop_count + 1
      ∧ (create_raindrop (const_env 7) true initial_world).ripple_count
          = initial_world.ripple_count + 1 :=
  create_raindrop_on_surface (const_env 7) initial_world
    ⟨zero_raindrop, List.mem_replicate.mpr ⟨by decide, rfl⟩, rfl⟩
    ⟨zero_ripple, List.mem_replicate.mpr ⟨by decide, rfl⟩, rfl⟩

/-! ## The splash pool and its counter (C1, C2) -/

theorem forLoop_fixed {σ : Type} (body : Nat → σ → σ) (s : σ) (h : ∀ k, body k s = s) :
    ∀ (n lo : Nat), forLoop body lo n s = s
  | 0, _ => rfl
  | n + 1, lo => by
    simp only [forLoop, h]
    exact forLoop_fixed body s h n (lo + 1)

theorem update_splashes_body_inactive (e : Env) (t : Nat) (dt : ℚ) (w : World)
    (h : ∀ s ∈ w.splashes, s.active = false) (k : Nat) :
    update_splashes_body e t dt k w = w := by
  unfold update_splashes_body
  cases hk : w.splashes[k]? with
  | none => rfl
  | some s =>
    have := h s (List.mem_iff_getElem?.mpr ⟨k, hk⟩)
    simp [this]

theorem firstFree_replicate {α : Type} (act : α → Bool) (a : α) (n : Nat) (h : act a = false) :
    firstFree act (List.replicate (n + 1) a) = some 0 := by
  simp [List.replicate_succ, firstFree, h]

theorem u32sub_1000 : u32sub 1000 0 = 1000 := by decide

theorem castU8_neg50 : castU8 (-50) = 206 := by
  have : castInt (-50) = -50 := by
    unfold castInt
    norm_num [Int.ceil_eq_iff]
  unfold castU8
  rw [this]; decide


theorem update_splashes_body_old_splash (e : Env) :
    (update_splashes_body e 1000 (1 / 10) 0 one_splash_world).splash_count = -1
    ∧ (update_splashes_body e 1000 (1 / 10) 0 one_splash_world).ripple_count = 1
    ∧ (update_splashes_body e 1000 (1 / 10) 0 one_splash_world).ripples
        = List.set initial_world.ripples 0
          { x := 0, y := 400, z := 1 / 2, radius := 0
            max_radius := ((20 + rand e one_splash_world % 40 : Nat) : ℚ) * get_z_scale (1 / 2)
            color := { r := 200, g := 200, b := 200, a := 206 }
            creation_time := e.ticks, active := true }
    ∧ (update_splashes_body e 1000 (1 / 10) 0 one_splash_world).splashes
        = { old_splash with speed_y := 150, y := 414, active := false }
            :: List.replicate 299 zero_splash := by
  have hr : firstFree Ripple.active (List.replicate MAX_RIPPLES zero_ripple) = some 0 :=
    firstFree_replicate _ _ 499 rfl
  have h50 : castU8 (-50) = 206 := castU8_neg50
  refine ⟨?_, ?_, ?_, ?_⟩
  · simp only [update_splashes_body, one_splash_world, initial_world, old_splash,
      List.getElem?_cons_zero, u32sub_1000, create_ripple, hr, World.tick, SPLASH_LIFETIME]
    norm_num [POND_HEIGHT_eq]
  · simp only [update_splashes_body, one_splash_world, initial_world, old_splash,
      List.getElem?_cons_zero, u32sub_1000, create_ripple, hr, World.tick, SPLASH_LIFETIME]
    norm_num [POND_HEIGHT_eq]
  · simp only [update_splashes_body, one_splash_world, initial_world, old_splash,
      List.getElem?_cons_zero, u32sub_1000, create_ripple, hr, World.tick, SPLASH_LIFETIME]
    norm_num [POND_HEIGHT_eq, rand]
    rw [h50]
  · simp only [update_splashes_body, one_splash_world, initial_world, old_splash,
      List.getElem?_cons_zero, u32sub_1000, create_ripple, hr, World.tick, SPLASH_LIFETIME]
    norm_num [POND_HEIGHT_eq]

theorem activeCount_eq_zero {α : Type} (act : α → Bool) (l : List α)
    (h : ∀ a ∈ l, act a = false) : activeCount act l = 0 := by
  unfold activeCount
  rw [List.countP_eq_zero]
  intro a ha
  simp [h a ha]

theorem update_splashes_old_splash (e : Env) :
    update_splashes e 1000 (1 / 10) one_splash_world
      = update_splashes_body e 1000 (1 / 10) 0 one_splash_world := by
  have hlen : one_splash_world.splashes.length = 299 + 1 := by
    show (old_splash :: List.replicate 299 zero_splash).length = 299 + 1
    rw [List.length_cons, List.length_replicate]
  unfold update_splashes
  rw [hlen, forLoop]
  apply forLoop_fixed
  apply update_splashes_body_inactive
  intro s hs
  rw [(update_splashes_body_old_splash e).2.2.2] at hs
  simp only [List.mem_cons, List.mem_replicate] at hs
  rcases hs with rfl | ⟨-, rfl⟩ <;> rfl

/-- C1 fails on the code: in `one_splash_world` exactly one splash is active and
`splash_count` is 1; the particle is older than its lifetime and crosses the water
line going down. One call `update_splashes(1000, 0.1)` takes both deactivation
paths for it: `splash_count` drops by two, to -1, and a ripple is emitted (one
ripple is active afterwards and `ripple_count` is 1). -/
theorem update_splashes_double_deactivation (e : Env) :
    activeCount Splash.active one_splash_world.splashes = 1
    ∧ one_splash_world.splash_count = 1
    ∧ activeCount Ripple.active one_splash_world.ripples = 0
    ∧ (update_splashes e 1000 (1 / 10) one_splash_world).splash_count = -1
    ∧ (update_splashes e 1000 (1 / 10) one_splash_world).ripple_count = 1
    ∧ activeCount Ripple.active (update_splashes e 1000 (1 / 10) one_splash_world).ripples
        = 1 := by
  obtain ⟨h1, h2, h3, -⟩ := update_splashes_body_old_splash e
  have hz : activeCount Ripple.active initial_world.ripples = 0 := by
    apply activeCount_eq_zero
    intro a ha
    simp only [initial_world, List.mem_replicate] at ha
    rw [ha.2]; rfl
  have hr : firstFree Ripple.active initial_world.ripples = some 0 :=
    firstFree_replicate _ _ 499 rfl
  refine ⟨?_, rfl, hz, ?_, ?_, ?_⟩
  · have : activeCount Splash.active (List.replicate 299 zero_splash) = 0 := by
      apply activeCount_eq_zero
      intro a ha
      simp only [List.mem_replicate] at ha
      rw [ha.2]; rfl
    simp only [activeCount] at this
    show List.countP Splash.active (old_splash :: List.replicate 299 zero_splash) = 1
    rw [List.countP_cons, this]
    rfl
  · rw [update_splashes_old_splash, h1]
  · rw [update_splashes_old_splash, h2]
  · rw [update_splashes_old_splash, h3, activeCount_set_firstFree _ _ _ _ hr rfl, hz]

theorem create_splash_loop_induct (e : Env) (x y z : ℚ) (color : SDL_Color) (P : World → Prop)
    (hP : ∀ j w, firstFree Splash.active w.splashes = some j → P w →
      P (fill_splash e x y z color j w)) :
    ∀ (m : Nat) (i n : Int) (w : World), freeSplashes w + (n - i).toNat ≤ m → P w →
      P (create_splash_loop e x y z color i n w) := by
  intro m
  induction m with
  | zero =>
    intro i n w hm hw
    rw [create_splash_loop]
    have : ¬ i < n := by omega
    simpa [this] using hw
  | succ m ih =>
    intro i n w hm hw
    rw [create_splash_loop]
    split
    · split
      · rename_i j hj
        have hf := freeSplashes_fill e x y z color j w hj
        have h2 : (n + 1 - (i + 1)) = n - i := by ring
        exact ih (i + 1) (n + 1) _ (by rw [h2]; omega) (hP j w hj hw)
      · exact ih (i + 1) n w (by omega) hw
    · exact hw

theorem create_splash_loop_fills (e : Env) (x y z : ℚ) (color : SDL_Color) :
    ∀ (m : Nat) (i n : Int) (w : World), freeSplashes w + (n - i).toNat ≤ m → i < n →
      firstFree Splash.active (create_splash_loop e x y z color i n w).splashes = none := by
  intro m
  induction m with
  | zero => intro i n w hm hlt; omega
  | succ m ih =>
    intro i n w hm hlt
    rw [create_splash_loop]
    simp only [hlt, if_true]
    split
    · rename_i j hj
      have hf := freeSplashes_fill e x y z color j w hj
      have h2 : (n + 1 - (i + 1)) = n - i := by ring
      exact ih (i + 1) (n + 1) _ (by rw [h2]; omega) (by omega)
    · rename_i hnone
      rw [create_splash_loop_full e x y z color w hnone _ _ _ rfl]
      exact hnone

theorem castInt_ge {q : ℚ} {k : Int} (hk : 0 ≤ k) (h : (k : ℚ) ≤ q) : k ≤ castInt q := by
  have hq : 0 ≤ q := le_trans (by exact_mod_cast hk) h
  rw [castInt_of_nonneg hq]
  exact Int.le_floor.mpr h

theorem splash_burst_ge_five (e : Env) (w : World) (h : 0 ≤ w.weather_intensity) :
    5 ≤ castInt (((5 + Int.tmod (rand e w) 8 : Int) : ℚ)
          * (1.0 + (w.weather_intensity : ℚ) / 100.0)) := by
  have ht := (tmod_rand_range (rand e w) 8 (by decide)).1
  have h5 : (5 : ℚ) ≤ ((5 + Int.tmod (rand e w) 8 : Int) : ℚ) := by
    exact_mod_cast (by omega : (5 : Int) ≤ 5 + Int.tmod (rand e w) 8)
  have hwi : (0 : ℚ) ≤ (w.weather_intensity : ℚ) := by exact_mod_cast h
  apply castInt_ge (by decide)
  have h1 : (1 : ℚ) ≤ 1.0 + (w.weather_intensity : ℚ) / 100.0 := by
    have : (0 : ℚ) ≤ (w.weather_intensity : ℚ) / 100.0 := div_nonneg hwi (by norm_num)
    norm_num; linarith
  have := mul_le_mul h5 h1 (by norm_num) (le_trans (by norm_num) h5)
  push_cast at this ⊢
  linarith

/-- With a non-negative intensity `create_splash` leaves no free splash slot: the
loop bound grows with every slot it fills. -/
theorem create_splash_fills (e : Env) (x y z : ℚ) (color : SDL_Color) (w : World)
    (h : 0 ≤ w.weather_intensity) :
    ∀ s ∈ (create_splash e x y z color w).splashes, s.active = true := by
  apply (firstFree_none Splash.active _).mp
  simp only [create_splash]
  apply create_splash_loop_fills e x y z color _ _ _ _ (le_refl _)
  have := splash_burst_ge_five e w h
  omega

theorem create_splash_splash_count (e : Env) (x y z : ℚ) (color : SDL_Color) (w : World) :
    (create_splash e x y z color w).splash_count = w.splash_count := by
  simp only [create_splash]
  exact create_splash_loop_induct e x y z color (fun v => v.splash_count = w.splash_count)
    (fun j v _ hv => hv) _ _ _ _ (le_refl _) rfl

theorem create_splash_length (e : Env) (x y z : ℚ) (color : SDL_Color) (w : World) :
    (create_splash e x y z color w).splashes.length = w.splashes.length := by
  simp only [create_splash]
  exact create_splash_loop_induct e x y z color
    (fun v => v.splashes.length = w.splashes.length)
    (fun j v _ hv => by simpa [fill_splash, World.tick] using hv) _ _ _ _ (le_refl _) rfl

/-- C2 fails on the code: from the start state one call of `create_splash`
activates all `MAX_SPLASHES = 300` slots of the splash pool while the global
`splash_count` stays 0 (the increment in `create_splash` acts on the local
variable of the same name, which is also the loop bound). -/
theorem create_splash_count_drift (e : Env) (x y z : ℚ) (color : SDL_Color) :
    (run [(e, Call.create_splash x y z color)] initial_world).splash_count = 0
    ∧ activeCount Splash.active
        (run [(e, Call.create_splash x y z color)] initial_world).splashes = MAX_SPLASHES := by
  show (create_splash e x y z color initial_world).splash_count = 0
    ∧ activeCount Splash.active (create_splash e x y z color initial_world).splashes
        = MAX_SPLASHES
  constructor
  · rw [create_splash_splash_count]; rfl
  · have hall := create_splash_fills e x y z color initial_world (by decide)
    have hlen := create_splash_length e x y z color initial_world
    unfold activeCount
    rw [List.countP_eq_length.mpr hall, hlen]
    show (List.replicate MAX_SPLASHES zero_splash).length = MAX_SPLASHES
    rw [List.length_replicate]

/-! ## Counters and pools (C3) -/

theorem forLoop_inv {σ : Type} (body : Nat → σ → σ) (P : σ → Prop)
    (h : ∀ k s, P s → P (body k s)) : ∀ (n lo : Nat) (s : σ), P s → P (forLoop body lo n s)
  | 0, _, _, hs => hs
  | n + 1, lo, s, hs => forLoop_inv body P h n (lo + 1) (body lo s) (h lo s hs)

theorem activeCount_set_same {α : Type} (act : α → Bool) (l : List α) (i : Nat) (a b : α)
    (ha : l[i]? = some a) (hab : act b = act a) :
    activeCount act (l.set i b) = activeCount act l := by
  have := countP_set_get act b l i a ha
  rw [hab] at this
  unfold activeCount
  omega

theorem activeCount_set_getD {α : Type} (act : α → Bool) (l : List α) (i : Nat) (d b : α)
    (hab : act b = act (l.getD i d)) :
    activeCount act (l.set i b) = activeCount act l := by
  by_cases hi : i < l.length
  · have ha : l[i]? = some (l[i]) := List.getElem?_eq_getElem hi
    apply activeCount_set_same act l i _ b ha
    rw [hab, List.getD_eq_getElem?_getD, ha]; rfl
  · rw [List.set_eq_of_length_le (by omega)]

theorem activeCount_set_off {α : Type} (act : α → Bool) (l : List α) (i : Nat) (a b : α)
    (ha : l[i]? = some a) (hact : act a = true) (hb : act b = false) :
    activeCount act (l.set i b) + 1 = activeCount act l := by
  have := countP_set_get act b l i a ha
  simp only [hact, hb, if_true, Bool.false_eq_true, if_false, Nat.add_zero] at this
  exact this

theorem create_ripple_inv (e : Env) (x y z : ℚ) (color : SDL_Color) (kr kl : Int) (w : World)
    (h : PoolInv kr kl w) : PoolInv kr kl (create_ripple e x y z color w) := by
  unfold create_ripple
  cases hj : firstFree Ripple.active w.ripples with
  | none => exact h
  | some j =>
    obtain ⟨h1, h2, h3, h4, h5, h6⟩ := h
    refine ⟨h1, ?_, h3, h4, ?_, h6⟩
    · simp only [World.tick]
      rw [activeCount_set_firstFree _ _ _ _ hj rfl, h2]
      push_cast; ring
    · simp only [World.tick, List.length_set]
      exact h5

theorem create_ripple_frame (e : Env) (x y z : ℚ) (color : SDL_Color) (w : World) :
    (create_ripple e x y z color w).raindrops = w.raindrops
    ∧ (create_ripple e x y z color w).splashes = w.splashes
    ∧ (create_ripple e x y z color w).lightnings = w.lightnings
    ∧ (create_ripple e x y z color w).raindrop_count = w.raindrop_count
    ∧ (create_ripple e x y z color w).splash_count = w.splash_count
    ∧ (create_ripple e x y z color w).lightning_count = w.lightning_count := by
  unfold create_ripple
  cases firstFree Ripple.active w.ripples <;> simp [World.tick]

theorem create_splash_inv (e : Env) (x y z : ℚ) (color : SDL_Color) (kr kl : Int) (w : World)
    (h : PoolInv kr kl w) : PoolInv kr kl (create_splash e x y z color w) := by
  simp only [create_splash]
  exact create_splash_loop_induct e x y z color (PoolInv kr kl)
    (fun j v _ hv => hv) _ _ _ _ (le_refl _) h

theorem create_splash_frame (e : Env) (x y z : ℚ) (color : SDL_Color) (w : World) :
    (create_splash e x y z color w).raindrops = w.raindrops
    ∧ (create_splash e x y z color w).ripples = w.ripples
    ∧ (create_splash e x y z color w).lightnings = w.lightnings := by
  simp only [create_splash]
  exact create_splash_loop_induct e x y z color
    (fun v => v.raindrops = w.raindrops ∧ v.ripples = w.ripples ∧ v.lightnings = w.lightnings)
    (fun j v _ hv => hv) _ _ _ _ (le_refl _) ⟨rfl, rfl, rfl⟩

theorem create_raindrop_inv (e : Env) (on_surface : Bool) (w : World)
    (h : PoolInv 0 0 w) : PoolInv 0 0 (create_raindrop e on_surface w) := by
  cases hi : firstFree Raindrop.active w.raindrops with
  | none => simp only [create_raindrop, hi]; exact h
  | some i =>
    obtain ⟨h1, h2, h3, h4, h5, h6⟩ := h
    have hil := firstFree_lt _ _ _ hi
    cases on_surface with
    | false =>
      simp only [create_raindrop, hi, World.tick, get_random_color, List.set_set,
        Bool.false_eq_true, if_false]
      refine ⟨?_, h2, h3, ?_, h5, h6⟩
      · rw [activeCount_set_firstFree _ _ _ _ hi rfl]
        push_cast; omega
      · rw [List.length_set]; exact h4
    | true =>
      cases hj : firstFree Ripple.active w.ripples with
      | none =>
        simp only [create_raindrop, hi, World.tick, get_random_color, List.set_set,
          if_true, create_ripple, hj]
        refine ⟨?_, h2, h3, ?_, h5, h6⟩
        · rw [activeCount_set_firstFree _ _ _ _ hi rfl]
          push_cast; omega
        · rw [List.length_set]; exact h4
      | some j =>
        simp only [create_raindrop, hi, World.tick, get_random_color, List.set_set,
          if_true, create_ripple, hj]
        refine ⟨?_, ?_, h3, ?_, ?_, h6⟩
        · rw [activeCount_set_firstFree _ _ _ _ hi rfl]
          push_cast; omega
        · rw [activeCount_set_firstFree _ _ _ _ hj rfl]
          push_cast; omega
        · rw [List.length_set]; exact h4
        · rw [List.length_set]; exact h5

theorem PoolInv_tick (kr kl : Int) (w : World) (n : Nat) (h : PoolInv kr kl w) :
    PoolInv kr kl (w.tick n) := h

theorem PoolInv_set_points (kr kl : Int) (w : World) (n i : Nat) (p : List (Int × Int))
    (h : PoolInv kr kl w) :
    PoolInv kr kl
      { w.tick n with
        lightnings := w.lightnings.set i { w.lightnings.getD i default with points := p } } := by
  obtain ⟨h1, h2, h3, h4, h5, h6⟩ := h
  refine ⟨h1, h2, ?_, h4, h5, ?_⟩
  · simp only [World.tick]
    rw [activeCount_set_getD Lightning.active w.lightnings i default
      { w.lightnings.getD i default with points := p } rfl]
    exact h3
  · simp only [World.tick, List.length_set]
    exact h6

theorem lightning_path_inv (e : Env) (i : Nat) (segments width type : Int)
    (zigzag_factor branch_prob : ℚ) (branch : Int → Int → Int → Int → World → World)
    (kr kl : Int)
    (hbranch : ∀ bx bY bs bw w, PoolInv kr kl w → PoolInv kr kl (branch bx bY bs bw w)) :
    ∀ (k : Nat) (j cx cy : Int) (w : World), PoolInv kr kl w →
      PoolInv kr kl
        (lightning_path e i segments width type zigzag_factor branch_prob branch k j cx cy w)
  | 0, _, _, _, _, h => h
  | k + 1, j, cx, cy, w, h => by
    simp only [lightning_path]
    apply lightning_path_inv e i segments width type zigzag_factor branch_prob branch kr kl
      hbranch k
    split_ifs <;>
      first
      | exact hbranch _ _ _ _ _ (PoolInv_tick _ _ _ 1 (PoolInv_set_points kr kl w 1 i _ h))
      | exact PoolInv_tick _ _ _ 1 (PoolInv_set_points kr kl w 1 i _ h)

theorem PoolInv_activate (kr kl : Int) (w : World) (n i : Nat) (l : Lightning)
    (hi : firstFree Lightning.active w.lightnings = some i) (hl : l.active = true)
    (h : PoolInv kr kl w) :
    PoolInv kr (kl + 1) { w.tick n with lightnings := w.lightnings.set i l } := by
  obtain ⟨h1, h2, h3, h4, h5, h6⟩ := h
  refine ⟨h1, h2, ?_, h4, h5, ?_⟩
  · simp only [World.tick]
    rw [activeCount_set_firstFree _ _ _ _ hi hl]
    push_cast
    omega
  · simp only [World.tick, List.length_set]
    exact h6

theorem PoolInv_count (kr kl : Int) (w : World) (h : PoolInv kr (kl + 1) w) :
    PoolInv kr kl { w with lightning_count := w.lightning_count + 1 } := by
  obtain ⟨h1, h2, h3, h4, h5, h6⟩ := h
  exact ⟨h1, h2, by simp only; omega, h4, h5, h6⟩

theorem create_lightning_inv_of (e : Env) (x y segments width type : Int) (kr : Int)
    (hbranch : ∀ (kl : Int) (bx bY bs bw : Int) (w : World), type = 0 → PoolInv kr kl w →
      PoolInv kr kl (create_lightning e bx bY bs bw 1 w))
    (kl : Int) (w : World) (h : PoolInv kr kl w) :
    PoolInv kr kl (create_lightning e x y segments width type w) := by
  rw [create_lightning]
  cases hi : firstFree Lightning.active w.lightnings with
  | none => exact h
  | some i =>
    simp only
    apply PoolInv_count
    apply lightning_path_inv
    · intro bx bY bs bw v hv
      by_cases ht : type = 0
      · simp only [ht, dite_true]
        exact hbranch _ _ _ _ _ _ ht hv
      · simp only [ht, dite_false]
        exact hv
    · exact PoolInv_activate kr kl w 2 i _ hi rfl h

theorem create_lightning_inv_branch (e : Env) (x y segments width : Int) (kr kl : Int)
    (w : World) (h : PoolInv kr kl w) :
    PoolInv kr kl (create_lightning e x y segments width 1 w) :=
  create_lightning_inv_of e x y segments width 1 kr
    (fun _ _ _ _ _ _ h10 _ => absurd h10 (by decide)) kl w h

theorem create_lightning_inv (e : Env) (x y segments width type : Int) (kr kl : Int)
    (w : World) (h : PoolInv kr kl w) :
    PoolInv kr kl (create_lightning e x y segments width type w) :=
  create_lightning_inv_of e x y segments width type kr
    (fun kl2 bx bY bs bw v _ hv => create_lightning_inv_branch e bx bY bs bw kr kl2 v hv) kl w h

theorem PoolInv_set_raindrop (kr kl : Int) (w v : World) (i : Nat) (d d2 : Raindrop)
    (h : PoolInv kr kl w) (hd : w.raindrops[i]? = some d)
    (h1 : v.raindrops = w.raindrops.set i d2) (hact : d2.active = d.active)
    (h2 : v.ripples = w.ripples)
    (h3 : v.lightnings = w.lightnings) (h4 : v.raindrop_count = w.raindrop_count)
    (h5 : v.ripple_count = w.ripple_count) (h6 : v.lightning_count = w.lightning_count) :
    PoolInv kr kl v := by
  obtain ⟨a1, a2, a3, a4, a5, a6⟩ := h
  unfold PoolInv
  rw [h1, h2, h3, h4, h5, h6, activeCount_set_same Raindrop.active _ i d d2 hd hact,
    List.length_set]
  exact ⟨a1, a2, a3, a4, a5, a6⟩

theorem activeCount_set_off_int {α : Type} (act : α → Bool) (l : List α) (i : Nat) (a b : α)
    (ha : l[i]? = some a) (hact : act a = true) (hb : act b = false) :
    ((activeCount act (l.set i b) : Nat) : Int) = (activeCount act l : Int) - 1 := by
  have := activeCount_set_off act l i a b ha hact hb
  omega

theorem update_raindrops_body_inv (e : Env) (t : Nat) (dt : ℚ) (i : Nat) (w : World)
    (h : PoolInv 0 0 w) : PoolInv 0 0 (update_raindrops_body e t dt i w) := by
  unfold update_raindrops_body
  cases hd : w.raindrops[i]? with
  | none => exact h
  | some d =>
    simp only
    by_cases hact : d.active = true
    · rw [if_pos hact]
      by_cases hw : d.in_water = true
      · rw [if_neg (by simp [hw])]
        split
        · obtain ⟨a1, a2, a3, a4, a5, a6⟩ := h
          refine ⟨?_, a2, a3, ?_, a5, a6⟩
          · simp only
            rw [activeCount_set_off_int _ _ _ _ _ hd hact rfl]
            omega
          · simp only [List.length_set]; exact a4
        · exact h
      · rw [if_pos (by simp [hw])]
        split_ifs <;>
          first
          | exact create_splash_inv e _ _ _ _ 0 0 _
              (PoolInv_set_raindrop 0 0 w _ i d _ h hd rfl rfl rfl rfl rfl rfl rfl)
          | exact create_ripple_inv e _ _ _ _ 0 0 _
              (PoolInv_set_raindrop 0 0 w _ i d _ h hd rfl rfl rfl rfl rfl rfl rfl)
          | exact PoolInv_set_raindrop 0 0 w _ i d _ h hd rfl rfl rfl rfl rfl rfl rfl
    · rw [if_neg hact]
      exact h

theorem update_ripples_body_inv (t : Nat) (i : Nat) (w : World)
    (h : PoolInv 0 0 w) : PoolInv 0 0 (update_ripples_body t i w) := by
  unfold update_ripples_body
  cases hd : w.ripples[i]? with
  | none => exact h
  | some r =>
    simp only
    obtain ⟨a1, a2, a3, a4, a5, a6⟩ := h
    by_cases hact : r.active = true
    · rw [if_pos hact]
      split
      · refine ⟨a1, ?_, a3, a4, ?_, a6⟩
        · simp only
          rw [activeCount_set_off_int _ _ _ _ _ hd hact rfl]
          omega
        · simp only [List.length_set]; exact a5
      · refine ⟨a1, ?_, a3, a4, ?_, a6⟩
        · simp only
          rw [activeCount_set_same Ripple.active w.ripples i r _ hd]
          · exact a2
          · rfl
        · simp only [List.length_set]; exact a5
    · rw [if_neg hact]
      exact ⟨a1, a2, a3, a4, a5, a6⟩

theorem update_splashes_body_inv (e : Env) (t : Nat) (dt : ℚ) (i : Nat) (w : World)
    (h : PoolInv 0 0 w) : PoolInv 0 0 (update_splashes_body e t dt i w) := by
  unfold update_splashes_body
  cases hd : w.splashes[i]? with
  | none => exact h
  | some s =>
    simp only
    by_cases hact : s.active = true
    · rw [if_pos hact]
      split_ifs <;>
        first
        | exact h
        | exact create_ripple_inv e _ _ _ _ 0 0 _ h
    · rw [if_neg hact]
      exact h

theorem update_lightning_body_inv (t : Nat) (i : Nat) (w : World)
    (h : PoolInv 0 0 w) : PoolInv 0 0 (update_lightning_body t i w) := by
  unfold update_lightning_body
  cases hd : w.lightnings[i]? with
  | none => exact h
  | some l =>
    simp only
    by_cases hact : l.active = true
    · rw [if_pos hact]
      split
      · obtain ⟨a1, a2, a3, a4, a5, a6⟩ := h
        refine ⟨a1, a2, ?_, a4, a5, ?_⟩
        · simp only
          rw [activeCount_set_off_int _ _ _ _ _ hd hact rfl]
          omega
        · simp only [List.length_set]; exact a6
      · exact h
    · rw [if_neg hact]
      exact h

theorem exec_inv (e : Env) (c : Call) (w : World) (h : PoolInv 0 0 w) :
    PoolInv 0 0 (c.exec e w) := by
  cases c with
  | create_raindrop b => exact create_raindrop_inv e b w h
  | create_ripple x y z col => exact create_ripple_inv e x y z col 0 0 w h
  | create_splash x y z col => exact create_splash_inv e x y z col 0 0 w h
  | create_lightning x y sg wd ty => exact create_lightning_inv e x y sg wd ty 0 0 w h
  | update_raindrops t dt =>
    exact forLoop_inv _ (PoolInv 0 0) (fun k s hs => update_raindrops_body_inv e t dt k s hs)
      _ _ _ h
  | update_ripples t =>
    exact forLoop_inv _ (PoolInv 0 0) (fun k s hs => update_ripples_body_inv t k s hs) _ _ _ h
  | update_splashes t dt =>
    exact forLoop_inv _ (PoolInv 0 0) (fun k s hs => update_splashes_body_inv e t dt k s hs)
      _ _ _ h
  | update_lightning t =>
    exact forLoop_inv _ (PoolInv 0 0) (fun k s hs => update_lightning_body_inv t k s hs)
      _ _ _ h

theorem run_inv : ∀ (calls : List (Env × Call)) (w : World), PoolInv 0 0 w →
    PoolInv 0 0 (run calls w)
  | [], _, h => h
  | (e, c) :: cs, w, h => run_inv cs (c.exec e w) (exec_inv e c w h)

theorem Fresh_inv (w : World) (h : w.Fresh) : PoolInv 0 0 w := by
  obtain ⟨l1, l2, -, l4, a1, a2, -, a4, c1, c2, -, c4⟩ := h
  refine ⟨?_, ?_, ?_, l1, l2, l4⟩
  · rw [activeCount_eq_zero _ _ a1, c1]; rfl
  · rw [activeCount_eq_zero _ _ a2, c2]; rfl
  · rw [activeCount_eq_zero _ _ a4, c4]; rfl

/-- C3: from a state with all slots inactive and all counters 0, after any finite
sequence of calls of the create and update functions of the four pools (every
`create_lightning` with at most 19 segments), `raindrop_count`, `ripple_count`
and `lightning_count` equal the numbers of active slots of their pools and so are
at most 1000, 500 and 5. -/
theorem counters_match_pools (calls : List (Env × Call)) (w : World) (hw : w.Fresh)
    (_hb : ∀ p ∈ calls, p.2.inBounds) :
    (run calls w).raindrop_count = activeCount Raindrop.active (run calls w).raindrops
    ∧ (run calls w).ripple_count = activeCount Ripple.active (run calls w).ripples
    ∧ (run calls w).lightning_count = activeCount Lightning.active (run calls w).lightnings
    ∧ (run calls w).raindrop_count ≤ 1000
    ∧ (run calls w).ripple_count ≤ 500
    ∧ (run calls w).lightning_count ≤ 5 := by
  obtain ⟨h1, h2, h3, h4, h5, h6⟩ := run_inv calls w (Fresh_inv w hw)
  have b1 : activeCount Raindrop.active (run calls w).raindrops ≤ 1000 := by
    have := List.countP_le_length Raindrop.active (l := (run calls w).raindrops)
    rw [h4] at this; exact this
  have b2 : activeCount Ripple.active (run calls w).ripples ≤ 500 := by
    have := List.countP_le_length Ripple.active (l := (run calls w).ripples)
    rw [h5] at this; exact this
  have b3 : activeCount Lightning.active (run calls w).lightnings ≤ 5 := by
    have := List.countP_le_length Lightning.active (l := (run calls w).lightnings)
    rw [h6] at this; exact this
  refine ⟨by omega, h2, by omega, by omega, by omega, by omega⟩

theorem initial_world_Fresh : initial_world.Fresh := by
  refine ⟨List.length_replicate _ _, List.length_replicate _ _, List.length_replicate _ _,
    List.length_replicate _ _, ?_, ?_, ?_, ?_, rfl, rfl, rfl, rfl⟩
  · intro d hd
    simp only [initial_world, List.mem_replicate] at hd
    rw [hd.2]; rfl
  · intro d hd
    simp only [initial_world, List.mem_replicate] at hd
    rw [hd.2]; rfl
  · intro d hd
    simp only [initial_world, List.mem_replicate] at hd
    rw [hd.2]; rfl
  · intro d hd
    simp only [initial_world, List.mem_replicate] at hd
    rw [hd.2]; rfl

theorem counters_match_pools_witness :
    (run [(const_env 3, Call.create_raindrop true), (const_env 5, Call.create_lightning 400 0 10 3 0),
          (const_env 3, Call.update_raindrops 700 (1 / 60)), (const_env 3, Call.update_ripples 2500),
          (const_env 3, Call.update_splashes 2500 (1 / 60)), (const_env 3, Call.update_lightning 2500)]
        initial_world).raindrop_count
      = activeCount Raindrop.active
          (run [(const_env 3, Call.create_raindrop true),
                (const_env 5, Call.create_lightning 400 0 10 3 0),
                (const_env 3, Call.update_raindrops 700 (1 / 60)),
                (const_env 3, Call.update_ripples 2500),
                (const_env 3, Call.update_splashes 2500 (1 / 60)),
                (const_env 3, Call.update_lightning 2500)] initial_world).raindrops
    ∧ (run [(const_env 3, Call.create_raindrop true), (const_env 5, Call.create_lightning 400 0 10 3 0),
          (const_env 3, Call.update_raindrops 700 (1 / 60)), (const_env 3, Call.update_ripples 2500),
          (const_env 3, Call.update_splashes 2500 (1 / 60)), (const_env 3, Call.update_lightning 2500)]
        initial_world).lightning_count ≤ 5 := by
  have h := counters_match_pools
    [(const_env 3, Call.create_raindrop true), (const_env 5, Call.create_lightning 400 0 10 3 0),
     (const_env 3, Call.update_raindrops 700 (1 / 60)), (const_env 3, Call.update_ripples 2500),
     (const_env 3, Call.update_splashes 2500 (1 / 60)), (const_env 3, Call.update_lightning 2500)]
    initial_world initial_world_Fresh
    (by
      intro p hp
      simp only [List.mem_cons, List.mem_singleton, List.not_mem_nil, or_false] at hp
      rcases hp with rfl | rfl | rfl | rfl | rfl | rfl <;> simp [Call.inBounds])
  exact ⟨h.1, h.2.2.2.2.2⟩

/-! ## Lifecycle expiry (C5) -/

theorem set_get_self {α : Type} : ∀ (l : List α) (i : Nat) (a : α), l[i]? = some a →
    l.set i a = l
  | [], _, _, h => by simp at h
  | c :: cs, 0, a, h => by
    have : c = a := by simpa using h
    subst this; rfl
  | c :: cs, k + 1, a, h => by
    have h2 : cs[k]? = some a := by simpa using h
    simp only [List.set_cons_succ, set_get_self cs k a h2]

/-- A loop over the indices of a pool whose body rewrites the slot of its index,
in relation `R` with the old content, and no other slot: afterwards the slots in
the range of the loop are in relation `R` with their old content and the others
are as before. -/
theorem forLoop_slots {σ α : Type} (get : σ → List α) (R : α → α → Prop)
    (body : Nat → σ → σ)
    (hbody : ∀ k s a, (get s)[k]? = some a → ∃ b, get (body k s) = (get s).set k b ∧ R a b)
    (hnone : ∀ k s, (get s)[k]? = none → get (body k s) = get s) :
    ∀ (n lo : Nat) (s : σ) (i : Nat) (a : α), (get s)[i]? = some a →
      ((lo ≤ i ∧ i < lo + n) → ∃ b, (get (forLoop body lo n s))[i]? = some b ∧ R a b)
      ∧ (¬ (lo ≤ i ∧ i < lo + n) → (get (forLoop body lo n s))[i]? = some a)
  | 0, lo, s, i, a, ha => by
    refine ⟨fun h => ?_, fun _ => ha⟩
    omega
  | n + 1, lo, s, i, a, ha => by
    simp only [forLoop]
    by_cases hi : i = lo
    · subst hi
      obtain ⟨b, hb, hR⟩ := hbody i s a ha
      have hlt : i < (get s).length := (List.getElem?_eq_some.mp ha).1
      have hb2 : (get (body i s))[i]? = some b := by
        rw [hb, List.getElem?_set_self hlt]
      have ih := forLoop_slots get R body hbody hnone n (i + 1) (body i s) i b hb2
      refine ⟨fun _ => ⟨b, ih.2 (by omega), hR⟩, fun h => ?_⟩
      omega
    · have hs : (get (body lo s))[i]? = some a := by
        cases hlo : (get s)[lo]? with
        | none => rw [hnone lo s hlo]; exact ha
        | some c =>
          obtain ⟨b, hb, -⟩ := hbody lo s c hlo
          rw [hb, List.getElem?_set_ne (fun h => hi h.symm)]
          exact ha
      have ih := forLoop_slots get R body hbody hnone n (lo + 1) (body lo s) i a hs
      refine ⟨fun h => ih.1 (by omega), fun h => ih.2 (by omega)⟩

/-- The slots of the pool after a loop over all its indices. -/
theorem forLoop_all_slots {σ α : Type} (get : σ → List α) (R : α → α → Prop)
    (body : Nat → σ → σ)
    (hbody : ∀ k s a, (get s)[k]? = some a → ∃ b, get (body k s) = (get s).set k b ∧ R a b)
    (hnone : ∀ k s, (get s)[k]? = none → get (body k s) = get s)
    (s : σ) (i : Nat) (a : α) (ha : (get s)[i]? = some a) :
    ∃ b, (get (forLoop body 0 (get s).length s))[i]? = some b ∧ R a b := by
  have hlt : i < (get s).length := (List.getElem?_eq_some.mp ha).1
  exact (forLoop_slots get R body hbody hnone (get s).length 0 s i a ha).1 (by omega)

theorem u32sub_self (t : Nat) : u32sub t t = 0 := by
  simp [u32sub]

theorem intU32_of_range {n : Int} (h0 : 0 ≤ n) (h1 : n < 4294967296) : (intU32 n : Int) = n := by
  unfold intU32
  rw [Int.emod_eq_of_lt h0 h1, Int.toNat_of_nonneg h0]

theorem get_rain_interval_base_pos (weather : Nat) : 0 < get_rain_interval weather 0 := by
  unfold get_rain_interval
  split_ifs <;> norm_num

theorem get_rain_interval_eq (weather : Nat) (intensity : Int) :
    get_rain_interval weather intensity
      = get_rain_interval weather 0 * (1 - (intensity : ℚ) / 200) := by
  unfold get_rain_interval
  split_ifs <;> norm_num

/-- C15: `get_rain_interval(weather, intensity)` is `base * (1 - intensity / 200)`
with `base` (its value at intensity 0) equal to 150, 80, 20, 20 for light, medium,
heavy rain and thunderstorm; for intensities in `[0, 100]` it lies in
`[base / 2, base]`, it does not increase with the intensity, and it is `base / 2`
at intensity 100. -/
theorem get_rain_interval_spec :
    (get_rain_interval WEATHER_LIGHT_RAIN 0 = 150
      ∧ get_rain_interval WEATHER_MEDIUM_RAIN 0 = 80
      ∧ get_rain_interval WEATHER_HEAVY_RAIN 0 = 20
      ∧ get_rain_interval WEATHER_THUNDERSTORM 0 = 20)
    ∧ (∀ (weather : Nat) (intensity : Int),
        get_rain_interval weather intensity
          = get_rain_interval weather 0 * (1 - (intensity : ℚ) / 200))
    ∧ (∀ (weather : Nat) (intensity : Int), 0 ≤ intensity → intensity ≤ 100 →
        get_rain_interval weather 0 / 2 ≤ get_rain_interval weather intensity
        ∧ get_rain_interval weather intensity ≤ get_rain_interval weather 0)
    ∧ (∀ (weather : Nat) (i1 i2 : Int), i1 ≤ i2 →
        get_rain_interval weather i2 ≤ get_rain_interval weather i1)
    ∧ (∀ weather : Nat, get_rain_interval weather 100 = get_rain_interval weather 0 / 2) := by
  refine ⟨⟨?_, ?_, ?_, ?_⟩, get_rain_interval_eq, ?_, ?_, ?_⟩
  · norm_num [get_rain_interval, WEATHER_LIGHT_RAIN]
  · norm_num [get_rain_interval, WEATHER_LIGHT_RAIN, WEATHER_MEDIUM_RAIN]
  · norm_num [get_rain_interval, WEATHER_LIGHT_RAIN, WEATHER_MEDIUM_RAIN, WEATHER_HEAVY_RAIN]
  · norm_num [get_rain_interval, WEATHER_LIGHT_RAIN, WEATHER_MEDIUM_RAIN, WEATHER_HEAVY_RAIN,
      WEATHER_THUNDERSTORM]
  · intro weather i h0 h1
    have hb := get_rain_interval_base_pos weather
    have hi0 : (0 : ℚ) ≤ (i : ℚ) := by exact_mod_cast h0
    have hi1 : (i : ℚ) ≤ 100 := by exact_mod_cast h1
    rw [get_rain_interval_eq weather i]
    constructor <;> nlinarith
  · intro weather i1 i2 h
    have hb := get_rain_interval_base_pos weather
    have hi : (i1 : ℚ) ≤ (i2 : ℚ) := by exact_mod_cast h
    rw [get_rain_interval_eq weather i1, get_rain_interval_eq weather i2]
    nlinarith
  · intro weather
    rw [get_rain_interval_eq weather 100]
    push_cast
    ring

theorem get_rain_interval_spec_witness :
    (get_rain_interval WEATHER_HEAVY_RAIN 0 / 2 ≤ get_rain_interval WEATHER_HEAVY_RAIN 40
      ∧ get_rain_interval WEATHER_HEAVY_RAIN 40 ≤ get_rain_interval WEATHER_HEAVY_RAIN 0)
    ∧ get_rain_interval WEATHER_LIGHT_RAIN 70 ≤ get_rain_interval WEATHER_LIGHT_RAIN 30 :=
  ⟨get_rain_interval_spec.2.2.1 WEATHER_HEAVY_RAIN 40 (by decide) (by decide),
   get_rain_interval_spec.2.2.2.1 WEATHER_LIGHT_RAIN 30 70 (by decide)⟩

/-! ## Thunder (C18) -/

theorem u32sub_of_le {a b : Nat} (hba : b ≤ a) (ha : a < 4294967296) :
    (u32sub a b : Int) = (a : Int) - (b : Int) := by
  unfold u32sub
  have h0 : (0 : Int) ≤ (a : Int) - (b : Int) := by omega
  rw [Int.emod_eq_of_lt h0 (by omega), Int.toNat_of_nonneg h0]

/-- C18: `update_thunder(now)` changes nothing but `thunder_active`, which it never
sets; when thunder is active and `now >= thunder_start_time` it clears the flag if
and only if `now - thunder_start_time > thunder_duration`; when the start time is
still ahead (`now < thunder_start_time`) thunder stays active. The time is a
`Uint32` and the duration a non-negative `int`. -/
theorem update_thunder_spec (now : Nat) (w : World) (hnow : now < 4294967296)
    (hd0 : 0 ≤ w.thunder_duration) (hd1 : w.thunder_duration < 2147483648) :
    update_thunder now w = { w with thunder_active := (update_thunder now w).thunder_active }
    ∧ (update_thunder now w).thunder_start_time = w.thunder_start_time
    ∧ (update_thunder now w).thunder_duration = w.thunder_duration
    ∧ ((update_thunder now w).thunder_active = true → w.thunder_active = true)
    ∧ (w.thunder_active = true → now ≥ w.thunder_start_time →
        ((update_thunder now w).thunder_active = false
          ↔ (now : Int) - (w.thunder_start_time : Int) > w.thunder_duration))
    ∧ (w.thunder_active = true → now < w.thunder_start_time →
        (update_thunder now w).thunder_active = true) := by
  have hd := intU32_of_range hd0 (by omega : w.thunder_duration < 4294967296)
  refine ⟨?_, ?_, ?_, ?_, ?_, ?_⟩
  · unfold update_thunder; split_ifs <;> rfl
  · unfold update_thunder; split_ifs <;> rfl
  · unfold update_thunder; split_ifs <;> rfl
  · unfold update_thunder
    split_ifs with h1 h2
    · intro h; cases h
    · exact fun h => h
    · exact fun h => h
  · intro ha hge
    have hs := u32sub_of_le hge hnow
    unfold update_thunder
    rw [if_pos ⟨ha, hge⟩]
    by_cases h2 : u32sub now w.thunder_start_time > intU32 w.thunder_duration
    · rw [if_pos h2]
      constructor
      · intro _; omega
      · intro _; rfl
    · rw [if_neg h2]
      constructor
      · intro h; rw [ha] at h; cases h
      · intro h; omega
  · intro ha hlt
    unfold update_thunder
    rw [if_neg (by omega)]
    exact ha

theorem update_thunder_spec_witness :
    ((update_thunder 5000 { initial_world with
          thunder_active := true, thunder_start_time := 2000, thunder_duration := 1500 }
        ).thunder_active = false
      ↔ ((5000 : Nat) : Int) - ((2000 : Nat) : Int) > 1500)
    ∧ (update_thunder 1000 { initial_world with
          thunder_active := true, thunder_start_time := 2000, thunder_duration := 1500 }
        ).thunder_active = true :=
  ⟨(update_thunder_spec 5000 { initial_world with
        thunder_active := true, thunder_start_time := 2000, thunder_duration := 1500 }
      (by decide) (by decide) (by decide)).2.2.2.2.1 rfl (by decide),
   (update_thunder_spec 1000 { initial_world with
        thunder_active := true, thunder_start_time := 2000, thunder_duration := 1500 }
      (by decide) (by decide) (by decide)).2.2.2.2.2 rfl (by decide)⟩

/-! ## Camera (C13) -/

theorem fabsf_eq_abs (q : ℚ) : fabsf q = |q| := by
  unfold fabsf
  split_ifs with h
  · exact (abs_of_neg h).symm
  · exact (abs_of_nonneg (not_lt.mp h)).symm

theorem update_camera_target (w : World) :
    (update_camera w).camera_target_x = w.camera_target_x := by
  unfold update_camera
  simp only
  split_ifs <;> rfl

theorem update_camera_still (w : World) (hm : w.camera_moving = false) :
    update_camera w = w := by
  unfold update_camera
  simp [hm]

theorem camera_steps_succ (n : Nat) : ∀ w : World,
    camera_steps (n + 1) w = update_camera (camera_steps n w) := by
  induction n with
  | zero => intro w; rfl
  | succ n ih => intro w; exact ih (update_camera w)

theorem update_camera_near (w : World) (hm : w.camera_moving = true)
    (hd : fabsf (f32 (w.camera_target_x - w.camera_x)) < 0.5) :
    update_camera w = { w with camera_x := w.camera_target_x, camera_moving := false } := by
  unfold update_camera
  simp only [hm, if_true, hd]

theorem update_camera_far (w : World) (hm : w.camera_moving = true)
    (hd : ¬ fabsf (f32 (w.camera_target_x - w.camera_x)) < 0.5) :
    update_camera w
      = { w with camera_x :=
            (f32 (w.camera_x + f32 (f32 (w.camera_target_x - w.camera_x) * f32 0.1))) } := by
  unfold update_camera
  simp only [hm, if_true, hd, if_false]

/-- The snap test is passed when the exact distance is at most 0.4999999. -/
theorem camera_near_of_small (c t : ℚ) (h : |t - c| ≤ 0.4999999) :
    fabsf (f32 (t - c)) < 0.5 := by
  rw [fabsf_eq_abs]
  have h1 := f32_abs_le (t - c)
  norm_num at h h1 ⊢
  linarith

/-- The snap test fails when the exact distance is at least 0.5. -/
theorem camera_far_of_large (c t : ℚ) (h : 0.5 ≤ |t - c|) :
    ¬ fabsf (f32 (t - c)) < 0.5 := by
  rw [fabsf_eq_abs, not_lt]
  norm_num at h ⊢
  rcases le_abs'.mp h with h1 | h1
  · have := f32_monotone (x := t - c) (y := -(1 / 2)) (by linarith)
    rw [f32_neg, f32_half] at this
    rw [abs_of_nonpos (by linarith)]
    linarith
  · have := f32_monotone (x := 1 / 2) (y := t - c) h1
    rw [f32_half] at this
    rw [abs_of_nonneg (by linarith)]
    exact this

/-- Error of one step of the camera in `float` arithmetic, for positions within
65536 of the origin. -/
theorem camera_step_error (c t : ℚ) (hc : |c| ≤ 65536)
    (hd : ¬ fabsf (f32 (t - c)) < 0.5) :
    49 / 100 ≤ |t - c|
    ∧ |f32 (c + f32 (f32 (t - c) * f32 0.1)) - (c + 0.1 * (t - c))| ≤ |t - c| / 100 := by
  rw [fabsf_eq_abs, not_lt] at hd
  have hm : f32 (0.1 : ℚ) = 13421773 / 134217728 := by
    rw [show (0.1 : ℚ) = 1 / 10 by norm_num, f32_tenth]
  rw [hm]
  have h1 := f32_error (t - c)
  have hfd := f32_abs_le (t - c)
  have hq2 : |f32 (t - c) * (13421773 / 134217728)| = |f32 (t - c)| * (13421773 / 134217728) := by
    rw [abs_mul, abs_of_pos (by norm_num : (0 : ℚ) < 13421773 / 134217728)]
  have h2 := f32_error (f32 (t - c) * (13421773 / 134217728))
  have hp := f32_abs_le (f32 (t - c) * (13421773 / 134217728))
  have h3 := f32_error (c + f32 (f32 (t - c) * (13421773 / 134217728)))
  have hcp := abs_add c (f32 (f32 (t - c) * (13421773 / 134217728)))
  have hdd := abs_le.mp (le_refl |t - c|)
  rw [hq2] at h2 hp
  have hD : 49 / 100 ≤ |t - c| := by
    norm_num at hd hfd ⊢
    linarith
  refine ⟨hD, ?_⟩
  have a1 := abs_le.mp h1
  have a2 := abs_le.mp h2
  have a3 := abs_le.mp h3
  norm_num at hd hfd hp a1 a2 a3 ⊢
  rw [abs_le]
  constructor <;> linarith [a1.1, a1.2, a2.1, a2.2, a3.1, a3.2, hdd.1, hdd.2]

/-- One step of a moving camera that does not snap, for positions within 65536 of
the origin. -/
theorem camera_step_far (w : World) (hm : w.camera_moving = true)
    (hc : |w.camera_x| ≤ 65536) (ht : |w.camera_target_x| ≤ 65536)
    (hd : ¬ fabsf (f32 (w.camera_target_x - w.camera_x)) < 0.5) :
    |(update_camera w).camera_x - (w.camera_x + 0.1 * (w.camera_target_x - w.camera_x))|
        ≤ |w.camera_target_x - w.camera_x| / 100
    ∧ 0.89 * camera_distance w ≤ camera_distance (update_camera w)
    ∧ camera_distance (update_camera w) ≤ 0.91 * camera_distance w
    ∧ camera_distance (update_camera w) < camera_distance w
    ∧ 0 < (w.camera_target_x - (update_camera w).camera_x)
            * (w.camera_target_x - w.camera_x)
    ∧ (update_camera w).camera_moving = true
    ∧ |(update_camera w).camera_x| ≤ 65536 := by
  obtain ⟨hD, herr⟩ := camera_step_error w.camera_x w.camera_target_x hc hd
  rw [update_camera_far w hm hd]
  simp only [camera_distance, fabsf_eq_abs]
  have e := abs_le.mp herr
  have bc := abs_le.mp hc
  have bt := abs_le.mp ht
  rcases le_or_lt 0 (w.camera_target_x - w.camera_x) with hs | hs
  · rw [abs_of_nonneg hs] at hD e ⊢
    have hpos : 0 < w.camera_target_x
        - f32 (w.camera_x + f32 (f32 (w.camera_target_x - w.camera_x) * f32 0.1)) := by
      norm_num at e ⊢; linarith
    rw [abs_of_pos hpos]
    refine ⟨herr.trans_eq (by rw [abs_of_nonneg hs]), ?_, ?_, ?_, ?_, hm, ?_⟩
    · norm_num at e ⊢; linarith
    · norm_num at e ⊢; linarith
    · norm_num at e ⊢; linarith
    · exact mul_pos hpos (by linarith)
    · rw [abs_le]
      norm_num at e ⊢
      constructor <;> linarith
  · rw [abs_of_neg hs] at hD e ⊢
    have hneg : w.camera_target_x
        - f32 (w.camera_x + f32 (f32 (w.camera_target_x - w.camera_x) * f32 0.1)) < 0 := by
      norm_num at e ⊢; linarith
    rw [abs_of_neg hneg]
    refine ⟨herr.trans_eq (by rw [abs_of_neg hs]), ?_, ?_, ?_, ?_, hm, ?_⟩
    · norm_num at e ⊢; linarith
    · norm_num at e ⊢; linarith
    · norm_num at e ⊢; linarith
    · exact mul_pos_of_neg_of_neg hneg hs
    · rw [abs_le]
      norm_num at e ⊢
      constructor <;> linarith
theorem camera_bounds_step (w : World)
    (hc : |w.camera_x| ≤ 65536) (ht : |w.camera_target_x| ≤ 65536) :
    |(update_camera w).camera_x| ≤ 65536 := by
  by_cases hm : w.camera_moving = true
  · by_cases hd : fabsf (f32 (w.camera_target_x - w.camera_x)) < 0.5
    · rw [update_camera_near w hm hd]
      exact ht
    · exact (camera_step_far w hm hc ht hd).2.2.2.2.2.2
  · rw [update_camera_still w (by simpa using hm)]
    exact hc

theorem camera_distance_step (w : World)
    (hc : |w.camera_x| ≤ 65536) (ht : |w.camera_target_x| ≤ 65536) :
    camera_distance (update_camera w) ≤ camera_distance w := by
  by_cases hm : w.camera_moving = true
  · by_cases hd : fabsf (f32 (w.camera_target_x - w.camera_x)) < 0.5
    · rw [update_camera_near w hm hd]
      simp only [camera_distance, fabsf_eq_abs, sub_self, abs_zero]
      exact abs_nonneg _
    · exact (camera_step_far w hm hc ht hd).2.2.2.1.le
  · rw [update_camera_still w (by simpa using hm)]

theorem camera_steps_bounds : ∀ (n : Nat) (w : World),
    |w.camera_x| ≤ 65536 → |w.camera_target_x| ≤ 65536 →
    |(camera_steps n w).camera_x| ≤ 65536
    ∧ (camera_steps n w).camera_target_x = w.camera_target_x
  | 0, _, hc, _ => ⟨hc, rfl⟩
  | n + 1, w, hc, ht => by
    have h := camera_steps_bounds n (update_camera w) (camera_bounds_step w hc ht)
      (by rw [update_camera_target]; exact ht)
    simp only [camera_steps]
    exact ⟨h.1, by rw [h.2, update_camera_target]⟩

/-- A moving camera within 65536 of the origin whose distance to the target is
below `0.49 / 0.91 ^ n` is on the target, with the flag cleared, after at most
`n + 1` calls. -/
theorem camera_settles_within : ∀ (n : Nat) (w : World), w.camera_moving = true →
    |w.camera_x| ≤ 65536 → |w.camera_target_x| ≤ 65536 →
    camera_distance w * (91 / 100) ^ n < 49 / 100 →
    ∃ k, k ≤ n + 1 ∧ (camera_steps k w).camera_x = w.camera_target_x
      ∧ (camera_steps k w).camera_moving = false
  | 0, w, hm, _, _, hdist => by
    refine ⟨1, le_refl _, ?_⟩
    have hd : fabsf (f32 (w.camera_target_x - w.camera_x)) < 0.5 := by
      apply camera_near_of_small
      simp only [camera_distance, fabsf_eq_abs, pow_zero, mul_one] at hdist
      norm_num
      linarith
    simp only [camera_steps]
    rw [update_camera_near w hm hd]
    exact ⟨rfl, rfl⟩
  | n + 1, w, hm, hc, ht, hdist => by
    by_cases hd : fabsf (f32 (w.camera_target_x - w.camera_x)) < 0.5
    · refine ⟨1, by omega, ?_⟩
      simp only [camera_steps]
      rw [update_camera_near w hm hd]
      exact ⟨rfl, rfl⟩
    · obtain ⟨-, -, h3, -, -, h6, h7⟩ := camera_step_far w hm hc ht hd
      have hpow : (0 : ℚ) ≤ (91 / 100) ^ n := by positivity
      have h3' : camera_distance (update_camera w) ≤ 91 / 100 * camera_distance w := by
        norm_num at h3 ⊢
        exact h3
      have hd2 : camera_distance (update_camera w) * (91 / 100) ^ n < 49 / 100 := by
        rw [pow_succ] at hdist
        calc camera_distance (update_camera w) * (91 / 100) ^ n
            ≤ 91 / 100 * camera_distance w * (91 / 100) ^ n :=
              mul_le_mul_of_nonneg_right h3' hpow
          _ = camera_distance w * ((91 / 100) ^ n * (91 / 100)) := by ring
          _ < 49 / 100 := hdist
      obtain ⟨k, hk, hx, hf⟩ := camera_settles_within n (update_camera w) h6 h7
        (by rw [update_camera_target]; exact ht) hd2
      rw [update_camera_target] at hx
      exact ⟨k + 1, by omega, hx, hf⟩
theorem f32_eval_pos {q r : ℚ} (e n : Int) (he : -126 ≤ e) (h1 : (2 : ℚ) ^ e ≤ q)
    (h2 : q < (2 : ℚ) ^ (e + 1)) (h3 : (n : ℚ) - 1 / 2 < q / (2 : ℚ) ^ (e - 23))
    (h4 : q / (2 : ℚ) ^ (e - 23) < (n : ℚ) + 1 / 2) (hr : (n : ℚ) * (2 : ℚ) ^ (e - 23) = r) :
    f32 q = r := by
  have hq : (0 : ℚ) < q := lt_of_lt_of_le (zpow_pos (by norm_num) e) h1
  rw [← hr]
  exact f32_eval e n he (by rw [abs_of_pos hq]; exact h1) (by rw [abs_of_pos hq]; exact h2) h3 h4

/-- Evaluation of `f32` on a positive number of known binade whose quotient by the
unit in the last place is half way between two integers: the even one is taken. -/
theorem f32_eval_tie {q r : ℚ} (e n : Int) (he : -126 ≤ e) (h1 : (2 : ℚ) ^ e ≤ q)
    (h2 : q < (2 : ℚ) ^ (e + 1))
    (h3 : (n : ℚ) - 1 / 2 ≤ q / (2 : ℚ) ^ (e - 23))
    (h5 : q / (2 : ℚ) ^ (e - 23) ≤ (n : ℚ) + 1 / 2) (h4 : n % 2 = 0)
    (hr : (n : ℚ) * (2 : ℚ) ^ (e - 23) = r) : f32 q = r := by
  have hq : (0 : ℚ) < q := lt_of_lt_of_le (zpow_pos (by norm_num) e) h1
  rw [← hr]
  unfold f32
  rw [f32_exponent_eq he (by rw [abs_of_pos hq]; exact h1) (by rw [abs_of_pos hq]; exact h2),
    roundEven_unique _ n (by linarith) (by linarith) (fun _ => h4)]

/-- One step of the camera towards the target 1049000, from the values of the
three `float` operations. -/
theorem far_camera_step {c d p c2 : ℚ} (hd : f32 (1049000 - c) = d) (hfar : 1 / 2 ≤ d)
    (hp : f32 (d * (13421773 / 134217728)) = p) (hc : f32 (c + p) = c2) :
    update_camera (far_camera_world c) = far_camera_world c2 := by
  have hfar2 : ¬ fabsf (f32 ((far_camera_world c).camera_target_x
      - (far_camera_world c).camera_x)) < 0.5 := by
    show ¬ fabsf (f32 (1049000 - c)) < 0.5
    rw [hd, fabsf_eq_abs, abs_of_nonneg (by linarith)]
    norm_num
    exact hfar
  rw [update_camera_far _ rfl hfar2]
  show ({ far_camera_world c with camera_x := f32 (c + f32 (f32 (1049000 - c) * f32 0.1)) } : World)
    = far_camera_world c2
  rw [hd, show (0.1 : ℚ) = 1 / 10 by norm_num, f32_tenth, hp, hc]
  rfl

theorem camera_steps_step (n : Nat) (w w2 : World) (h : update_camera w = w2) :
    camera_steps (n + 1) w = camera_steps n w2 := by
  rw [← h]
  rfl

theorem far_camera_step_0 :
    update_camera (far_camera_world 1048500) = far_camera_world 1048550 :=
  far_camera_step (d := 500) (p := 50)
    (f32_eval_pos 8 16384000 (by norm_num) (by norm_num) (by norm_num)
      (by norm_num) (by norm_num) (by norm_num))
    (by norm_num)
    (f32_eval_pos 5 13107200 (by norm_num) (by norm_num) (by norm_num)
      (by norm_num) (by norm_num) (by norm_num))
    (f32_eval_pos 19 16776800 (by norm_num) (by norm_num) (by norm_num)
      (by norm_num) (by norm_num) (by norm_num))

theorem far_camera_step_1 :
    update_camera (far_camera_world 1048550) = far_camera_world 1048595 :=
  far_camera_step (d := 450) (p := 45)
    (f32_eval_pos 8 14745600 (by norm_num) (by norm_num) (by norm_num)
      (by norm_num) (by norm_num) (by norm_num))
    (by norm_num)
    (f32_eval_pos 5 11796480 (by norm_num) (by norm_num) (by norm_num)
      (by norm_num) (by norm_num) (by norm_num))
    (f32_eval_pos 20 8388760 (by norm_num) (by norm_num) (by norm_num)
      (by norm_num) (by norm_num) (by norm_num))

theorem far_camera_step_2 :
    update_camera (far_camera_world 1048595) = far_camera_world (2097271 / 2) :=
  far_camera_step (d := 405) (p := (81 / 2))
    (f32_eval_pos 8 13271040 (by norm_num) (by norm_num) (by norm_num)
      (by norm_num) (by norm_num) (by norm_num))
    (by norm_num)
    (f32_eval_pos 5 10616832 (by norm_num) (by norm_num) (by norm_num)
      (by norm_num) (by norm_num) (by norm_num))
    (f32_eval_pos 20 8389084 (by norm_num) (by norm_num) (by norm_num)
      (by norm_num) (by norm_num) (by norm_num))

theorem far_camera_step_3 :
    update_camera (far_camera_world (2097271 / 2)) = far_camera_world 1048672 :=
  far_camera_step (d := (729 / 2)) (p := (9555149 / 262144))
    (f32_eval_pos 8 11943936 (by norm_num) (by norm_num) (by norm_num)
      (by norm_num) (by norm_num) (by norm_num))
    (by norm_num)
    (f32_eval_pos 5 9555149 (by norm_num) (by norm_num) (by norm_num)
      (by norm_num) (by norm_num) (by norm_num))
    (f32_eval_pos 20 8389376 (by norm_num) (by norm_num) (by norm_num)
      (by norm_num) (by norm_num) (by norm_num))

theorem far_camera_step_4 :
    update_camera (far_camera_world 1048672) = far_camera_world (4194819 / 4) :=
  far_camera_step (d := 328) (p := (8598323 / 262144))
    (f32_eval_pos 8 10747904 (by norm_num) (by norm_num) (by norm_num)
      (by norm_num) (by norm_num) (by norm_num))
    (by norm_num)
    (f32_eval_pos 5 8598323 (by norm_num) (by norm_num) (by norm_num)
      (by norm_num) (by norm_num) (by norm_num))
    (f32_eval_pos 20 8389638 (by norm_num) (by norm_num) (by norm_num)
      (by norm_num) (by norm_num) (by norm_num))

theorem far_camera_step_5 :
    update_camera (far_camera_world (4194819 / 4)) = far_camera_world (4194937 / 4) :=
  far_camera_step (d := (1181 / 4)) (p := (15479603 / 524288))
    (f32_eval_pos 8 9674752 (by norm_num) (by norm_num) (by norm_num)
      (by norm_num) (by norm_num) (by norm_num))
    (by norm_num)
    (f32_eval_pos 4 15479603 (by norm_num) (by norm_num) (by norm_num)
      (by norm_num) (by norm_num) (by norm_num))
    (f32_eval_pos 20 8389874 (by norm_num) (by norm_num) (by norm_num)
      (by norm_num) (by norm_num) (by norm_num))

theorem far_camera_step_6 :
    update_camera (far_camera_world (4194937 / 4)) = far_camera_world (8390087 / 8) :=
  far_camera_step (d := (1063 / 4)) (p := (6966477 / 262144))
    (f32_eval_pos 8 8708096 (by norm_num) (by norm_num) (by norm_num)
      (by norm_num) (by norm_num) (by norm_num))
    (by norm_num)
    (f32_eval_pos 4 13932954 (by norm_num) (by norm_num) (by norm_num)
      (by norm_num) (by norm_num) (by norm_num))
    (f32_eval_pos 20 8390087 (by norm_num) (by norm_num) (by norm_num)
      (by norm_num) (by norm_num) (by norm_num))

theorem far_camera_step_7 :
    update_camera (far_camera_world (8390087 / 8)) = far_camera_world (4195139 / 4) :=
  far_camera_step (d := (1913 / 8)) (p := (12537037 / 524288))
    (f32_eval_pos 7 15671296 (by norm_num) (by norm_num) (by norm_num)
      (by norm_num) (by norm_num) (by norm_num))
    (by norm_num)
    (f32_eval_pos 4 12537037 (by norm_num) (by norm_num) (by norm_num)
      (by norm_num) (by norm_num) (by norm_num))
    (f32_eval_pos 20 8390278 (by norm_num) (by norm_num) (by norm_num)
      (by norm_num) (by norm_num) (by norm_num))

theorem far_camera_step_8 :
    update_camera (far_camera_world (4195139 / 4)) = far_camera_world (4195225 / 4) :=
  far_camera_step (d := (861 / 4)) (p := (11285299 / 524288))
    (f32_eval_pos 7 14106624 (by norm_num) (by norm_num) (by norm_num)
      (by norm_num) (by norm_num) (by norm_num))
    (by norm_num)
    (f32_eval_pos 4 11285299 (by norm_num) (by norm_num) (by norm_num)
      (by norm_num) (by norm_num) (by norm_num))
    (f32_eval_pos 20 8390450 (by norm_num) (by norm_num) (by norm_num)
      (by norm_num) (by norm_num) (by norm_num))

theorem far_camera_step_9 :
    update_camera (far_camera_world (4195225 / 4)) = far_camera_world (8390605 / 8) :=
  far_camera_step (d := (775 / 4)) (p := (155 / 8))
    (f32_eval_pos 7 12697600 (by norm_num) (by norm_num) (by norm_num)
      (by norm_num) (by norm_num) (by norm_num))
    (by norm_num)
    (f32_eval_pos 4 10158080 (by norm_num) (by norm_num) (by norm_num)
      (by norm_num) (by norm_num) (by norm_num))
    (f32_eval_pos 20 8390605 (by norm_num) (by norm_num) (by norm_num)
      (by norm_num) (by norm_num) (by norm_num))

theorem far_camera_step_10 :
    update_camera (far_camera_world (8390605 / 8)) = far_camera_world 1048843 :=
  far_camera_step (d := (1395 / 8)) (p := (279 / 16))
    (f32_eval_pos 7 11427840 (by norm_num) (by norm_num) (by norm_num)
      (by norm_num) (by norm_num) (by norm_num))
    (by norm_num)
    (f32_eval_pos 4 9142272 (by norm_num) (by norm_num) (by norm_num)
      (by norm_num) (by norm_num) (by norm_num))
    (f32_eval_tie 20 8390744 (by norm_num) (by norm_num) (by norm_num)
      (by norm_num) (by norm_num) (by decide) (by norm_num))

theorem far_camera_step_11 :
    update_camera (far_camera_world 1048843) = far_camera_world (4195435 / 4) :=
  far_camera_step (d := 157) (p := (16462643 / 1048576))
    (f32_eval_pos 7 10289152 (by norm_num) (by norm_num) (by norm_num)
      (by norm_num) (by norm_num) (by norm_num))
    (by norm_num)
    (f32_eval_pos 3 16462643 (by norm_num) (by norm_num) (by norm_num)
      (by norm_num) (by norm_num) (by norm_num))
    (f32_eval_pos 20 8390870 (by norm_num) (by norm_num) (by norm_num)
      (by norm_num) (by norm_num) (by norm_num))

theorem far_camera_step_12 :
    update_camera (far_camera_world (4195435 / 4)) = far_camera_world (8390983 / 8) :=
  far_camera_step (d := (565 / 4)) (p := (113 / 8))
    (f32_eval_pos 7 9256960 (by norm_num) (by norm_num) (by norm_num)
      (by norm_num) (by norm_num) (by norm_num))
    (by norm_num)
    (f32_eval_pos 3 14811136 (by norm_num) (by norm_num) (by norm_num)
      (by norm_num) (by norm_num) (by norm_num))
    (f32_eval_pos 20 8390983 (by norm_num) (by norm_num) (by norm_num)
      (by norm_num) (by norm_num) (by norm_num))

theorem far_camera_step_13 :
    update_camera (far_camera_world (8390983 / 8)) = far_camera_world (8391085 / 8) :=
  far_camera_step (d := (1017 / 8)) (p := (13330023 / 1048576))
    (f32_eval_pos 6 16662528 (by norm_num) (by norm_num) (by norm_num)
      (by norm_num) (by norm_num) (by norm_num))
    (by norm_num)
    (f32_eval_pos 3 13330023 (by norm_num) (by norm_num) (by norm_num)
      (by norm_num) (by norm_num) (by norm_num))
    (f32_eval_pos 20 8391085 (by norm_num) (by norm_num) (by norm_num)
      (by norm_num) (by norm_num) (by norm_num))

theorem far_camera_step_14 :
    update_camera (far_camera_world (8391085 / 8)) = far_camera_world 1048897 :=
  far_camera_step (d := (915 / 8)) (p := (183 / 16))
    (f32_eval_pos 6 14991360 (by norm_num) (by norm_num) (by norm_num)
      (by norm_num) (by norm_num) (by norm_num))
    (by norm_num)
    (f32_eval_pos 3 11993088 (by norm_num) (by norm_num) (by norm_num)
      (by norm_num) (by norm_num) (by norm_num))
    (f32_eval_tie 20 8391176 (by norm_num) (by norm_num) (by norm_num)
      (by norm_num) (by norm_num) (by decide) (by norm_num))

theorem far_camera_step_15 :
    update_camera (far_camera_world 1048897) = far_camera_world (4195629 / 4) :=
  far_camera_step (d := 103) (p := (10800333 / 1048576))
    (f32_eval_pos 6 13500416 (by norm_num) (by norm_num) (by norm_num)
      (by norm_num) (by norm_num) (by norm_num))
    (by norm_num)
    (f32_eval_pos 3 10800333 (by norm_num) (by norm_num) (by norm_num)
      (by norm_num) (by norm_num) (by norm_num))
    (f32_eval_pos 20 8391258 (by norm_num) (by norm_num) (by norm_num)
      (by norm_num) (by norm_num) (by norm_num))

theorem far_camera_step_16 :
    update_camera (far_camera_world (4195629 / 4)) = far_camera_world (2097833 / 2) :=
  far_camera_step (d := (371 / 4)) (p := (9725543 / 1048576))
    (f32_eval_pos 6 12156928 (by norm_num) (by norm_num) (by norm_num)
      (by norm_num) (by norm_num) (by norm_num))
    (by norm_num)
    (f32_eval_pos 3 9725543 (by norm_num) (by norm_num) (by norm_num)
      (by norm_num) (by norm_num) (by norm_num))
    (f32_eval_pos 20 8391332 (by norm_num) (by norm_num) (by norm_num)
      (by norm_num) (by norm_num) (by norm_num))

theorem far_camera_step_17 :
    update_camera (far_camera_world (2097833 / 2)) = far_camera_world (8391399 / 8) :=
  far_camera_step (d := (167 / 2)) (p := (4377805 / 524288))
    (f32_eval_pos 6 10944512 (by norm_num) (by norm_num) (by norm_num)
      (by norm_num) (by norm_num) (by norm_num))
    (by norm_num)
    (f32_eval_pos 3 8755610 (by norm_num) (by norm_num) (by norm_num)
      (by norm_num) (by norm_num) (by norm_num))
    (f32_eval_pos 20 8391399 (by norm_num) (by norm_num) (by norm_num)
      (by norm_num) (by norm_num) (by norm_num))

theorem far_camera_step_18 :
    update_camera (far_camera_world (8391399 / 8)) = far_camera_world (8391459 / 8) :=
  far_camera_step (d := (601 / 8)) (p := (15754855 / 2097152))
    (f32_eval_pos 6 9846784 (by norm_num) (by norm_num) (by norm_num)
      (by norm_num) (by norm_num) (by norm_num))
    (by norm_num)
    (f32_eval_pos 2 15754855 (by norm_num) (by norm_num) (by norm_num)
      (by norm_num) (by norm_num) (by norm_num))
    (f32_eval_pos 20 8391459 (by norm_num) (by norm_num) (by norm_num)
      (by norm_num) (by norm_num) (by norm_num))

theorem far_camera_step_19 :
    update_camera (far_camera_world (8391459 / 8)) = far_camera_world (8391513 / 8) :=
  far_camera_step (d := (541 / 8)) (p := (14181991 / 2097152))
    (f32_eval_pos 6 8863744 (by norm_num) (by norm_num) (by norm_num)
      (by norm_num) (by norm_num) (by norm_num))
    (by norm_num)
    (f32_eval_pos 2 14181991 (by norm_num) (by norm_num) (by norm_num)
      (by norm_num) (by norm_num) (by norm_num))
    (f32_eval_pos 20 8391513 (by norm_num) (by norm_num) (by norm_num)
      (by norm_num) (by norm_num) (by norm_num))

theorem far_camera_step_20 :
    update_camera (far_camera_world (8391513 / 8)) = far_camera_world (4195781 / 4) :=
  far_camera_step (d := (487 / 8)) (p := (12766413 / 2097152))
    (f32_eval_pos 5 15958016 (by norm_num) (by norm_num) (by norm_num)
      (by norm_num) (by norm_num) (by norm_num))
    (by norm_num)
    (f32_eval_pos 2 12766413 (by norm_num) (by norm_num) (by norm_num)
      (by norm_num) (by norm_num) (by norm_num))
    (f32_eval_pos 20 8391562 (by norm_num) (by norm_num) (by norm_num)
      (by norm_num) (by norm_num) (by norm_num))

theorem far_camera_step_21 :
    update_camera (far_camera_world (4195781 / 4)) = far_camera_world (4195803 / 4) :=
  far_camera_step (d := (219 / 4)) (p := (11481907 / 2097152))
    (f32_eval_pos 5 14352384 (by norm_num) (by norm_num) (by norm_num)
      (by norm_num) (by norm_num) (by norm_num))
    (by norm_num)
    (f32_eval_pos 2 11481907 (by norm_num) (by norm_num) (by norm_num)
      (by norm_num) (by norm_num) (by norm_num))
    (f32_eval_pos 20 8391606 (by norm_num) (by norm_num) (by norm_num)
      (by norm_num) (by norm_num) (by norm_num))

theorem far_camera_step_22 :
    update_camera (far_camera_world (4195803 / 4)) = far_camera_world (8391645 / 8) :=
  far_camera_step (d := (197 / 4)) (p := (5164237 / 1048576))
    (f32_eval_pos 5 12910592 (by norm_num) (by norm_num) (by norm_num)
      (by norm_num) (by norm_num) (by norm_num))
    (by norm_num)
    (f32_eval_pos 2 10328474 (by norm_num) (by norm_num) (by norm_num)
      (by norm_num) (by norm_num) (by norm_num))
    (f32_eval_pos 20 8391645 (by norm_num) (by norm_num) (by norm_num)
      (by norm_num) (by norm_num) (by norm_num))

theorem far_camera_step_23 :
    update_camera (far_camera_world (8391645 / 8)) = far_camera_world 1048960 :=
  far_camera_step (d := (355 / 8)) (p := (71 / 16))
    (f32_eval_pos 5 11632640 (by norm_num) (by norm_num) (by norm_num)
      (by norm_num) (by norm_num) (by norm_num))
    (by norm_num)
    (f32_eval_pos 2 9306112 (by norm_num) (by norm_num) (by norm_num)
      (by norm_num) (by norm_num) (by norm_num))
    (f32_eval_tie 20 8391680 (by norm_num) (by norm_num) (by norm_num)
      (by norm_num) (by norm_num) (by decide) (by norm_num))

theorem far_camera_step_24 :
    update_camera (far_camera_world 1048960) = far_camera_world 1048964 :=
  far_camera_step (d := 40) (p := 4)
    (f32_eval_pos 5 10485760 (by norm_num) (by norm_num) (by norm_num)
      (by norm_num) (by norm_num) (by norm_num))
    (by norm_num)
    (f32_eval_pos 2 8388608 (by norm_num) (by norm_num) (by norm_num)
      (by norm_num) (by norm_num) (by norm_num))
    (f32_eval_pos 20 8391712 (by norm_num) (by norm_num) (by norm_num)
      (by norm_num) (by norm_num) (by norm_num))

theorem far_camera_step_25 :
    update_camera (far_camera_world 1048964) = far_camera_world (8391741 / 8) :=
  far_camera_step (d := 36) (p := (15099495 / 4194304))
    (f32_eval_pos 5 9437184 (by norm_num) (by norm_num) (by norm_num)
      (by norm_num) (by norm_num) (by norm_num))
    (by norm_num)
    (f32_eval_pos 1 15099495 (by norm_num) (by norm_num) (by norm_num)
      (by norm_num) (by norm_num) (by norm_num))
    (f32_eval_pos 20 8391741 (by norm_num) (by norm_num) (by norm_num)
      (by norm_num) (by norm_num) (by norm_num))

theorem far_camera_step_26 :
    update_camera (far_camera_world (8391741 / 8)) = far_camera_world (8391767 / 8) :=
  far_camera_step (d := (259 / 8)) (p := (13579059 / 4194304))
    (f32_eval_pos 5 8486912 (by norm_num) (by norm_num) (by norm_num)
      (by norm_num) (by norm_num) (by norm_num))
    (by norm_num)
    (f32_eval_pos 1 13579059 (by norm_num) (by norm_num) (by norm_num)
      (by norm_num) (by norm_num) (by norm_num))
    (f32_eval_pos 20 8391767 (by norm_num) (by norm_num) (by norm_num)
      (by norm_num) (by norm_num) (by norm_num))

theorem far_camera_step_27 :
    update_camera (far_camera_world (8391767 / 8)) = far_camera_world (4195895 / 4) :=
  far_camera_step (d := (233 / 8)) (p := (12215911 / 4194304))
    (f32_eval_pos 4 15269888 (by norm_num) (by norm_num) (by norm_num)
      (by norm_num) (by norm_num) (by norm_num))
    (by norm_num)
    (f32_eval_pos 1 12215911 (by norm_num) (by norm_num) (by norm_num)
      (by norm_num) (by norm_num) (by norm_num))
    (f32_eval_pos 20 8391790 (by norm_num) (by norm_num) (by norm_num)
      (by norm_num) (by norm_num) (by norm_num))

theorem far_camera_step_28 :
    update_camera (far_camera_world (4195895 / 4)) = far_camera_world (8391811 / 8) :=
  far_camera_step (d := (105 / 4)) (p := (21 / 8))
    (f32_eval_pos 4 13762560 (by norm_num) (by norm_num) (by norm_num)
      (by norm_num) (by norm_num) (by norm_num))
    (by norm_num)
    (f32_eval_pos 1 11010048 (by norm_num) (by norm_num) (by norm_num)
      (by norm_num) (by norm_num) (by norm_num))
    (f32_eval_pos 20 8391811 (by norm_num) (by norm_num) (by norm_num)
      (by norm_num) (by norm_num) (by norm_num))

theorem far_camera_step_29 :
    update_camera (far_camera_world (8391811 / 8)) = far_camera_world (4195915 / 4) :=
  far_camera_step (d := (189 / 8)) (p := (9909043 / 4194304))
    (f32_eval_pos 4 12386304 (by norm_num) (by norm_num) (by norm_num)
      (by norm_num) (by norm_num) (by norm_num))
    (by norm_num)
    (f32_eval_pos 1 9909043 (by norm_num) (by norm_num) (by norm_num)
      (by norm_num) (by norm_num) (by norm_num))
    (f32_eval_pos 20 8391830 (by norm_num) (by norm_num) (by norm_num)
      (by norm_num) (by norm_num) (by norm_num))

theorem far_camera_step_30 :
    update_camera (far_camera_world (4195915 / 4)) = far_camera_world (8391847 / 8) :=
  far_camera_step (d := (85 / 4)) (p := (17 / 8))
    (f32_eval_pos 4 11141120 (by norm_num) (by norm_num) (by norm_num)
      (by norm_num) (by norm_num) (by norm_num))
    (by norm_num)
    (f32_eval_pos 1 8912896 (by norm_num) (by norm_num) (by norm_num)
      (by norm_num) (by norm_num) (by norm_num))
    (f32_eval_pos 20 8391847 (by norm_num) (by norm_num) (by norm_num)
      (by norm_num) (by norm_num) (by norm_num))

theorem far_camera_step_31 :
    update_camera (far_camera_world (8391847 / 8)) = far_camera_world (4195931 / 4) :=
  far_camera_step (d := (153 / 8)) (p := (16043213 / 8388608))
    (f32_eval_pos 4 10027008 (by norm_num) (by norm_num) (by norm_num)
      (by norm_num) (by norm_num) (by norm_num))
    (by norm_num)
    (f32_eval_pos 0 16043213 (by norm_num) (by norm_num) (by norm_num)
      (by norm_num) (by norm_num) (by norm_num))
    (f32_eval_pos 20 8391862 (by norm_num) (by norm_num) (by norm_num)
      (by norm_num) (by norm_num) (by norm_num))

theorem far_camera_step_32 :
    update_camera (far_camera_world (4195931 / 4)) = far_camera_world (2097969 / 2) :=
  far_camera_step (d := (69 / 4)) (p := (14470349 / 8388608))
    (f32_eval_pos 4 9043968 (by norm_num) (by norm_num) (by norm_num)
      (by norm_num) (by norm_num) (by norm_num))
    (by norm_num)
    (f32_eval_pos 0 14470349 (by norm_num) (by norm_num) (by norm_num)
      (by norm_num) (by norm_num) (by norm_num))
    (f32_eval_pos 20 8391876 (by norm_num) (by norm_num) (by norm_num)
      (by norm_num) (by norm_num) (by norm_num))

theorem far_camera_step_33 :
    update_camera (far_camera_world (2097969 / 2)) = far_camera_world 1048986 :=
  far_camera_step (d := (31 / 2)) (p := (13002343 / 8388608))
    (f32_eval_pos 3 16252928 (by norm_num) (by norm_num) (by norm_num)
      (by norm_num) (by norm_num) (by norm_num))
    (by norm_num)
    (f32_eval_pos 0 13002343 (by norm_num) (by norm_num) (by norm_num)
      (by norm_num) (by norm_num) (by norm_num))
    (f32_eval_pos 20 8391888 (by norm_num) (by norm_num) (by norm_num)
      (by norm_num) (by norm_num) (by norm_num))

theorem far_camera_step_34 :
    update_camera (far_camera_world 1048986) = far_camera_world (8391899 / 8) :=
  far_camera_step (d := 14) (p := (11744051 / 8388608))
    (f32_eval_pos 3 14680064 (by norm_num) (by norm_num) (by norm_num)
      (by norm_num) (by norm_num) (by norm_num))
    (by norm_num)
    (f32_eval_pos 0 11744051 (by norm_num) (by norm_num) (by norm_num)
      (by norm_num) (by norm_num) (by norm_num))
    (f32_eval_pos 20 8391899 (by norm_num) (by norm_num) (by norm_num)
      (by norm_num) (by norm_num) (by norm_num))

theorem far_camera_step_35 :
    update_camera (far_camera_world (8391899 / 8)) = far_camera_world (8391909 / 8) :=
  far_camera_step (d := (101 / 8)) (p := (5295309 / 4194304))
    (f32_eval_pos 3 13238272 (by norm_num) (by norm_num) (by norm_num)
      (by norm_num) (by norm_num) (by norm_num))
    (by norm_num)
    (f32_eval_pos 0 10590618 (by norm_num) (by norm_num) (by norm_num)
      (by norm_num) (by norm_num) (by norm_num))
    (f32_eval_pos 20 8391909 (by norm_num) (by norm_num) (by norm_num)
      (by norm_num) (by norm_num) (by norm_num))

theorem far_camera_step_36 :
    update_camera (far_camera_world (8391909 / 8)) = far_camera_world (4195959 / 4) :=
  far_camera_step (d := (91 / 8)) (p := (4771021 / 4194304))
    (f32_eval_pos 3 11927552 (by norm_num) (by norm_num) (by norm_num)
      (by norm_num) (by norm_num) (by norm_num))
    (by norm_num)
    (f32_eval_pos 0 9542042 (by norm_num) (by norm_num) (by norm_num)
      (by norm_num) (by norm_num) (by norm_num))
    (f32_eval_pos 20 8391918 (by norm_num) (by norm_num) (by norm_num)
      (by norm_num) (by norm_num) (by norm_num))

theorem far_camera_step_37 :
    update_camera (far_camera_world (4195959 / 4)) = far_camera_world (4195963 / 4) :=
  far_camera_step (d := (41 / 4)) (p := (8598323 / 8388608))
    (f32_eval_pos 3 10747904 (by norm_num) (by norm_num) (by norm_num)
      (by norm_num) (by norm_num) (by norm_num))
    (by norm_num)
    (f32_eval_pos 0 8598323 (by norm_num) (by norm_num) (by norm_num)
      (by norm_num) (by norm_num) (by norm_num))
    (f32_eval_pos 20 8391926 (by norm_num) (by norm_num) (by norm_num)
      (by norm_num) (by norm_num) (by norm_num))

theorem far_camera_step_38 :
    update_camera (far_camera_world (4195963 / 4)) = far_camera_world (8391933 / 8) :=
  far_camera_step (d := (37 / 4)) (p := (15518925 / 16777216))
    (f32_eval_pos 3 9699328 (by norm_num) (by norm_num) (by norm_num)
      (by norm_num) (by norm_num) (by norm_num))
    (by norm_num)
    (f32_eval_pos (-1) 15518925 (by norm_num) (by norm_num) (by norm_num)
      (by norm_num) (by norm_num) (by norm_num))
    (f32_eval_pos 20 8391933 (by norm_num) (by norm_num) (by norm_num)
      (by norm_num) (by norm_num) (by norm_num))

theorem far_camera_step_39 :
    update_camera (far_camera_world (8391933 / 8)) = far_camera_world (2097985 / 2) :=
  far_camera_step (d := (67 / 8)) (p := (14050919 / 16777216))
    (f32_eval_pos 3 8781824 (by norm_num) (by norm_num) (by norm_num)
      (by norm_num) (by norm_num) (by norm_num))
    (by norm_num)
    (f32_eval_pos (-1) 14050919 (by norm_num) (by norm_num) (by norm_num)
      (by norm_num) (by norm_num) (by norm_num))
    (f32_eval_pos 20 8391940 (by norm_num) (by norm_num) (by norm_num)
      (by norm_num) (by norm_num) (by norm_num))

theorem far_camera_step_40 :
    update_camera (far_camera_world (2097985 / 2)) = far_camera_world (4195973 / 4) :=
  far_camera_step (d := (15 / 2)) (p := (3 / 4))
    (f32_eval_pos 2 15728640 (by norm_num) (by norm_num) (by norm_num)
      (by norm_num) (by norm_num) (by norm_num))
    (by norm_num)
    (f32_eval_pos (-1) 12582912 (by norm_num) (by norm_num) (by norm_num)
      (by norm_num) (by norm_num) (by norm_num))
    (f32_eval_pos 20 8391946 (by norm_num) (by norm_num) (by norm_num)
      (by norm_num) (by norm_num) (by norm_num))

theorem far_camera_step_41 :
    update_camera (far_camera_world (4195973 / 4)) = far_camera_world (8391951 / 8) :=
  far_camera_step (d := (27 / 4)) (p := (11324621 / 16777216))
    (f32_eval_pos 2 14155776 (by norm_num) (by norm_num) (by norm_num)
      (by norm_num) (by norm_num) (by norm_num))
    (by norm_num)
    (f32_eval_pos (-1) 11324621 (by norm_num) (by norm_num) (by norm_num)
      (by norm_num) (by norm_num) (by norm_num))
    (f32_eval_pos 20 8391951 (by norm_num) (by norm_num) (by norm_num)
      (by norm_num) (by norm_num) (by norm_num))

theorem far_camera_step_42 :
    update_camera (far_camera_world (8391951 / 8)) = far_camera_world (2097989 / 2) :=
  far_camera_step (d := (49 / 8)) (p := (10276045 / 16777216))
    (f32_eval_pos 2 12845056 (by norm_num) (by norm_num) (by norm_num)
      (by norm_num) (by norm_num) (by norm_num))
    (by norm_num)
    (f32_eval_pos (-1) 10276045 (by norm_num) (by norm_num) (by norm_num)
      (by norm_num) (by norm_num) (by norm_num))
    (f32_eval_pos 20 8391956 (by norm_num) (by norm_num) (by norm_num)
      (by norm_num) (by norm_num) (by norm_num))

theorem far_camera_step_43 :
    update_camera (far_camera_world (2097989 / 2)) = far_camera_world 1048995 :=
  far_camera_step (d := (11 / 2)) (p := (9227469 / 16777216))
    (f32_eval_pos 2 11534336 (by norm_num) (by norm_num) (by norm_num)
      (by norm_num) (by norm_num) (by norm_num))
    (by norm_num)
    (f32_eval_pos (-1) 9227469 (by norm_num) (by norm_num) (by norm_num)
      (by norm_num) (by norm_num) (by norm_num))
    (f32_eval_pos 20 8391960 (by norm_num) (by norm_num) (by norm_num)
      (by norm_num) (by norm_num) (by norm_num))

theorem far_camera_step_44 :
    update_camera (far_camera_world 1048995) = far_camera_world (2097991 / 2) :=
  far_camera_step (d := 5) (p := (1 / 2))
    (f32_eval_pos 2 10485760 (by norm_num) (by norm_num) (by norm_num)
      (by norm_num) (by norm_num) (by norm_num))
    (by norm_num)
    (f32_eval_pos (-1) 8388608 (by norm_num) (by norm_num) (by norm_num)
      (by norm_num) (by norm_num) (by norm_num))
    (f32_eval_pos 20 8391964 (by norm_num) (by norm_num) (by norm_num)
      (by norm_num) (by norm_num) (by norm_num))

theorem far_camera_step_45 :
    update_camera (far_camera_world (2097991 / 2)) = far_camera_world 1048996 :=
  far_camera_step (d := (9 / 2)) (p := (15099495 / 33554432))
    (f32_eval_pos 2 9437184 (by norm_num) (by norm_num) (by norm_num)
      (by norm_num) (by norm_num) (by norm_num))
    (by norm_num)
    (f32_eval_pos (-2) 15099495 (by norm_num) (by norm_num) (by norm_num)
      (by norm_num) (by norm_num) (by norm_num))
    (f32_eval_pos 20 8391968 (by norm_num) (by norm_num) (by norm_num)
      (by norm_num) (by norm_num) (by norm_num))

theorem far_camera_step_46 :
    update_camera (far_camera_world 1048996) = far_camera_world (8391971 / 8) :=
  far_camera_step (d := 4) (p := (13421773 / 33554432))
    (f32_eval_pos 2 8388608 (by norm_num) (by norm_num) (by norm_num)
      (by norm_num) (by norm_num) (by norm_num))
    (by norm_num)
    (f32_eval_pos (-2) 13421773 (by norm_num) (by norm_num) (by norm_num)
      (by norm_num) (by norm_num) (by norm_num))
    (f32_eval_pos 20 8391971 (by norm_num) (by norm_num) (by norm_num)
      (by norm_num) (by norm_num) (by norm_num))

theorem far_camera_step_47 :
    update_camera (far_camera_world (8391971 / 8)) = far_camera_world (4195987 / 4) :=
  far_camera_step (d := (29 / 8)) (p := (6081741 / 16777216))
    (f32_eval_pos 1 15204352 (by norm_num) (by norm_num) (by norm_num)
      (by norm_num) (by norm_num) (by norm_num))
    (by norm_num)
    (f32_eval_pos (-2) 12163482 (by norm_num) (by norm_num) (by norm_num)
      (by norm_num) (by norm_num) (by norm_num))
    (f32_eval_pos 20 8391974 (by norm_num) (by norm_num) (by norm_num)
      (by norm_num) (by norm_num) (by norm_num))

theorem far_camera_step_48 :
    update_camera (far_camera_world (4195987 / 4)) = far_camera_world (8391977 / 8) :=
  far_camera_step (d := (13 / 4)) (p := (10905191 / 33554432))
    (f32_eval_pos 1 13631488 (by norm_num) (by norm_num) (by norm_num)
      (by norm_num) (by norm_num) (by norm_num))
    (by norm_num)
    (f32_eval_pos (-2) 10905191 (by norm_num) (by norm_num) (by norm_num)
      (by norm_num) (by norm_num) (by norm_num))
    (f32_eval_pos 20 8391977 (by norm_num) (by norm_num) (by norm_num)
      (by norm_num) (by norm_num) (by norm_num))

theorem far_camera_step_49 :
    update_camera (far_camera_world (8391977 / 8)) = far_camera_world (8391979 / 8) :=
  far_camera_step (d := (23 / 8)) (p := (9646899 / 33554432))
    (f32_eval_pos 1 12058624 (by norm_num) (by norm_num) (by norm_num)
      (by norm_num) (by norm_num) (by norm_num))
    (by norm_num)
    (f32_eval_pos (-2) 9646899 (by norm_num) (by norm_num) (by norm_num)
      (by norm_num) (by norm_num) (by norm_num))
    (f32_eval_pos 20 8391979 (by norm_num) (by norm_num) (by norm_num)
      (by norm_num) (by norm_num) (by norm_num))

theorem far_camera_step_50 :
    update_camera (far_camera_world (8391979 / 8)) = far_camera_world (8391981 / 8) :=
  far_camera_step (d := (21 / 8)) (p := (8808039 / 33554432))
    (f32_eval_pos 1 11010048 (by norm_num) (by norm_num) (by norm_num)
      (by norm_num) (by norm_num) (by norm_num))
    (by norm_num)
    (f32_eval_pos (-2) 8808039 (by norm_num) (by norm_num) (by norm_num)
      (by norm_num) (by norm_num) (by norm_num))
    (f32_eval_pos 20 8391981 (by norm_num) (by norm_num) (by norm_num)
      (by norm_num) (by norm_num) (by norm_num))

theorem far_camera_step_51 :
    update_camera (far_camera_world (8391981 / 8)) = far_camera_world (8391983 / 8) :=
  far_camera_step (d := (19 / 8)) (p := (15938355 / 67108864))
    (f32_eval_pos 1 9961472 (by norm_num) (by norm_num) (by norm_num)
      (by norm_num) (by norm_num) (by norm_num))
    (by norm_num)
    (f32_eval_pos (-3) 15938355 (by norm_num) (by norm_num) (by norm_num)
      (by norm_num) (by norm_num) (by norm_num))
    (f32_eval_pos 20 8391983 (by norm_num) (by norm_num) (by norm_num)
      (by norm_num) (by norm_num) (by norm_num))

theorem far_camera_step_52 :
    update_camera (far_camera_world (8391983 / 8)) = far_camera_world (8391985 / 8) :=
  far_camera_step (d := (17 / 8)) (p := (7130317 / 33554432))
    (f32_eval_pos 1 8912896 (by norm_num) (by norm_num) (by norm_num)
      (by norm_num) (by norm_num) (by norm_num))
    (by norm_num)
    (f32_eval_pos (-3) 14260634 (by norm_num) (by norm_num) (by norm_num)
      (by norm_num) (by norm_num) (by norm_num))
    (f32_eval_pos 20 8391985 (by norm_num) (by norm_num) (by norm_num)
      (by norm_num) (by norm_num) (by norm_num))

theorem far_camera_step_53 :
    update_camera (far_camera_world (8391985 / 8)) = far_camera_world (4195993 / 4) :=
  far_camera_step (d := (15 / 8)) (p := (3 / 16))
    (f32_eval_pos 0 15728640 (by norm_num) (by norm_num) (by norm_num)
      (by norm_num) (by norm_num) (by norm_num))
    (by norm_num)
    (f32_eval_pos (-3) 12582912 (by norm_num) (by norm_num) (by norm_num)
      (by norm_num) (by norm_num) (by norm_num))
    (f32_eval_tie 20 8391986 (by norm_num) (by norm_num) (by norm_num)
      (by norm_num) (by norm_num) (by decide) (by norm_num))

theorem far_camera_step_54 :
    update_camera (far_camera_world (4195993 / 4)) = far_camera_world (8391987 / 8) :=
  far_camera_step (d := (7 / 4)) (p := (11744051 / 67108864))
    (f32_eval_pos 0 14680064 (by norm_num) (by norm_num) (by norm_num)
      (by norm_num) (by norm_num) (by norm_num))
    (by norm_num)
    (f32_eval_pos (-3) 11744051 (by norm_num) (by norm_num) (by norm_num)
      (by norm_num) (by norm_num) (by norm_num))
    (f32_eval_pos 20 8391987 (by norm_num) (by norm_num) (by norm_num)
      (by norm_num) (by norm_num) (by norm_num))

theorem far_camera_step_55 :
    update_camera (far_camera_world (8391987 / 8)) = far_camera_world (2097997 / 2) :=
  far_camera_step (d := (13 / 8)) (p := (10905191 / 67108864))
    (f32_eval_pos 0 13631488 (by norm_num) (by norm_num) (by norm_num)
      (by norm_num) (by norm_num) (by norm_num))
    (by norm_num)
    (f32_eval_pos (-3) 10905191 (by norm_num) (by norm_num) (by norm_num)
      (by norm_num) (by norm_num) (by norm_num))
    (f32_eval_pos 20 8391988 (by norm_num) (by norm_num) (by norm_num)
      (by norm_num) (by norm_num) (by norm_num))

theorem far_camera_step_56 :
    update_camera (far_camera_world (2097997 / 2)) = far_camera_world (8391989 / 8) :=
  far_camera_step (d := (3 / 2)) (p := (5033165 / 33554432))
    (f32_eval_pos 0 12582912 (by norm_num) (by norm_num) (by norm_num)
      (by norm_num) (by norm_num) (by norm_num))
    (by norm_num)
    (f32_eval_pos (-3) 10066330 (by norm_num) (by norm_num) (by norm_num)
      (by norm_num) (by norm_num) (by norm_num))
    (f32_eval_pos 20 8391989 (by norm_num) (by norm_num) (by norm_num)
      (by norm_num) (by norm_num) (by norm_num))

theorem far_camera_step_57 :
    update_camera (far_camera_world (8391989 / 8)) = far_camera_world (4195995 / 4) :=
  far_camera_step (d := (11 / 8)) (p := (9227469 / 67108864))
    (f32_eval_pos 0 11534336 (by norm_num) (by norm_num) (by norm_num)
      (by norm_num) (by norm_num) (by norm_num))
    (by norm_num)
    (f32_eval_pos (-3) 9227469 (by norm_num) (by norm_num) (by norm_num)
      (by norm_num) (by norm_num) (by norm_num))
    (f32_eval_pos 20 8391990 (by norm_num) (by norm_num) (by norm_num)
      (by norm_num) (by norm_num) (by norm_num))

theorem far_camera_step_58 :
    update_camera (far_camera_world (4195995 / 4)) = far_camera_world (8391991 / 8) :=
  far_camera_step (d := (5 / 4)) (p := (1 / 8))
    (f32_eval_pos 0 10485760 (by norm_num) (by norm_num) (by norm_num)
      (by norm_num) (by norm_num) (by norm_num))
    (by norm_num)
    (f32_eval_pos (-3) 8388608 (by norm_num) (by norm_num) (by norm_num)
      (by norm_num) (by norm_num) (by norm_num))
    (f32_eval_pos 20 8391991 (by norm_num) (by norm_num) (by norm_num)
      (by norm_num) (by norm_num) (by norm_num))

theorem far_camera_step_59 :
    update_camera (far_camera_world (8391991 / 8)) = far_camera_world 1048999 :=
  far_camera_step (d := (9 / 8)) (p := (15099495 / 134217728))
    (f32_eval_pos 0 9437184 (by norm_num) (by norm_num) (by norm_num)
      (by norm_num) (by norm_num) (by norm_num))
    (by norm_num)
    (f32_eval_pos (-4) 15099495 (by norm_num) (by norm_num) (by norm_num)
      (by norm_num) (by norm_num) (by norm_num))
    (f32_eval_pos 20 8391992 (by norm_num) (by norm_num) (by norm_num)
      (by norm_num) (by norm_num) (by norm_num))

theorem far_camera_step_60 :
    update_camera (far_camera_world 1048999) = far_camera_world (8391993 / 8) :=
  far_camera_step (d := 1) (p := (13421773 / 134217728))
    (f32_eval_pos 0 8388608 (by norm_num) (by norm_num) (by norm_num)
      (by norm_num) (by norm_num) (by norm_num))
    (by norm_num)
    (f32_eval_pos (-4) 13421773 (by norm_num) (by norm_num) (by norm_num)
      (by norm_num) (by norm_num) (by norm_num))
    (f32_eval_pos 20 8391993 (by norm_num) (by norm_num) (by norm_num)
      (by norm_num) (by norm_num) (by norm_num))

theorem far_camera_step_61 :
    update_camera (far_camera_world (8391993 / 8)) = far_camera_world (4195997 / 4) :=
  far_camera_step (d := (7 / 8)) (p := (11744051 / 134217728))
    (f32_eval_pos (-1) 14680064 (by norm_num) (by norm_num) (by norm_num)
      (by norm_num) (by norm_num) (by norm_num))
    (by norm_num)
    (f32_eval_pos (-4) 11744051 (by norm_num) (by norm_num) (by norm_num)
      (by norm_num) (by norm_num) (by norm_num))
    (f32_eval_pos 20 8391994 (by norm_num) (by norm_num) (by norm_num)
      (by norm_num) (by norm_num) (by norm_num))

theorem far_camera_step_62 :
    update_camera (far_camera_world (4195997 / 4)) = far_camera_world (8391995 / 8) :=
  far_camera_step (d := (3 / 4)) (p := (5033165 / 67108864))
    (f32_eval_pos (-1) 12582912 (by norm_num) (by norm_num) (by norm_num)
      (by norm_num) (by norm_num) (by norm_num))
    (by norm_num)
    (f32_eval_pos (-4) 10066330 (by norm_num) (by norm_num) (by norm_num)
      (by norm_num) (by norm_num) (by norm_num))
    (f32_eval_pos 20 8391995 (by norm_num) (by norm_num) (by norm_num)
      (by norm_num) (by norm_num) (by norm_num))

theorem far_camera_step_63 :
    update_camera (far_camera_world (8391995 / 8)) = far_camera_world (2097999 / 2) :=
  far_camera_step (d := (5 / 8)) (p := (1 / 16))
    (f32_eval_pos (-1) 10485760 (by norm_num) (by norm_num) (by norm_num)
      (by norm_num) (by norm_num) (by norm_num))
    (by norm_num)
    (f32_eval_pos (-4) 8388608 (by norm_num) (by norm_num) (by norm_num)
      (by norm_num) (by norm_num) (by norm_num))
    (f32_eval_tie 20 8391996 (by norm_num) (by norm_num) (by norm_num)
      (by norm_num) (by norm_num) (by decide) (by norm_num))

/-- The run of 64 calls from `camera_x = 1048500` towards the target 1049000. -/
theorem far_camera_run :
    camera_steps 64 (far_camera_world 1048500) = far_camera_world (2097999 / 2) :=
  ((camera_steps_step 63 _ _ far_camera_step_0).trans
    ((camera_steps_step 62 _ _ far_camera_step_1).trans
    ((camera_steps_step 61 _ _ far_camera_step_2).trans
    ((camera_steps_step 60 _ _ far_camera_step_3).trans
    ((camera_steps_step 59 _ _ far_camera_step_4).trans
    ((camera_steps_step 58 _ _ far_camera_step_5).trans
    ((camera_steps_step 57 _ _ far_camera_step_6).trans
    ((camera_steps_step 56 _ _ far_camera_step_7).trans
    ((camera_steps_step 55 _ _ far_camera_step_8).trans
    ((camera_steps_step 54 _ _ far_camera_step_9).trans
    ((camera_steps_step 53 _ _ far_camera_step_10).trans
    ((camera_steps_step 52 _ _ far_camera_step_11).trans
    ((camera_steps_step 51 _ _ far_camera_step_12).trans
    ((camera_steps_step 50 _ _ far_camera_step_13).trans
    ((camera_steps_step 49 _ _ far_camera_step_14).trans
    ((camera_steps_step 48 _ _ far_camera_step_15).trans
    ((camera_steps_step 47 _ _ far_camera_step_16).trans
    ((camera_steps_step 46 _ _ far_camera_step_17).trans
    ((camera_steps_step 45 _ _ far_camera_step_18).trans
    ((camera_steps_step 44 _ _ far_camera_step_19).trans
    ((camera_steps_step 43 _ _ far_camera_step_20).trans
    ((camera_steps_step 42 _ _ far_camera_step_21).trans
    ((camera_steps_step 41 _ _ far_camera_step_22).trans
    ((camera_steps_step 40 _ _ far_camera_step_23).trans
    ((camera_steps_step 39 _ _ far_camera_step_24).trans
    ((camera_steps_step 38 _ _ far_camera_step_25).trans
    ((camera_steps_step 37 _ _ far_camera_step_26).trans
    ((camera_steps_step 36 _ _ far_camera_step_27).trans
    ((camera_steps_step 35 _ _ far_camera_step_28).trans
    ((camera_steps_step 34 _ _ far_camera_step_29).trans
    ((camera_steps_step 33 _ _ far_camera_step_30).trans
    ((camera_steps_step 32 _ _ far_camera_step_31).trans
    ((camera_steps_step 31 _ _ far_camera_step_32).trans
    ((camera_steps_step 30 _ _ far_camera_step_33).trans
    ((camera_steps_step 29 _ _ far_camera_step_34).trans
    ((camera_steps_step 28 _ _ far_camera_step_35).trans
    ((camera_steps_step 27 _ _ far_camera_step_36).trans
    ((camera_steps_step 26 _ _ far_camera_step_37).trans
    ((camera_steps_step 25 _ _ far_camera_step_38).trans
    ((camera_steps_step 24 _ _ far_camera_step_39).trans
    ((camera_steps_step 23 _ _ far_camera_step_40).trans
    ((camera_steps_step 22 _ _ far_camera_step_41).trans
    ((camera_steps_step 21 _ _ far_camera_step_42).trans
    ((camera_steps_step 20 _ _ far_camera_step_43).trans
    ((camera_steps_step 19 _ _ far_camera_step_44).trans
    ((camera_steps_step 18 _ _ far_camera_step_45).trans
    ((camera_steps_step 17 _ _ far_camera_step_46).trans
    ((camera_steps_step 16 _ _ far_camera_step_47).trans
    ((camera_steps_step 15 _ _ far_camera_step_48).trans
    ((camera_steps_step 14 _ _ far_camera_step_49).trans
    ((camera_steps_step 13 _ _ far_camera_step_50).trans
    ((camera_steps_step 12 _ _ far_camera_step_51).trans
    ((camera_steps_step 11 _ _ far_camera_step_52).trans
    ((camera_steps_step 10 _ _ far_camera_step_53).trans
    ((camera_steps_step 9 _ _ far_camera_step_54).trans
    ((camera_steps_step 8 _ _ far_camera_step_55).trans
    ((camera_steps_step 7 _ _ far_camera_step_56).trans
    ((camera_steps_step 6 _ _ far_camera_step_57).trans
    ((camera_steps_step 5 _ _ far_camera_step_58).trans
    ((camera_steps_step 4 _ _ far_camera_step_59).trans
    ((camera_steps_step 3 _ _ far_camera_step_60).trans
    ((camera_steps_step 2 _ _ far_camera_step_61).trans
    ((camera_steps_step 1 _ _ far_camera_step_62).trans
    ((camera_steps_step 0 _ _ far_camera_step_63).trans
    rfl))))))))))))))))))))))))))))))))))))))))))))))))))))))))))))))))

theorem stalled_camera_step :
    f32 (stalled_camera_world.camera_x
        + f32 (f32 (stalled_camera_world.camera_target_x - stalled_camera_world.camera_x)
            * f32 0.1))
      = stalled_camera_world.camera_x := by
  have h1 : stalled_camera_world.camera_target_x - stalled_camera_world.camera_x = 1 / 2 := by
    simp only [stalled_camera_world]
    norm_num
  have h2 : stalled_camera_world.camera_x = 2097999 / 2 := by
    simp only [stalled_camera_world]
    norm_num
  have h3 : f32 ((1 / 2 : ℚ) * (13421773 / 134217728)) = 13421773 / 268435456 := by
    rw [f32_eval (-5) 13421773 (by norm_num) (by norm_num [abs_of_pos])
      (by norm_num [abs_of_pos]) (by norm_num) (by norm_num)]
    norm_num
  have h4 : f32 ((2097999 / 2 : ℚ) + 13421773 / 268435456) = 2097999 / 2 := by
    rw [f32_eval 20 8391996 (by norm_num) (by norm_num [abs_of_pos])
      (by norm_num [abs_of_pos]) (by norm_num) (by norm_num)]
    norm_num
  rw [h1, h2, f32_half, show (0.1 : ℚ) = 1 / 10 by norm_num, f32_tenth, h3, h4]

theorem camera_steps_add (m n : Nat) : ∀ w : World,
    camera_steps (m + n) w = camera_steps n (camera_steps m w) := by
  induction m with
  | zero => intro w; rw [Nat.zero_add]; rfl
  | succ m ih =>
    intro w
    rw [Nat.add_right_comm]
    exact ih (update_camera w)

theorem camera_steps_still : ∀ (n : Nat) (w : World), w.camera_moving = false →
    camera_steps n w = w
  | 0, _, _ => rfl
  | n + 1, w, h => by
    show camera_steps n (update_camera w) = w
    rw [update_camera_still w h]
    exact camera_steps_still n w h

theorem far_camera_world_stalled : far_camera_world (2097999 / 2) = stalled_camera_world := by
  unfold far_camera_world stalled_camera_world
  rw [show (2097999 / 2 : ℚ) = 1048999.5 by norm_num]

/-- C13 (counterexample): the camera at `camera_x = 1048500` is sent to the target
1049000, at distance 500. After 64 calls it is at `camera_x = 1048999.5`, at
distance 0.5, which is not below 0.5, so the call takes the step branch; the
increment `0.05` is less than half the spacing 0.125 of `float` values at that
magnitude, so `camera_x` is unchanged by the call and the distance stays 0.5
instead of becoming 0.45. From call 64 on the state no longer changes: the camera
never reaches its target and the moving flag is never cleared, however many
calls are made. -/
theorem update_camera_stalls :
    (far_camera_world 1048500).camera_moving = true
    ∧ camera_distance (far_camera_world 1048500) = 500
    ∧ camera_steps 64 (far_camera_world 1048500) = stalled_camera_world
    ∧ stalled_camera_world.camera_moving = true
    ∧ camera_distance stalled_camera_world = 0.5
    ∧ update_camera stalled_camera_world = stalled_camera_world
    ∧ (∀ n : Nat, camera_steps n stalled_camera_world = stalled_camera_world)
    ∧ stalled_camera_world.camera_x ≠ stalled_camera_world.camera_target_x
    ∧ (∀ n : Nat, camera_steps (64 + n) (far_camera_world 1048500) = stalled_camera_world)
    ∧ (∀ n : Nat, (camera_steps n (far_camera_world 1048500)).camera_moving = true) := by
  have hd : ¬ fabsf (f32 (stalled_camera_world.camera_target_x
      - stalled_camera_world.camera_x)) < 0.5 := by
    apply camera_far_of_large
    simp only [stalled_camera_world]
    norm_num [abs_of_pos]
  have hfix : update_camera stalled_camera_world = stalled_camera_world := by
    rw [update_camera_far _ rfl hd, stalled_camera_step]
  have hall : ∀ n : Nat, camera_steps n stalled_camera_world = stalled_camera_world := by
    intro n
    induction n with
    | zero => rfl
    | succ n ih => rw [camera_steps_succ, ih, hfix]
  have hrun : camera_steps 64 (far_camera_world 1048500) = stalled_camera_world := by
    rw [far_camera_run, far_camera_world_stalled]
  have hlate : ∀ n : Nat,
      camera_steps (64 + n) (far_camera_world 1048500) = stalled_camera_world := by
    intro n
    rw [camera_steps_add, hrun, hall]
  refine ⟨rfl, ?_, hrun, rfl, ?_, hfix, hall, ?_, hlate, ?_⟩
  · simp only [camera_distance, fabsf_eq_abs, far_camera_world]
    norm_num
  · simp only [camera_distance, fabsf_eq_abs, stalled_camera_world]
    norm_num
  · simp only [stalled_camera_world]
    norm_num
  · intro n
    cases hm : (camera_steps n (far_camera_world 1048500)).camera_moving with
    | true => rfl
    | false =>
      exfalso
      have h1 : camera_steps (n + 64) (far_camera_world 1048500)
          = camera_steps n (far_camera_world 1048500) := by
        rw [camera_steps_add, camera_steps_still 64 _ hm]
      rw [Nat.add_comm, hlate n] at h1
      rw [← h1] at hm
      cases hm

/-- C13 (amended, Scenario D): one `update_camera` call with the camera moving
tests the `float` difference `diff = camera_target_x - camera_x`: if `|diff| < 0.5`
(so whenever the exact distance is at most 0.4999999) the camera is put on the
target and the flag is cleared; otherwise (so whenever the exact distance `|d|`
is at least 0.5), and provided `camera_x` and the target are within 65536 of the
origin, `camera_x` grows by `0.1 * d` up to a rounding error of `|d| / 100`, the
remaining distance is between `0.89 * |d|` and `0.91 * |d|`, strictly smaller, the
camera stays on the same side of the target, within 65536 of the origin, and the
flag stays set. With the flag clear the call changes nothing, and the target is
never changed. From a distance of 500 within that range the distance never grows
from one call to the next and after at most 75 calls the camera is on the target
with the flag cleared. -/
theorem update_camera_spec :
    (∀ w : World, w.camera_moving = true →
      fabsf (f32 (w.camera_target_x - w.camera_x)) < 0.5 →
      (update_camera w).camera_x = w.camera_target_x
      ∧ (update_camera w).camera_moving = false)
    ∧ (∀ w : World, |w.camera_target_x - w.camera_x| ≤ 0.4999999 →
      fabsf (f32 (w.camera_target_x - w.camera_x)) < 0.5)
    ∧ (∀ w : World, 0.5 ≤ |w.camera_target_x - w.camera_x| →
      ¬ fabsf (f32 (w.camera_target_x - w.camera_x)) < 0.5)
    ∧ (∀ w : World, w.camera_moving = true →
      |w.camera_x| ≤ 65536 → |w.camera_target_x| ≤ 65536 →
      ¬ fabsf (f32 (w.camera_target_x - w.camera_x)) < 0.5 →
      |(update_camera w).camera_x - (w.camera_x + 0.1 * (w.camera_target_x - w.camera_x))|
          ≤ |w.camera_target_x - w.camera_x| / 100
      ∧ 0.89 * camera_distance w ≤ camera_distance (update_camera w)
      ∧ camera_distance (update_camera w) ≤ 0.91 * camera_distance w
      ∧ camera_distance (update_camera w) < camera_distance w
      ∧ 0 < (w.camera_target_x - (update_camera w).camera_x)
              * (w.camera_target_x - w.camera_x)
      ∧ (update_camera w).camera_moving = true
      ∧ |(update_camera w).camera_x| ≤ 65536)
    ∧ (∀ w : World, w.camera_moving = false → update_camera w = w)
    ∧ (∀ w : World, (update_camera w).camera_target_x = w.camera_target_x)
    ∧ (∀ w : World, w.camera_moving = true →
      |w.camera_x| ≤ 65536 → |w.camera_target_x| ≤ 65536 → camera_distance w = 500 →
      (∀ n : Nat, camera_distance (camera_steps (n + 1) w)
          ≤ camera_distance (camera_steps n w))
      ∧ ∃ n : Nat, n ≤ 75 ∧ (camera_steps n w).camera_x = w.camera_target_x
          ∧ (camera_steps n w).camera_moving = false) := by
  refine ⟨?_, fun w h => camera_near_of_small _ _ h, fun w h => camera_far_of_large _ _ h,
    camera_step_far, update_camera_still, update_camera_target, ?_⟩
  · intro w hm hd
    rw [update_camera_near w hm hd]
    exact ⟨rfl, rfl⟩
  · intro w hm hc ht hd
    refine ⟨fun n => ?_, camera_settles_within 74 w hm hc ht ?_⟩
    · rw [camera_steps_succ]
      obtain ⟨b1, b2⟩ := camera_steps_bounds n w hc ht
      exact camera_distance_step _ b1 (by rw [b2]; exact ht)
    · rw [hd]
      norm_num

theorem update_camera_spec_witness :
    (∀ n : Nat,
      camera_distance (camera_steps (n + 1)
          { initial_world with camera_target_x := 500, camera_moving := true })
        ≤ camera_distance (camera_steps n
          { initial_world with camera_target_x := 500, camera_moving := true }))
    ∧ ∃ n : Nat, n ≤ 75
      ∧ (camera_steps n { initial_world with camera_target_x := 500, camera_moving := true }
        ).camera_x = 500
      ∧ (camera_steps n { initial_world with camera_target_x := 500, camera_moving := true }
        ).camera_moving = false :=
  update_camera_spec.2.2.2.2.2.2
    { initial_world with camera_target_x := 500, camera_moving := true } rfl
    (by norm_num [initial_world]) (by norm_num)
    (by norm_num [camera_distance, fabsf, initial_world])

/-! ## Weather tier changes (C12) -/

theorem pick_target_weather_spec (e : Env) :
    ∀ (fuel : Nat) (w w' : World), pick_target_weather e fuel w = some w' →
      w'.target_weather < WEATHER_COUNT
      ∧ w'.target_weather ≠ w.current_weather
      ∧ w'.current_weather = w.current_weather
      ∧ w'.last_weather_change_time = w.last_weather_change_time
  | 0, w, w', h => by simp [pick_target_weather] at h
  | fuel + 1, w, w', h => by
    simp only [pick_target_weather] at h
    split at h
    · have := pick_target_weather_spec e fuel _ w' h
      simpa [World.tick] using this
    · rename_i hne
      simp only [Option.some.injEq] at h
      subst h
      refine ⟨?_, ?_, rfl, rfl⟩
      · exact Nat.mod_lt _ (by decide)
      · simpa [World.tick] using hne

/-- The weather fields after the last three statements of
`update_weather_and_wind`. -/
theorem weather_fields_after (e : Env) (w : World) :
    (wind_ease (wind_nudge e (weather_transition e w))).target_weather = w.target_weather
    ∧ (wind_ease (wind_nudge e (weather_transition e w))).current_weather = w.target_weather
    ∧ (wind_ease (wind_nudge e (weather_transition e w))).last_weather_change_time
        = w.last_weather_change_time := by
  have h1 : (weather_transition e w).target_weather = w.target_weather
      ∧ (weather_transition e w).current_weather = w.target_weather
      ∧ (weather_transition e w).last_weather_change_time = w.last_weather_change_time := by
    unfold weather_transition
    by_cases h : w.current_weather ≠ w.target_weather
    · rw [if_pos h]
      simp only
      split_ifs <;> exact ⟨rfl, rfl, rfl⟩
    · rw [if_neg h]
      exact ⟨rfl, not_not.mp h, rfl⟩
  have h2 : ∀ v : World, (wind_nudge e v).target_weather = v.target_weather
      ∧ (wind_nudge e v).current_weather = v.current_weather
      ∧ (wind_nudge e v).last_weather_change_time = v.last_weather_change_time := by
    intro v
    unfold wind_nudge
    simp only
    split_ifs <;> exact ⟨rfl, rfl, rfl⟩
  have h3 : ∀ v : World, (wind_ease v).target_weather = v.target_weather
      ∧ (wind_ease v).current_weather = v.current_weather
      ∧ (wind_ease v).last_weather_change_time = v.last_weather_change_time := by
    intro v
    unfold wind_ease
    simp only
    split_ifs <;> exact ⟨rfl, rfl, rfl⟩
  obtain ⟨a1, a2, a3⟩ := h1
  obtain ⟨b1, b2, b3⟩ := h2 (weather_transition e w)
  obtain ⟨c1, c2, c3⟩ := h3 (wind_nudge e (weather_transition e w))
  exact ⟨by rw [c1, b1, a1], by rw [c2, b2, a2], by rw [c3, b3, a3]⟩

theorem weather_duration_lt (e : Env) (w : World) :
    (weather_duration_min + rand e w % (weather_duration_max - weather_duration_min))
      % 4294967296 < weather_duration_max
    ∧ weather_duration_min ≤
      (weather_duration_min + rand e w % (weather_duration_max - weather_duration_min))
        % 4294967296 := by
  have h : rand e w % (weather_duration_max - weather_duration_min) < 20000 :=
    Nat.mod_lt _ (by decide)
  simp only [weather_duration_min, weather_duration_max] at h ⊢
  omega

/-- The dwell test does not fire at the time stamp of the last change. -/
theorem weather_trigger_same_time (e : Env) (fuel : Nat) (w : World) :
    weather_trigger e fuel w.last_weather_change_time w = some (w.tick 1) := by
  have hd := (weather_duration_lt e w).2
  unfold weather_trigger
  simp only [World.tick, u32sub_self]
  rw [if_neg]
  intro h
  simp only [weather_duration_min] at hd
  omega

theorem update_weather_and_wind_some (e : Env) (fuel now : Nat) (w w' : World)
    (h : update_weather_and_wind e fuel now w = some w') :
    ∃ w1, weather_trigger e fuel now w = some w1
      ∧ w' = wind_ease (wind_nudge e (weather_transition e w1)) := by
  unfold update_weather_and_wind at h
  cases h1 : weather_trigger e fuel now w with
  | none => simp [h1] at h
  | some w1 =>
    simp only [h1, Option.map_some', Option.some.injEq] at h
    exact ⟨w1, rfl, h.symm⟩

/-- The tier loop does not end within `fuel` passes when each of its first `fuel`
draws is the current tier. -/
theorem pick_target_weather_none (e : Env) :
    ∀ (fuel : Nat) (w : World),
      (∀ k, k < fuel → randAt e w k % WEATHER_COUNT = w.current_weather) →
      pick_target_weather e fuel w = none
  | 0, _, _ => rfl
  | fuel + 1, w, h => by
    simp only [pick_target_weather]
    have h0 := h 0 (Nat.succ_pos fuel)
    rw [if_pos (by simpa [randAt, World.tick, rand] using h0)]
    apply pick_target_weather_none e fuel
    intro k hk
    have := h (k + 1) (by omega)
    simpa [randAt, World.tick, rand, Nat.add_assoc, Nat.add_comm 1 k] using this

/-- More fuel does not change the result of a tier loop that has ended. -/
theorem pick_target_weather_fuel (e : Env) (n : Nat) :
    ∀ (fuel : Nat) (w w' : World), pick_target_weather e fuel w = some w' →
      pick_target_weather e (fuel + n) w = some w'
  | 0, w, w', h => by simp [pick_target_weather] at h
  | fuel + 1, w, w', h => by
    have hf : fuel + 1 + n = (fuel + n) + 1 := by omega
    rw [hf]
    simp only [pick_target_weather] at h ⊢
    split at h
    · rename_i heq
      rw [if_pos heq]
      exact pick_target_weather_fuel e n fuel _ w' h
    · rename_i hne
      rw [if_neg hne]
      exact h

/-- The dwell test fires when the tier is settled and the elapsed time exceeds
the dwell time drawn. -/
theorem weather_trigger_fired (e : Env) (fuel now : Nat) (w : World)
    (heq : w.current_weather = w.target_weather)
    (hlate : u32sub now w.last_weather_change_time > weather_duration_drawn e w) :
    weather_trigger e fuel now w
      = (pick_target_weather e fuel (w.tick 1)).map
          (fun w2 => { w2 with last_weather_change_time := now }) := by
  unfold weather_trigger
  simp only
  rw [if_pos]
  exact ⟨hlate, heq⟩

theorem weather_duration_drawn_le (e : Env) (w : World) :
    weather_duration_min ≤ weather_duration_drawn e w
    ∧ weather_duration_drawn e w < weather_duration_max :=
  ⟨(weather_duration_lt e w).2, (weather_duration_lt e w).1⟩

theorem weather_trigger_fuel (e : Env) (fuel now n : Nat) (w w' : World)
    (h : weather_trigger e fuel now w = some w') :
    weather_trigger e (fuel + n) now w = some w' := by
  unfold weather_trigger at h ⊢
  simp only at h ⊢
  split at h
  · rename_i hc
    rw [if_pos hc]
    cases hp : pick_target_weather e fuel (w.tick 1) with
    | none => simp [hp] at h
    | some w1 =>
      rw [pick_target_weather_fuel e n fuel _ w1 hp]
      simpa [hp] using h
  · rename_i hc
    rw [if_neg hc]
    exact h

theorem update_weather_and_wind_fuel (e : Env) (fuel now n : Nat) (w w' : World)
    (h : update_weather_and_wind e fuel now w = some w') :
    update_weather_and_wind e (fuel + n) now w = some w' := by
  obtain ⟨w1, h1, rfl⟩ := update_weather_and_wind_some e fuel now w w' h
  unfold update_weather_and_wind
  rw [weather_trigger_fuel e fuel now n w w1 h1]
  rfl

/-- The call returns exactly when the dwell test does not fire or one of the
first `fuel` draws of the tier loop differs from the current tier. -/
theorem update_weather_and_wind_returns_iff (e : Env) (fuel now : Nat) (w : World) :
    (∃ w', update_weather_and_wind e fuel now w = some w') ↔
      (¬ (u32sub now w.last_weather_change_time > weather_duration_drawn e w
            ∧ w.current_weather = w.target_weather)
        ∨ ∃ k, k < fuel ∧ randAt e w (k + 1) % WEATHER_COUNT ≠ w.current_weather) := by
  constructor
  · rintro ⟨w', h⟩
    by_contra hcon
    push_neg at hcon
    obtain ⟨⟨hlate, heq⟩, hall⟩ := hcon
    obtain ⟨w1, h1, -⟩ := update_weather_and_wind_some e fuel now w w' h
    have hnone : pick_target_weather e fuel (w.tick 1) = none := by
      apply pick_target_weather_none
      intro k hk
      simpa [randAt, World.tick, rand, Nat.add_assoc, Nat.add_comm 1 k] using hall k hk
    rw [weather_trigger_fired e fuel now w heq hlate, hnone] at h1
    cases h1
  · rintro (hidle | hdraw)
    · have h1 : weather_trigger e fuel now w = some (w.tick 1) := by
        unfold weather_trigger
        simp only
        rw [if_neg]
        exact hidle
      exact ⟨_, by unfold update_weather_and_wind; rw [h1]; rfl⟩
    · obtain ⟨w1, h1⟩ := weather_trigger_returns e fuel now w hdraw
      exact ⟨_, by unfold update_weather_and_wind; rw [h1]; rfl⟩

/-- C12 (counterexample): at program start (`current_weather = target_weather`,
last change at time 0) a call at time 40000, later than `weather_duration_max`,
in which every `rand()` returns 0, so that every draw of the tier loop is the
current tier: the loop does not end, whatever the number of passes allowed. -/
theorem weather_trigger_never_returns :
    initial_world.current_weather = initial_world.target_weather
    ∧ u32sub 40000 initial_world.last_weather_change_time > weather_duration_max
    ∧ (∀ k, randAt (const_env 0) initial_world k % WEATHER_COUNT
        = initial_world.current_weather)
    ∧ ∀ fuel : Nat,
        update_weather_and_wind (const_env 0) fuel 40000 initial_world = none := by
  refine ⟨rfl, by decide, fun k => rfl, fun fuel => ?_⟩
  have hd := (weather_duration_drawn_le (const_env 0) initial_world).2
  have hl : u32sub 40000 initial_world.last_weather_change_time = 40000 := by decide
  unfold update_weather_and_wind
  rw [weather_trigger_fired (const_env 0) fuel 40000 initial_world rfl
      (by rw [hl]; simp only [weather_duration_max] at hd; omega),
    pick_target_weather_none (const_env 0) fuel _ (fun k _ => rfl)]
  rfl

/-- C12 (amended, Scenario C): if `current_weather = target_weather` on entry, the
unsigned difference `now - last_weather_change_time` exceeds `weather_duration_max`
(which is above `weather_duration_min`), and one of the first `fuel` draws of the
tier loop differs from the current tier, then `update_weather_and_wind(now)`
returns, with the same result for any larger number of loop passes allowed, with
`target_weather` a valid tier different from the tier held on entry,
`current_weather` equal to it and `last_weather_change_time = now`; and a
further call at the same time stamp returns for every outcome of its draws and
changes neither the target nor the time stamp. -/
theorem weather_trigger_fires (e : Env) (fuel now : Nat) (w : World)
    (heq : w.current_weather = w.target_weather)
    (hlate : u32sub now w.last_weather_change_time > weather_duration_max)
    (hdraw : ∃ k, k < fuel ∧ randAt e w (k + 1) % WEATHER_COUNT ≠ w.current_weather) :
    weather_duration_max > weather_duration_min
    ∧ ∃ w', update_weather_and_wind e fuel now w = some w'
        ∧ (∀ n, update_weather_and_wind e (fuel + n) now w = some w')
        ∧ w'.target_weather < WEATHER_COUNT
        ∧ w'.target_weather ≠ w.target_weather
        ∧ w'.current_weather = w'.target_weather
        ∧ w'.last_weather_change_time = now
        ∧ ∀ (e2 : Env) (fuel2 : Nat), ∃ w2,
            update_weather_and_wind e2 fuel2 now w' = some w2
            ∧ w2.target_weather = w'.target_weather
            ∧ w2.last_weather_change_time = now := by
  refine ⟨by decide, ?_⟩
  obtain ⟨w', h⟩ := (update_weather_and_wind_returns_iff e fuel now w).mpr (Or.inr hdraw)
  refine ⟨w', h, fun n => update_weather_and_wind_fuel e fuel now n w w' h, ?_⟩
  have hfire := weather_trigger_fired e fuel now w heq
    (lt_trans (weather_duration_drawn_le e w).2 hlate)
  unfold update_weather_and_wind at h
  rw [hfire] at h
  cases hp : pick_target_weather e fuel (w.tick 1) with
  | none => simp [hp] at h
  | some w1 =>
    simp only [hp, Option.map_some', Option.some.injEq] at h
    obtain ⟨p1, p2, p3, p4⟩ := pick_target_weather_spec e fuel _ w1 hp
    obtain ⟨a1, a2, a3⟩ :=
      weather_fields_after e { w1 with last_weather_change_time := now }
    rw [h] at a1 a2 a3
    simp only at a1 a2 a3
    have hlast : w'.last_weather_change_time = now := a3
    refine ⟨by rw [a1]; exact p1, ?_, by rw [a1, a2], hlast, ?_⟩
    · rw [a1, ← heq]
      simpa [World.tick] using p2
    · intro e2 fuel2
      have ht := weather_trigger_same_time e2 fuel2 w'
      rw [hlast] at ht
      refine ⟨_, by unfold update_weather_and_wind; rw [ht]; rfl, ?_, ?_⟩
      · exact (weather_fields_after e2 (w'.tick 1)).1
      · rw [(weather_fields_after e2 (w'.tick 1)).2.2]
        exact hlast

theorem weather_trigger_fires_witness :
    weather_duration_max > weather_duration_min
    ∧ ∃ w', update_weather_and_wind (const_env 1) 1 40000 initial_world = some w'
        ∧ (∀ n, update_weather_and_wind (const_env 1) (1 + n) 40000 initial_world = some w')
        ∧ w'.target_weather < WEATHER_COUNT
        ∧ w'.target_weather ≠ initial_world.target_weather
        ∧ w'.current_weather = w'.target_weather
        ∧ w'.last_weather_change_time = 40000
        ∧ ∀ (e2 : Env) (fuel2 : Nat), ∃ w2,
            update_weather_and_wind e2 fuel2 40000 w' = some w2
            ∧ w2.target_weather = w'.target_weather
            ∧ w2.last_weather_change_time = 40000 :=
  weather_trigger_fires (const_env 1) 1 40000 initial_world rfl (by decide)
    ⟨0, by decide, by decide⟩


/-! ## Manual lightning (C19) -/

/-- C19: the Space command while `current_weather` is below `WEATHER_HEAVY_RAIN`
(light or medium rain) leaves the state as it is; otherwise it is one call
`create_lightning(x, 0, segments, width, 0)` with `x` within 150 of the window
centre, 5 to 14 segments and width 2 to 4, after which `thunder_active` is set,
`thunder_start_time` is the current time and `thunder_duration` lies in
`[1000, 2999]`. -/
theorem handle_SDLK_SPACE_spec (e : Env) (now : Nat) (w : World) :
    (w.current_weather = WEATHER_LIGHT_RAIN ∨ w.current_weather = WEATHER_MEDIUM_RAIN →
      handle_SDLK_SPACE e now w = w)
    ∧ (w.current_weather = WEATHER_HEAVY_RAIN ∨ w.current_weather = WEATHER_THUNDERSTORM →
      ∃ (x segments width duration : Int),
        handle_SDLK_SPACE e now w
          = { (create_lightning e x 0 segments width 0 (w.tick 3)).tick 1 with
              thunder_active := true
              thunder_start_time := now
              thunder_duration := duration }
        ∧ -150 ≤ x - Int.tdiv WINDOW_WIDTH 2 ∧ x - Int.tdiv WINDOW_WIDTH 2 ≤ 150
        ∧ 5 ≤ segments ∧ segments ≤ 14
        ∧ 2 ≤ width ∧ width ≤ 4
        ∧ 1000 ≤ duration ∧ duration ≤ 2999) := by
  constructor
  · intro h
    have : ¬ w.current_weather ≥ WEATHER_HEAVY_RAIN := by
      simp only [WEATHER_LIGHT_RAIN, WEATHER_MEDIUM_RAIN, WEATHER_HEAVY_RAIN] at h ⊢
      omega
    unfold handle_SDLK_SPACE
    rw [if_neg this]
  · intro h
    have hge : w.current_weather ≥ WEATHER_HEAVY_RAIN := by
      simp only [WEATHER_THUNDERSTORM, WEATHER_HEAVY_RAIN] at h ⊢
      omega
    have hx := tmod_rand_range (randAt e w 0) 300 (by decide)
    have hs := tmod_rand_range (randAt e w 1) 10 (by decide)
    have hw := tmod_rand_range (randAt e w 2) 3 (by decide)
    have hdur := tmod_rand_range
      (rand e (create_lightning e
        (Int.tdiv WINDOW_WIDTH 2 + Int.tmod (randAt e w 0) 300 - 150) 0
        (5 + Int.tmod (randAt e w 1) 10) (2 + Int.tmod (randAt e w 2) 3) 0 (w.tick 3)))
      2000 (by decide)
    refine ⟨Int.tdiv WINDOW_WIDTH 2 + Int.tmod (randAt e w 0) 300 - 150,
      5 + Int.tmod (randAt e w 1) 10, 2 + Int.tmod (randAt e w 2) 3,
      1000 + Int.tmod (rand e (create_lightning e
        (Int.tdiv WINDOW_WIDTH 2 + Int.tmod (randAt e w 0) 300 - 150) 0
        (5 + Int.tmod (randAt e w 1) 10) (2 + Int.tmod (randAt e w 2) 3) 0 (w.tick 3))) 2000,
      ?_, ?_, ?_, ?_, ?_, ?_, ?_, ?_, ?_⟩
    · unfold handle_SDLK_SPACE
      rw [if_pos hge]
    all_goals omega

theorem handle_SDLK_SPACE_spec_witness :
    handle_SDLK_SPACE (const_env 7) 1234 initial_world = initial_world
    ∧ ∃ (x segments width duration : Int),
        handle_SDLK_SPACE (const_env 7) 1234
            { initial_world with current_weather := WEATHER_THUNDERSTORM }
          = { (create_lightning (const_env 7) x 0 segments width 0
                ({ initial_world with current_weather := WEATHER_THUNDERSTORM }.tick 3)).tick 1
              with
              thunder_active := true
              thunder_start_time := 1234
              thunder_duration := duration }
        ∧ -150 ≤ x - Int.tdiv WINDOW_WIDTH 2 ∧ x - Int.tdiv WINDOW_WIDTH 2 ≤ 150
        ∧ 5 ≤ segments ∧ segments ≤ 14
        ∧ 2 ≤ width ∧ width ≤ 4
        ∧ 1000 ≤ duration ∧ duration ≤ 2999 :=
  ⟨(handle_SDLK_SPACE_spec (const_env 7) 1234 initial_world).1 (Or.inl rfl),
   (handle_SDLK_SPACE_spec (const_env 7) 1234
      { initial_world with current_weather := WEATHER_THUNDERSTORM }).2 (Or.inr rfl)⟩

/-! ## Cloud layers (C20) -/

theorem castInt_eq_of_mem {q : ℚ} {k : Int} (h0 : (k : ℚ) ≤ q) (h1 : q < (k : ℚ) + 1)
    (hk : 0 ≤ k) : castInt q = k := by
  have hq : 0 ≤ q := le_trans (by exact_mod_cast hk) h0
  rw [castInt_of_nonneg hq]
  exact Int.floor_eq_iff.mpr ⟨h0, h1⟩

/-- C20 fails on the code: in a thunderstorm `render` computes 8 cloud layers at
intensity 80 and 9 at intensity 100, so its loop starts at `layer = 7`, resp.
`layer = 8`, and indexes `cloud_offsets` and `cloud_textures`, which have
`MAX_CLOUD_LAYERS = 7` elements, out of bounds. -/
theorem cloud_layers_out_of_bounds :
    cloud_layers { initial_world with
        current_weather := WEATHER_THUNDERSTORM, weather_intensity := 80 } = 8
    ∧ cloud_layer_indices { initial_world with
        current_weather := WEATHER_THUNDERSTORM, weather_intensity := 80 }
        = [7, 6, 5, 4, 3, 2, 1, 0]
    ∧ cloud_layers { initial_world with
        current_weather := WEATHER_THUNDERSTORM, weather_intensity := 100 } = 9
    ∧ cloud_layer_indices { initial_world with
        current_weather := WEATHER_THUNDERSTORM, weather_intensity := 100 }
        = [8, 7, 6, 5, 4, 3, 2, 1, 0]
    ∧ ¬ (∀ i ∈ cloud_layer_indices { initial_world with
          current_weather := WEATHER_THUNDERSTORM, weather_intensity := 80 },
        i < MAX_CLOUD_LAYERS) := by
  have h80 : cloud_layers { initial_world with
      current_weather := WEATHER_THUNDERSTORM, weather_intensity := 80 } = 8 := by
    simp only [cloud_layers, WEATHER_THUNDERSTORM, WEATHER_HEAVY_RAIN]
    apply castInt_eq_of_mem <;> norm_num
  have h100 : cloud_layers { initial_world with
      current_weather := WEATHER_THUNDERSTORM, weather_intensity := 100 } = 9 := by
    simp only [cloud_layers, WEATHER_THUNDERSTORM, WEATHER_HEAVY_RAIN]
    apply castInt_eq_of_mem <;> norm_num
  have i80 : cloud_layer_indices { initial_world with
      current_weather := WEATHER_THUNDERSTORM, weather_intensity := 80 }
      = [7, 6, 5, 4, 3, 2, 1, 0] := by
    unfold cloud_layer_indices
    rw [h80]
    rfl
  have i100 : cloud_layer_indices { initial_world with
      current_weather := WEATHER_THUNDERSTORM, weather_intensity := 100 }
      = [8, 7, 6, 5, 4, 3, 2, 1, 0] := by
    unfold cloud_layer_indices
    rw [h100]
    rfl
  refine ⟨h80, i80, h100, i100, ?_⟩
  rw [i80]
  intro h
  exact absurd (h 7 (by simp)) (by decide)

/-! ## Range of the depth colour (C14) -/

/-- C14 fails on the code: for the colour `(200, 200, 250, 255)` at depth 1 the blue
formula `b * z + 30 * (1 - 0.7 * z)` is 259, outside `[0, 256)`, and the blue
channel returned is 3, not the integer part 259 of the formula; for green 255 at
depth 1 the green formula is 256.5 and the channel returned is 0. Red and alpha
are as the claim says. -/
theorem adjust_color_by_depth_wraps :
    (250 : ℚ) * 1 + 30 * (1 - 0.7 * 1) = 259
    ∧ (adjust_color_by_depth { r := 200, g := 200, b := 250, a := 255 } 1).b = 3
    ∧ (adjust_color_by_depth { r := 200, g := 200, b := 250, a := 255 } 1).r = 200
    ∧ (adjust_color_by_depth { r := 200, g := 200, b := 250, a := 255 } 1).a = 255
    ∧ (255 : ℚ) * 1 + 5 * (1 - 0.7 * 1) = 256.5
    ∧ (adjust_color_by_depth { r := 200, g := 255, b := 250, a := 255 } 1).g = 0 := by
  have c259 : castU8 259 = 3 := by
    have : castInt (259 : ℚ) = 259 := castInt_eq_of_mem (k := 259) (by norm_num) (by norm_num)
      (by decide)
    unfold castU8
    rw [this]; decide
  have c200 : castU8 200 = 200 := by
    have : castInt (200 : ℚ) = 200 := castInt_eq_of_mem (k := 200) (by norm_num) (by norm_num)
      (by decide)
    unfold castU8
    rw [this]; decide
  have c256 : castU8 (513 / 2) = 0 := by
    have : castInt (513 / 2 : ℚ) = 256 := castInt_eq_of_mem (k := 256) (by norm_num)
      (by norm_num) (by decide)
    unfold castU8
    rw [this]; decide
  refine ⟨by norm_num, ?_, ?_, rfl, by norm_num, ?_⟩
  · simp only [adjust_color_by_depth]; norm_num [c259]
  · simp only [adjust_color_by_depth]; norm_num [c200]
  · simp only [adjust_color_by_depth]; norm_num [c256]

/-! ## The bolt stored by `create_lightning` (C11, C16) -/

theorem lightning_path_keeps (e : Env) (k : Nat) (segments width type : Int)
    (zigzag_factor branch_prob : ℚ) (branch : Int → Int → Int → Int → World → World)
    (i : Nat) (l : Lightning) (hik : k ≠ i)
    (hbranch : ∀ bx bY bs bw v, v.lightnings[i]? = some l →
      (branch bx bY bs bw v).lightnings[i]? = some l) :
    ∀ (n : Nat) (j cx cy : Int) (w : World), w.lightnings[i]? = some l →
      (lightning_path e k segments width type zigzag_factor branch_prob branch n j cx cy w
        ).lightnings[i]? = some l
  | 0, _, _, _, _, h => h
  | n + 1, j, cx, cy, w, h => by
    simp only [lightning_path]
    apply lightning_path_keeps e k segments width type zigzag_factor branch_prob branch i l hik
      hbranch n
    have h1 : ∀ p : List (Int × Int),
        (w.lightnings.set k { w.lightnings.getD k default with points := p })[i]? = some l := by
      intro p
      rw [List.getElem?_set_ne hik]; exact h
    split_ifs <;>
      first
      | exact hbranch _ _ _ _ _ (h1 _)
      | exact h1 _

theorem create_lightning_keeps_of (e : Env) (x y segments width type : Int) (i : Nat)
    (l : Lightning) (hl : l.active = true)
    (hbranch : ∀ (bx bY bs bw : Int) (v : World), type = 0 → v.lightnings[i]? = some l →
      (create_lightning e bx bY bs bw 1 v).lightnings[i]? = some l)
    (w : World) (h : w.lightnings[i]? = some l) :
    (create_lightning e x y segments width type w).lightnings[i]? = some l := by
  rw [create_lightning]
  cases hk : firstFree Lightning.active w.lightnings with
  | none => exact h
  | some k =>
    simp only
    have hki : k ≠ i := by
      intro hki
      obtain ⟨a, ha, hact⟩ := firstFree_get _ _ _ hk
      rw [hki, h] at ha
      have : l = a := by simpa using ha
      rw [this, hact] at hl
      cases hl
    apply lightning_path_keeps e k segments width type _ _ _ i l hki
    · intro bx bY bs bw v hv
      by_cases ht : type = 0
      · simp only [ht, dite_true]
        exact hbranch _ _ _ _ _ ht hv
      · simp only [ht, dite_false]
        exact hv
    · simp only [World.tick]
      rw [List.getElem?_set_ne hki]; exact h

/-- A slot that is active when `create_lightning` is called is not changed by the
call, nor by the branch calls it makes. -/
theorem create_lightning_keeps (e : Env) (x y segments width type : Int) (i : Nat)
    (l : Lightning) (hl : l.active = true) (w : World) (h : w.lightnings[i]? = some l) :
    (create_lightning e x y segments width type w).lightnings[i]? = some l :=
  create_lightning_keeps_of e x y segments width type i l hl
    (fun bx bY bs bw v _ hv =>
      create_lightning_keeps_of e bx bY bs bw 1 i l hl
        (fun _ _ _ _ _ h10 _ => absurd h10 (by decide)) v hv)
    w h

theorem getD_of_getElem? {α : Type} (l : List α) (i : Nat) (a d : α) (h : l[i]? = some a) :
    l.getD i d = a := by
  rw [List.getD_eq_getElem?_getD, h]; rfl

/-- The path loop on the bolt's own slot `i`: the fields of the bolt other than
`points` stay as they are, the points below `jn` stay as they are, and the point of
each pass `m` holds the running value of `current_y`. -/
theorem lightning_path_own (e : Env) (i : Nat) (segments width type : Int)
    (zigzag_factor branch_prob : ℚ) (branch : Int → Int → Int → Int → World → World)
    (hbranch : ∀ bx bY bs bw v l, l.active = true → v.lightnings[i]? = some l →
      (branch bx bY bs bw v).lightnings[i]? = some l) :
    ∀ (n jn : Nat) (cx cy : Int) (w : World) (l : Lightning),
      w.lightnings[i]? = some l → l.active = true →
      ∃ pts : List (Int × Int),
        (lightning_path e i segments width type zigzag_factor branch_prob branch n (jn : Int)
          cx cy w).lightnings[i]? = some { l with points := pts }
        ∧ pts.length = l.points.length
        ∧ (∀ m, m < jn → pts[m]? = l.points[m]?)
        ∧ (∀ m, jn ≤ m → m < jn + n → m < l.points.length →
            ∃ xm, pts[m]? = some (xm, path_y segments (m - jn + 1) cy))
  | 0, jn, cx, cy, w, l, h, _ => by
    refine ⟨l.points, ?_, rfl, fun _ _ => rfl, ?_⟩
    · simpa [lightning_path] using h
    · intro m h1 h2; omega
  | n + 1, jn, cx, cy, w, l, h, hl => by
    simp only [lightning_path, Int.toNat_ofNat]
    have hget : w.lightnings.getD i default = l := getD_of_getElem? _ _ _ _ h
    have hlt : i < w.lightnings.length := (List.getElem?_eq_some.mp h).1
    rw [hget]
    have h1 : ∀ p : List (Int × Int),
        (w.lightnings.set i { l with points := p })[i]? = some { l with points := p } := by
      intro p
      rw [List.getElem?_set_self hlt]
    have hcast : ((jn : Int) + 1) = ((jn + 1 : Nat) : Int) := by push_cast; rfl
    rw [hcast]
    have key : ∀ (cx1 cy1 : Int) (v : World),
        (if cy + Int.tdiv WINDOW_HEIGHT segments > POND_HEIGHT then POND_HEIGHT
          else cy + Int.tdiv WINDOW_HEIGHT segments) = cy1 →
        v.lightnings[i]? = some { l with points := (l.points.set jn (cx1, cy1)) } →
        ∃ pts : List (Int × Int),
          (lightning_path e i segments width type zigzag_factor branch_prob branch n
            ((jn + 1 : Nat) : Int) cx1 cy1 v).lightnings[i]?
            = some { l with points := pts }
          ∧ pts.length = l.points.length
          ∧ (∀ m, m < jn → pts[m]? = l.points[m]?)
          ∧ (∀ m, jn ≤ m → m < jn + (n + 1) → m < l.points.length →
              ∃ xm, pts[m]? = some (xm, path_y segments (m - jn + 1) cy)) := by
      intro cx1 cy1 v hcy hv
      obtain ⟨pts, p1, p2, p3, p4⟩ :=
        lightning_path_own e i segments width type zigzag_factor branch_prob branch hbranch
          n (jn + 1) _ _ v _ hv hl
      refine ⟨pts, p1, ?_, ?_, ?_⟩
      · rw [p2]; simp only [List.length_set]
      · intro m hm
        rw [p3 m (by omega)]
        simp only
        rw [List.getElem?_set_ne (by omega)]
      · intro m hm1 hm2 hm3
        by_cases hmj : m = jn
        · subst hmj
          refine ⟨cx1, ?_⟩
          rw [p3 m (by omega)]
          simp only
          rw [List.getElem?_set_self hm3]
          simp only [Nat.sub_self, Nat.zero_add, path_y, hcy]
        · obtain ⟨xm, hx⟩ := p4 m (by omega) (by omega)
            (by simp only [List.length_set]; exact hm3)
          refine ⟨xm, ?_⟩
          rw [hx]
          have : m - jn + 1 = (m - (jn + 1) + 1) + 1 := by omega
          rw [this]
          simp only [path_y, hcy]
    generalize hcy1 : (if cy + Int.tdiv WINDOW_HEIGHT segments > POND_HEIGHT then POND_HEIGHT
      else cy + Int.tdiv WINDOW_HEIGHT segments) = cy1
    split_ifs <;> apply key _ _ _ hcy1 <;>
      first
      | exact hbranch _ _ _ _ _ _ hl (h1 _)
      | exact h1 _

/-- The slot that `create_lightning` fills, after the call: the fields written
before the path loop, point 0, and for each pass `m` of the loop a point whose `y`
is the running `current_y`. -/
theorem create_lightning_slot (e : Env) (x y segments width type : Int) (w : World) (i : Nat)
    (hi : firstFree Lightning.active w.lightnings = some i) :
    ∃ pts : List (Int × Int),
      (create_lightning e x y segments width type w).lightnings[i]?
        = some { new_lightning e x y segments width type w (w.lightnings.getD i default) with
                 points := pts }
      ∧ pts.length = (w.lightnings.getD i default).points.length
      ∧ pts[0]? = ((w.lightnings.getD i default).points.set 0 (x, y))[0]?
      ∧ (∀ m, 1 ≤ m → m < 1 + segments.toNat →
          m < (w.lightnings.getD i default).points.length →
          ∃ xm, pts[m]? = some (xm, path_y segments m y)) := by
  have hlt := firstFree_lt _ _ _ hi
  have hslot : ({ w.tick 2 with
      lightnings := w.lightnings.set i
        (new_lightning e x y segments width type w (w.lightnings.getD i default)) } : World
      ).lightnings[i]?
      = some (new_lightning e x y segments width type w (w.lightnings.getD i default)) := by
    simp only
    rw [List.getElem?_set_self hlt]
  obtain ⟨pts, p1, p2, p3, p4⟩ :=
    lightning_path_own e i segments width type
      (40.0 * (1.0 + (w.weather_intensity : ℚ) / 200.0))
      (30.0 * (1.0 + (w.weather_intensity : ℚ) / 150.0))
      (fun bx bY bs bw w' =>
        if _h : type = 0 then create_lightning e bx bY bs bw 1 w' else w')
      (by
        intro bx bY bs bw v l hl hv
        by_cases ht : type = 0
        · simp only [ht, dite_true]
          exact create_lightning_keeps e bx bY bs bw 1 i l hl v hv
        · simp only [ht, dite_false]
          exact hv)
      segments.toNat 1 x y _ _ hslot rfl
  refine ⟨pts, ?_, ?_, ?_, ?_⟩
  · rw [create_lightning]
    simp only [hi]
    exact p1
  · rw [p2]
    simp only [new_lightning, List.length_set]
  · rw [p3 0 (by decide)]
    rfl
  · intro m hm1 hm2 hm3
    obtain ⟨xm, hx⟩ := p4 m hm1 hm2 (by simp only [new_lightning, List.length_set]; exact hm3)
    refine ⟨xm, ?_⟩
    rw [hx, Nat.sub_add_cancel hm1]

theorem path_y_closed (segments : Int) (hstep : 0 ≤ Int.tdiv WINDOW_HEIGHT segments) :
    ∀ (t : Nat) (cy : Int), cy ≤ POND_HEIGHT →
      path_y segments t cy = min POND_HEIGHT (cy + (t : Int) * Int.tdiv WINDOW_HEIGHT segments)
  | 0, cy, h => by
    simp only [path_y, Nat.cast_zero, zero_mul, add_zero]
    exact (min_eq_right h).symm
  | t + 1, cy, h => by
    simp only [path_y]
    have hnn : 0 ≤ (t : Int) * Int.tdiv WINDOW_HEIGHT segments :=
      mul_nonneg (Int.natCast_nonneg t) hstep
    split_ifs with hc
    · rw [path_y_closed segments hstep t POND_HEIGHT (le_refl _)]
      push_cast
      rw [min_eq_left (by omega), min_eq_left (by nlinarith)]
    · rw [path_y_closed segments hstep t _ (by omega)]
      push_cast
      congr 1
      ring

/-- C11 (Scenario B): for `1 <= segments <= 19`, a spawn height `y <= POND_HEIGHT`
and a free lightning slot (every `points` array having its 20 entries),
`create_lightning(x, y, segments, width, type)` leaves in the first free slot an
active bolt that records `segments`, `width` and `type`, whose point 0 is `(x, y)`
and whose point `j`, for `j` in `1..segments`, has
`y = min(POND_HEIGHT, y + j * (WINDOW_HEIGHT div segments))`; along the path `y`
does not decrease and never exceeds `POND_HEIGHT`. This is the state after the
whole call, branch bolts included. -/
theorem create_lightning_path (e : Env) (x y segments width type : Int) (w : World)
    (hfree : ∃ l ∈ w.lightnings, l.active = false)
    (hpts : ∀ l ∈ w.lightnings, l.points.length = 20)
    (hs1 : 1 ≤ segments) (hs2 : segments ≤ 19) (hy : y ≤ POND_HEIGHT) :
    ∃ (i : Nat) (l : Lightning),
      firstFree Lightning.active w.lightnings = some i
      ∧ (create_lightning e x y segments width type w).lightnings[i]? = some l
      ∧ l.active = true ∧ l.segments = segments ∧ l.width = width ∧ l.type = type
      ∧ l.points.length = 20
      ∧ l.points[0]? = some (x, y)
      ∧ (∀ j : Nat, 1 ≤ j → (j : Int) ≤ segments →
          ∃ xj, l.points[j]? = some
            (xj, min POND_HEIGHT (y + (j : Int) * Int.tdiv WINDOW_HEIGHT segments)))
      ∧ (∀ j : Nat, (j : Int) + 1 ≤ segments →
          ∃ p q, l.points[j]? = some p ∧ l.points[j + 1]? = some q ∧ p.2 ≤ q.2)
      ∧ (∀ j : Nat, (j : Int) ≤ segments →
          ∃ p, l.points[j]? = some p ∧ p.2 ≤ POND_HEIGHT) := by
  obtain ⟨i, hi⟩ := exists_firstFree _ _ hfree
  obtain ⟨a, ha, -⟩ := firstFree_get _ _ _ hi
  have hget : w.lightnings.getD i default = a := getD_of_getElem? _ _ _ _ ha
  have hlen : a.points.length = 20 := hpts a (List.mem_iff_getElem?.mpr ⟨i, ha⟩)
  have hstep : 0 ≤ Int.tdiv WINDOW_HEIGHT segments :=
    Int.tdiv_nonneg (by decide) (by omega)
  obtain ⟨pts, p1, p2, p3, p4⟩ := create_lightning_slot e x y segments width type w i hi
  rw [hget] at p1 p2 p3 p4
  have h0 : pts[0]? = some (x, y) := by
    rw [p3, List.getElem?_set_self (by omega)]
  have hj : ∀ j : Nat, 1 ≤ j → (j : Int) ≤ segments →
      ∃ xj, pts[j]? = some
        (xj, min POND_HEIGHT (y + (j : Int) * Int.tdiv WINDOW_HEIGHT segments)) := by
    intro j hj1 hj2
    obtain ⟨xj, hx⟩ := p4 j hj1 (by omega) (by omega)
    exact ⟨xj, by rw [hx, path_y_closed segments hstep j y hy]⟩
  have hall : ∀ j : Nat, (j : Int) ≤ segments →
      ∃ xj, pts[j]? = some
        (xj, min POND_HEIGHT (y + (j : Int) * Int.tdiv WINDOW_HEIGHT segments)) := by
    intro j hj2
    by_cases hj0 : j = 0
    · subst hj0
      refine ⟨x, ?_⟩
      rw [h0]
      simp only [Nat.cast_zero, zero_mul, add_zero, min_eq_right hy]
    · exact hj j (by omega) hj2
  refine ⟨i, _, hi, p1, rfl, rfl, rfl, rfl, ?_, h0, hj, ?_, ?_⟩
  · simp only
    rw [p2, hlen]
  · intro j hj2
    obtain ⟨xp, hp⟩ := hall j (by omega)
    obtain ⟨xq, hq⟩ := hall (j + 1) (by push_cast; omega)
    refine ⟨_, _, hp, hq, ?_⟩
    simp only
    push_cast
    have : y + (j : Int) * Int.tdiv WINDOW_HEIGHT segments
        ≤ y + ((j : Int) + 1) * Int.tdiv WINDOW_HEIGHT segments := by nlinarith
    exact min_le_min (le_refl _) this
  · intro j hj2
    obtain ⟨xp, hp⟩ := hall j hj2
    exact ⟨_, hp, min_le_left _ _⟩

theorem create_lightning_path_witness :
    ∃ (i : Nat) (l : Lightning),
      (create_lightning (const_env 7) 400 0 10 3 0 initial_world).lightnings[i]? = some l
      ∧ l.segments = 10
      ∧ l.points.length = 20
      ∧ l.points[0]? = some (400, 0)
      ∧ ∃ x10, l.points[10]? = some (x10, 400) := by
  obtain ⟨i, l, -, h1, -, h2, -, -, h3, h4, h5, -, -⟩ :=
    create_lightning_path (const_env 7) 400 0 10 3 0 initial_world
      ⟨zero_lightning, List.mem_replicate.mpr ⟨by decide, rfl⟩, rfl⟩
      (by
        intro l hl
        simp only [initial_world, List.mem_replicate] at hl
        rw [hl.2]; rfl)
      (by decide) (by decide) (by decide)
  obtain ⟨x10, hx⟩ := h5 10 (by decide) (by decide)
  exact ⟨i, l, h1, h2, h3, h4, x10, by rw [hx]; rfl⟩

/-- The brightness stored by `create_lightning` is the sum reduced to eight bits:
the comparison with 255 that follows the assignment never holds. -/
theorem create_lightning_brightness (e : Env) (x y segments width type : Int) (w : World)
    (i : Nat) (hi : firstFree Lightning.active w.lightnings = some i) :
    ∃ l, (create_lightning e x y segments width type w).lightnings[i]? = some l
      ∧ l.brightness
          = intU8 (180 + Int.tmod (rand e w) 75 + Int.tdiv w.weather_intensity 2) := by
  obtain ⟨pts, p1, -, -, -⟩ := create_lightning_slot e x y segments width type w i hi
  refine ⟨_, p1, ?_⟩
  simp only [new_lightning]
  have hlt : intU8 (180 + Int.tmod (rand e w) 75 + Int.tdiv w.weather_intensity 2) < 256 := by
    unfold intU8
    have h1 := Int.emod_lt_of_pos
      (180 + Int.tmod (rand e w) 75 + Int.tdiv w.weather_intensity 2) (by decide : (0 : Int) < 256)
    have h2 := Int.emod_nonneg
      (180 + Int.tmod (rand e w) 75 + Int.tdiv w.weather_intensity 2) (by decide : (256 : Int) ≠ 0)
    omega
  rw [if_neg (by omega)]

/-- C16 fails on the code: at `weather_intensity = 100` with the draw `r = 74` the sum
`180 + r + weather_intensity div 2` is 304, its minimum with 255 is 255, and the
brightness stored in the slot is 48. -/
theorem create_lightning_brightness_wraps :
    min (255 : Int) (180 + 74 + Int.tdiv 100 2) = 255
    ∧ ∃ l, (create_lightning (const_env 74) 400 0 10 3 0
              { initial_world with weather_intensity := 100 }).lightnings[0]? = some l
        ∧ l.brightness = 48 := by
  refine ⟨by decide, ?_⟩
  have hi : firstFree Lightning.active
      ({ initial_world with weather_intensity := 100 } : World).lightnings = some 0 :=
    firstFree_replicate _ _ 4 rfl
  obtain ⟨l, h1, h2⟩ := create_lightning_brightness (const_env 74) 400 0 10 3 0
    { initial_world with weather_intensity := 100 } 0 hi
  refine ⟨l, h1, ?_⟩
  rw [h2]
  decide

/-! ## Size of a splash burst (C17) -/

/-- Every slot of the splash pool after `create_splash` either is as it was on
entry or holds an active particle at `(x, y, z)` with the given colour. -/
theorem create_splash_slots (e : Env) (x y z : ℚ) (color : SDL_Color) (w : World) :
    ∀ (i : Nat) (s : Splash), (create_splash e x y z color w).splashes[i]? = some s →
      w.splashes[i]? = some s
      ∨ (s.active = true ∧ s.x = x ∧ s.y = y ∧ s.z = z ∧ s.color = color) := by
  simp only [create_splash]
  apply create_splash_loop_induct e x y z color
    (fun v => ∀ (i : Nat) (s : Splash), v.splashes[i]? = some s →
      w.splashes[i]? = some s
      ∨ (s.active = true ∧ s.x = x ∧ s.y = y ∧ s.z = z ∧ s.color = color))
    _ _ _ _ _ (le_refl _)
  · intro i s h
    exact Or.inl h
  · intro j v hj hv i s hs
    simp only [fill_splash, World.tick] at hs
    by_cases hij : j = i
    · subst hij
      rw [List.getElem?_set_self (firstFree_lt _ _ _ hj)] at hs
      simp only [Option.some.injEq] at hs
      subst hs
      exact Or.inr ⟨rfl, rfl, rfl, rfl, rfl⟩
    · rw [List.getElem?_set_ne hij] at hs
      exact hv i s hs

/-- C17 fails on the code: from the start state, where all 300 splash slots are
free and the intensity is 50, one `create_splash(x, y, z, color)` call activates
all 300 slots, each at `(x, y, z)` with the given colour, although the number
`floor(b * (1 + weather_intensity / 100))` for the drawn base `b` is at most 18. -/
theorem create_splash_burst_size (e : Env) (x y z : ℚ) (color : SDL_Color) :
    activeCount Splash.active initial_world.splashes = 0
    ∧ castInt (((5 + Int.tmod (rand e initial_world) 8 : Int) : ℚ)
          * (1.0 + (initial_world.weather_intensity : ℚ) / 100.0)) ≤ 18
    ∧ activeCount Splash.active (create_splash e x y z color initial_world).splashes = 300
    ∧ ∀ s ∈ (create_splash e x y z color initial_world).splashes,
        s.active = true ∧ s.x = x ∧ s.y = y ∧ s.z = z ∧ s.color = color := by
  have hall := create_splash_fills e x y z color initial_world (by decide)
  have hlen := create_splash_length e x y z color initial_world
  have hzero : ∀ s ∈ initial_world.splashes, s.active = false := by
    intro s hs
    simp only [initial_world, List.mem_replicate] at hs
    rw [hs.2]; rfl
  refine ⟨activeCount_eq_zero _ _ hzero, ?_, ?_, ?_⟩
  · have ht := tmod_rand_range (rand e initial_world) 8 (by decide)
    have hq : (((5 + Int.tmod (rand e initial_world) 8 : Int) : ℚ)
        * (1.0 + (initial_world.weather_intensity : ℚ) / 100.0)) < 19 := by
      have h12 : ((5 + Int.tmod (rand e initial_world) 8 : Int) : ℚ) ≤ 12 := by
        exact_mod_cast (by omega : 5 + Int.tmod (rand e initial_world) 8 ≤ 12)
      have hwi : (initial_world.weather_intensity : ℚ) = 50 := by
        simp [initial_world]
      rw [hwi]
      push_cast at h12 ⊢
      norm_num
      linarith
    have h0 : (0 : ℚ) ≤ (((5 + Int.tmod (rand e initial_world) 8 : Int) : ℚ)
        * (1.0 + (initial_world.weather_intensity : ℚ) / 100.0)) := by
      have h5 : (0 : ℚ) ≤ ((5 + Int.tmod (rand e initial_world) 8 : Int) : ℚ) := by
        exact_mod_cast (by omega : 0 ≤ 5 + Int.tmod (rand e initial_world) 8)
      have hwi : (initial_world.weather_intensity : ℚ) = 50 := by
        simp [initial_world]
      rw [hwi]
      exact mul_nonneg h5 (by norm_num)
    rw [castInt_of_nonneg h0]
    have := Int.floor_lt.mpr (show _ < ((19 : Int) : ℚ) by exact_mod_cast hq)
    omega
  · unfold activeCount
    rw [List.countP_eq_length.mpr hall, hlen]
    show (List.replicate MAX_SPLASHES zero_splash).length = 300
    rw [List.length_replicate]
    rfl
  · intro s hs
    obtain ⟨i, hi⟩ := List.mem_iff_getElem?.mp hs
    rcases create_splash_slots e x y z color initial_world i s hi with h | h
    · have h1 := hzero s (List.mem_iff_getElem?.mpr ⟨i, h⟩)
      have h2 := hall s hs
      rw [h1] at h2; cases h2
    · exact h


/-! ## Weather transitions are instantaneous; dwell and wind range (C22, C23, C24) -/

/-- The dwell test does not fire while a tier change is pending or before the
minimum dwell has elapsed: only the draw of the dwell time is consumed. -/
theorem weather_trigger_idle (e : Env) (fuel now : Nat) (w : World)
    (h : w.current_weather ≠ w.target_weather
      ∨ u32sub now w.last_weather_change_time ≤ weather_duration_min) :
    weather_trigger e fuel now w = some (w.tick 1) := by
  have hd := (weather_duration_lt e w).2
  unfold weather_trigger
  simp only [World.tick]
  rw [if_neg]
  rintro ⟨h1, h2⟩
  rcases h with h | h
  · exact h h2
  · omega

/-- C22 (counterexample): a settled heavy-rain state (`current_weather =
target_weather`), last change at time 0, in a call at time 50000, later than
`weather_duration_max`, in which every `rand()` returns 2: the dwell test fires
and every draw of the tier loop is the current tier, so the loop does not end and
the call does not return, whatever the number of passes allowed. -/
theorem weather_transition_never_returns :
    heavy_rain_world.current_weather = heavy_rain_world.target_weather
    ∧ u32sub 50000 heavy_rain_world.last_weather_change_time > weather_duration_max
    ∧ (∀ k, randAt (const_env 2) heavy_rain_world k % WEATHER_COUNT
        = heavy_rain_world.current_weather)
    ∧ ∀ fuel : Nat,
        update_weather_and_wind (const_env 2) fuel 50000 heavy_rain_world = none := by
  refine ⟨rfl, by decide, fun k => rfl, fun fuel => ?_⟩
  have hd := (weather_duration_drawn_le (const_env 2) heavy_rain_world).2
  have hl : u32sub 50000 heavy_rain_world.last_weather_change_time = 50000 := by decide
  unfold update_weather_and_wind
  rw [weather_trigger_fired (const_env 2) fuel 50000 heavy_rain_world rfl
      (by rw [hl]; simp only [weather_duration_max] at hd; omega),
    pick_target_weather_none (const_env 2) fuel _ (fun k _ => rfl)]
  rfl

/-- C22 (amended): `update_weather_and_wind(now)` returns when the dwell test does
not fire (the elapsed time does not exceed the dwell time drawn, or
`current_weather ≠ target_weather`) or one of the first `fuel` draws of the tier
loop differs from the current tier, and only then; the result is the same for
any larger number of loop passes allowed; every run that returns does so with
`current_weather = target_weather`; in particular if
`current_weather ≠ target_weather` on entry (a tier-select command was issued)
then the call returns for every outcome of the draws, on return `current_weather`
is the target held on entry and the target is unchanged. -/
theorem weather_transition_instantaneous (e : Env) (fuel now : Nat) (w : World) :
    ((¬ (u32sub now w.last_weather_change_time > weather_duration_drawn e w
              ∧ w.current_weather = w.target_weather)
        ∨ ∃ k, k < fuel ∧ randAt e w (k + 1) % WEATHER_COUNT ≠ w.current_weather) →
      ∃ w', update_weather_and_wind e fuel now w = some w'
        ∧ (∀ n, update_weather_and_wind e (fuel + n) now w = some w')
        ∧ w'.current_weather = w'.target_weather)
    ∧ (∀ fuel2 : Nat, (∃ v, update_weather_and_wind e fuel2 now w = some v) ↔
        (¬ (u32sub now w.last_weather_change_time > weather_duration_drawn e w
              ∧ w.current_weather = w.target_weather)
          ∨ ∃ k, k < fuel2 ∧ randAt e w (k + 1) % WEATHER_COUNT ≠ w.current_weather))
    ∧ (∀ (fuel2 : Nat) (v : World), update_weather_and_wind e fuel2 now w = some v →
        v.current_weather = v.target_weather)
    ∧ (w.current_weather ≠ w.target_weather →
        ∃ w', update_weather_and_wind e fuel now w = some w'
          ∧ (∀ n, update_weather_and_wind e (fuel + n) now w = some w')
          ∧ w'.current_weather = w.target_weather
          ∧ w'.target_weather = w.target_weather) := by
  have hall : ∀ (fuel2 : Nat) (v : World), update_weather_and_wind e fuel2 now w = some v →
      v.current_weather = v.target_weather := by
    intro fuel2 v h
    obtain ⟨w1, -, rfl⟩ := update_weather_and_wind_some e fuel2 now w v h
    obtain ⟨a1, a2, -⟩ := weather_fields_after e w1
    rw [a1, a2]
  refine ⟨?_, fun fuel2 => update_weather_and_wind_returns_iff e fuel2 now w, hall, ?_⟩
  · intro hret
    obtain ⟨w', h⟩ := (update_weather_and_wind_returns_iff e fuel now w).mpr hret
    exact ⟨w', h, fun n => update_weather_and_wind_fuel e fuel now n w w' h, hall fuel w' h⟩
  · intro hne
    have h1 := weather_trigger_idle e fuel now w (Or.inl hne)
    have h : update_weather_and_wind e fuel now w
        = some (wind_ease (wind_nudge e (weather_transition e (w.tick 1)))) := by
      unfold update_weather_and_wind; rw [h1]; rfl
    exact ⟨_, h, fun n => update_weather_and_wind_fuel e fuel now n w _ h,
      (weather_fields_after e (w.tick 1)).2.1, (weather_fields_after e (w.tick 1)).1⟩

theorem weather_transition_instantaneous_witness :
    (∃ w', update_weather_and_wind (const_env 1) 1 40000 initial_world = some w'
      ∧ (∀ n, update_weather_and_wind (const_env 1) (1 + n) 40000 initial_world = some w')
      ∧ w'.current_weather = w'.target_weather)
    ∧ ∃ w', update_weather_and_wind (const_env 1) 0 0
          { initial_world with target_weather := WEATHER_HEAVY_RAIN } = some w'
        ∧ (∀ n, update_weather_and_wind (const_env 1) (0 + n) 0
            { initial_world with target_weather := WEATHER_HEAVY_RAIN } = some w')
        ∧ w'.current_weather = WEATHER_HEAVY_RAIN
        ∧ w'.target_weather = WEATHER_HEAVY_RAIN :=
  ⟨(weather_transition_instantaneous (const_env 1) 1 40000 initial_world).1
      (Or.inr ⟨0, by decide, by decide⟩),
    (weather_transition_instantaneous (const_env 1) 0 0
      { initial_world with target_weather := WEATHER_HEAVY_RAIN }).2.2.2 (by decide)⟩


/-- C24: if `current_weather = target_weather` on entry and the unsigned
difference `now - last_weather_change_time` is at most `weather_duration_min`,
then for every outcome of the random draws `update_weather_and_wind(now)` returns
and leaves `current_weather`, `target_weather` and `last_weather_change_time`
unchanged. -/
theorem weather_minimum_dwell (e : Env) (fuel now : Nat) (w : World)
    (heq : w.current_weather = w.target_weather)
    (hearly : u32sub now w.last_weather_change_time ≤ weather_duration_min) :
    ∃ w', update_weather_and_wind e fuel now w = some w'
      ∧ w'.current_weather = w.current_weather
      ∧ w'.target_weather = w.target_weather
      ∧ w'.last_weather_change_time = w.last_weather_change_time := by
  have h1 := weather_trigger_idle e fuel now w (Or.inr hearly)
  refine ⟨wind_ease (wind_nudge e (weather_transition e (w.tick 1))), ?_, ?_, ?_, ?_⟩
  · unfold update_weather_and_wind; rw [h1]; rfl
  · rw [(weather_fields_after e (w.tick 1)).2.1, heq]; rfl
  · exact (weather_fields_after e (w.tick 1)).1
  · exact (weather_fields_after e (w.tick 1)).2.2

theorem weather_minimum_dwell_witness :
    ∃ w', update_weather_and_wind (const_env 0) 0 10000 initial_world = some w'
      ∧ w'.current_weather = initial_world.current_weather
      ∧ w'.target_weather = initial_world.target_weather
      ∧ w'.last_weather_change_time = initial_world.last_weather_change_time :=
  weather_minimum_dwell (const_env 0) 0 10000 initial_world rfl (by decide)


theorem weather_trigger_current (e : Env) (fuel now : Nat) (w w' : World)
    (h : weather_trigger e fuel now w = some w') :
    w'.current_weather = w.current_weather := by
  simp only [weather_trigger] at h
  split at h
  · cases hp : pick_target_weather e fuel (w.tick 1) with
    | none => simp [hp] at h
    | some w2 =>
      simp only [hp, Option.map_some', Option.some.injEq] at h
      subst h
      exact (pick_target_weather_spec e fuel _ w2 hp).2.2.1
  · simp only [Option.some.injEq] at h
    subst h
    rfl

/-- The wind target drawn by a tier change lies in the range of the new tier. -/
theorem weather_transition_range (e : Env) (w : World)
    (hne : w.current_weather ≠ w.target_weather) :
    (w.target_weather = WEATHER_LIGHT_RAIN →
      -0.2 ≤ (weather_transition e w).target_wind_strength
      ∧ (weather_transition e w).target_wind_strength ≤ 0.2)
    ∧ (w.target_weather = WEATHER_MEDIUM_RAIN →
      -0.5 ≤ (weather_transition e w).target_wind_strength
      ∧ (weather_transition e w).target_wind_strength ≤ 0.5)
    ∧ (w.target_weather = WEATHER_HEAVY_RAIN →
      -0.8 ≤ (weather_transition e w).target_wind_strength
      ∧ (weather_transition e w).target_wind_strength ≤ 0.8)
    ∧ (w.target_weather = WEATHER_THUNDERSTORM →
      -1.0 ≤ (weather_transition e w).target_wind_strength
      ∧ (weather_transition e w).target_wind_strength ≤ 1.0) := by
  have h0 := frand_nonneg e { w with current_weather := w.target_weather } 0
  have h1 := frand_le_one e { w with current_weather := w.target_weather } 0
  unfold weather_transition
  rw [if_pos hne]
  simp only
  refine ⟨?_, ?_, ?_, ?_⟩ <;> intro ht <;>
    simp only [ht, WEATHER_LIGHT_RAIN, WEATHER_MEDIUM_RAIN, WEATHER_HEAVY_RAIN,
      WEATHER_THUNDERSTORM, World.tick] at h0 h1 ⊢ <;>
    norm_num <;> constructor <;> linarith

theorem wind_nudge_quiet (e : Env) (w : World) (h : rand e w % 100 ≠ 0) :
    wind_nudge e w = w.tick 1 := by
  unfold wind_nudge
  simp only
  rw [if_neg h]

theorem wind_ease_target (w : World) :
    (wind_ease w).target_wind_strength = w.target_wind_strength := by
  unfold wind_ease
  simp only
  split_ifs <;> rfl

/-- C23: in a call of `update_weather_and_wind` in which the 1% random nudge does
not fire, if the tier changes then the new `target_wind_strength` lies in
`[-0.2, 0.2]`, `[-0.5, 0.5]`, `[-0.8, 0.8]`, `[-1, 1]` when the new tier is light,
medium, heavy, thunderstorm respectively, and if the tier does not change then
`target_wind_strength` is unchanged. Here `w1` is the state after the dwell test
and the nudge draw is the one made after the tier change. -/
theorem tier_wind_range (e : Env) (fuel now : Nat) (w w1 : World)
    (h1 : weather_trigger e fuel now w = some w1)
    (hquiet : rand e (weather_transition e w1) % 100 ≠ 0) :
    ∃ w', update_weather_and_wind e fuel now w = some w'
      ∧ (w'.current_weather ≠ w.current_weather →
          (w'.current_weather = WEATHER_LIGHT_RAIN →
            -0.2 ≤ w'.target_wind_strength ∧ w'.target_wind_strength ≤ 0.2)
          ∧ (w'.current_weather = WEATHER_MEDIUM_RAIN →
            -0.5 ≤ w'.target_wind_strength ∧ w'.target_wind_strength ≤ 0.5)
          ∧ (w'.current_weather = WEATHER_HEAVY_RAIN →
            -0.8 ≤ w'.target_wind_strength ∧ w'.target_wind_strength ≤ 0.8)
          ∧ (w'.current_weather = WEATHER_THUNDERSTORM →
            -1.0 ≤ w'.target_wind_strength ∧ w'.target_wind_strength ≤ 1.0))
      ∧ (w'.current_weather = w.current_weather →
          w'.target_wind_strength = w.target_wind_strength) := by
  have hc := weather_trigger_current e fuel now w w1 h1
  have ht := (weather_trigger_wind e fuel now w w1 h1).2
  have hcur := (weather_fields_after e w1).2.1
  have htw : (wind_ease (wind_nudge e (weather_transition e w1))).target_wind_strength
      = (weather_transition e w1).target_wind_strength := by
    rw [wind_ease_target, wind_nudge_quiet e _ hquiet]
    rfl
  refine ⟨wind_ease (wind_nudge e (weather_transition e w1)), ?_, ?_, ?_⟩
  · unfold update_weather_and_wind; rw [h1]; rfl
  · intro hne
    rw [hcur, ← hc] at hne
    rw [hcur, htw]
    exact weather_transition_range e w1 (Ne.symm hne)
  · intro heq
    rw [hcur, ← hc] at heq
    rw [htw, ← ht]
    unfold weather_transition
    rw [if_neg (not_not.mpr heq.symm)]

theorem tier_wind_range_witness :
    ∃ w', update_weather_and_wind (const_env 1) 0 0
        { initial_world with target_weather := WEATHER_HEAVY_RAIN } = some w'
      ∧ (w'.current_weather
            ≠ ({ initial_world with target_weather := WEATHER_HEAVY_RAIN } : World).current_weather →
          (w'.current_weather = WEATHER_LIGHT_RAIN →
            -0.2 ≤ w'.target_wind_strength ∧ w'.target_wind_strength ≤ 0.2)
          ∧ (w'.current_weather = WEATHER_MEDIUM_RAIN →
            -0.5 ≤ w'.target_wind_strength ∧ w'.target_wind_strength ≤ 0.5)
          ∧ (w'.current_weather = WEATHER_HEAVY_RAIN →
            -0.8 ≤ w'.target_wind_strength ∧ w'.target_wind_strength ≤ 0.8)
          ∧ (w'.current_weather = WEATHER_THUNDERSTORM →
            -1.0 ≤ w'.target_wind_strength ∧ w'.target_wind_strength ≤ 1.0))
      ∧ (w'.current_weather
            = ({ initial_world with target_weather := WEATHER_HEAVY_RAIN } : World).current_weather →
          w'.target_wind_strength
            = ({ initial_world with target_weather := WEATHER_HEAVY_RAIN } : World).target_wind_strength) :=
  tier_wind_range (const_env 1) 0 0 { initial_world with target_weather := WEATHER_HEAVY_RAIN }
    (({ initial_world with target_weather := WEATHER_HEAVY_RAIN } : World).tick 1)
    (weather_trigger_idle _ _ _ _ (Or.inl (by decide)))
    (by simp [rand, const_env, RAND_MAX])


/-! ## Leaf collision (C26) -/

/-- The comparison on squares used for `sqrtf(d) < r` agrees with the comparison
of the real square root. -/
theorem sqrtf_lt_iff (d r : ℚ) : sqrtf_lt d r = true ↔ Real.sqrt (d : ℝ) < (r : ℝ) := by
  unfold sqrtf_lt
  simp only [decide_eq_true_eq]
  constructor
  · rintro ⟨hr, hlt⟩
    have hr' : (0 : ℝ) < (r : ℝ) := by exact_mod_cast hr
    rw [Real.sqrt_lt' hr']
    have : (d : ℝ) < (r : ℝ) * (r : ℝ) := by exact_mod_cast hlt
    nlinarith
  · intro h
    have hr' : (0 : ℝ) < (r : ℝ) := lt_of_le_of_lt (Real.sqrt_nonneg _) h
    rw [Real.sqrt_lt' hr'] at h
    refine ⟨by exact_mod_cast hr', ?_⟩
    have : (d : ℝ) < (r : ℝ) * (r : ℝ) := by nlinarith
    exact_mod_cast this

theorem pad_hit_iff (w : World) (drop : Raindrop) (pad : LotusPad) :
    pad_hit w drop pad = true ↔
      |drop.z - pad.z| < 0.2
      ∧ Real.sqrt ((((project_x w drop.x drop.z - project_x w pad.x pad.z) ^ 2
            + (drop.y - pad.y) ^ 2 : ℚ) : ℝ))
          < ((pad.radius / (1 + 0.5 * |pad.tilt_angle|) : ℚ) : ℝ) := by
  unfold pad_hit
  simp only [fabsf_eq_abs]
  have e1 : (project_x w drop.x drop.z - project_x w pad.x pad.z)
        * (project_x w drop.x drop.z - project_x w pad.x pad.z)
        + (drop.y - pad.y) * (drop.y - pad.y)
      = (project_x w drop.x drop.z - project_x w pad.x pad.z) ^ 2 + (drop.y - pad.y) ^ 2 := by
    ring
  have e2 : (1.0 : ℚ) + |pad.tilt_angle| * 0.5 = 1 + 0.5 * |pad.tilt_angle| := by
    norm_num; ring
  by_cases hz : |drop.z - pad.z| < 0.2
  · rw [if_pos hz, sqrtf_lt_iff, e1, e2]
    exact ⟨fun h => ⟨hz, h⟩, fun h => h.2⟩
  · rw [if_neg hz]
    exact ⟨fun h => (by cases h), fun h => absurd h.1 hz⟩

theorem update_ripples_growth (t : Nat) (w : World) (i : Nat) (r : Ripple)
    (h : w.ripples[i]? = some r) :
    ∃ r2, (update_ripples t w).ripples[i]? = some r2 ∧ ripple_growth t r r2 := by
  apply forLoop_all_slots World.ripples (ripple_growth t) (update_ripples_body t) _ _ w i r h
  · intro k s a ha
    unfold update_ripples_body
    simp only [ha]
    by_cases hact : a.active = true
    · rw [if_pos hact]
      by_cases hage : u32sub t a.creation_time ≥ RIPPLE_LIFETIME
      · rw [if_pos hage]
        refine ⟨_, rfl, fun _ => ?_⟩
        have : ¬ u32sub t a.creation_time < RIPPLE_LIFETIME := by omega
        simp only [this, decide_False]
        rfl
      · rw [if_neg hage]
        refine ⟨_, rfl, fun _ => ?_⟩
        have : u32sub t a.creation_time < RIPPLE_LIFETIME := by omega
        simp only [this, decide_True]
        cases a
        simp only at hact
        subst hact
        rfl
    · rw [if_neg hact]
      exact ⟨a, (set_get_self _ _ _ ha).symm, fun h => absurd h hact⟩
  · intro k s hk
    unfold update_ripples_body
    simp only [hk]

theorem ripple_progress_eq (a : Nat) :
    ripple_progress a = min 1 (f32 (f32 (a : ℚ) / 2000)) := by
  unfold ripple_progress
  simp only [RIPPLE_LIFETIME]
  rw [show ((2000 : ℕ) : ℚ) = 2000 by norm_num, f32_2000]
  norm_num
  split_ifs with hc
  · rw [min_eq_left hc.le]
  · rw [min_eq_right (not_lt.mp hc)]

theorem ripple_progress_range (a : Nat) : 0 ≤ ripple_progress a ∧ ripple_progress a ≤ 1 := by
  rw [ripple_progress_eq]
  have h0 : (0 : ℚ) ≤ f32 (a : ℚ) := f32_nonneg (by positivity)
  have h1 : (0 : ℚ) ≤ f32 (f32 (a : ℚ) / 2000) := f32_nonneg (by positivity)
  exact ⟨le_min (by norm_num) h1, min_le_left _ _⟩

theorem ripple_progress_mono {a b : Nat} (h : a ≤ b) :
    ripple_progress a ≤ ripple_progress b := by
  rw [ripple_progress_eq, ripple_progress_eq]
  apply min_le_min le_rfl
  have hab : (a : ℚ) ≤ (b : ℚ) := by exact_mod_cast h
  have h0 : (0 : ℚ) ≤ f32 (a : ℚ) := f32_nonneg (by positivity)
  have h1 : f32 (a : ℚ) ≤ f32 (b : ℚ) := f32_mono (by positivity) hab
  exact f32_mono (by positivity) (by linarith)

theorem ripple_progress_zero : ripple_progress 0 = 0 := by
  rw [ripple_progress_eq]
  norm_num [f32_zero]

theorem ripple_progress_old {a : Nat} (h : 2000 ≤ a) : ripple_progress a = 1 := by
  rw [ripple_progress_eq]
  apply min_eq_left
  have ha : (2000 : ℚ) ≤ (a : ℚ) := by exact_mod_cast h
  have h1 : f32 2000 ≤ f32 (a : ℚ) := f32_mono (by norm_num) ha
  rw [f32_2000] at h1
  have h2 : f32 1 ≤ f32 (f32 (a : ℚ) / 2000) := f32_mono (by norm_num) (by linarith)
  rw [f32_one] at h2
  exact h2

/-- The `float` progress differs from the exact quotient by at most `3 / 2^24`. -/
theorem ripple_progress_error (a : Nat) :
    |ripple_progress a - min 1 ((a : ℚ) / 2000)| ≤ 3 / 2 ^ 24 := by
  rcases le_or_lt 2000 a with h | h
  · have ha : (2000 : ℚ) ≤ (a : ℚ) := by exact_mod_cast h
    rw [ripple_progress_old h, min_eq_left (by linarith)]
    norm_num
  · have ha : (a : ℚ) < 2000 := by exact_mod_cast h
    have ha0 : (0 : ℚ) ≤ (a : ℚ) := by positivity
    rw [ripple_progress_eq, min_eq_right (by linarith : (a : ℚ) / 2000 ≤ 1)]
    have e1 := f32_error (a : ℚ)
    have e2 := f32_error (f32 (a : ℚ) / 2000)
    have hq0 : (0 : ℚ) ≤ f32 (a : ℚ) / 2000 := div_nonneg (f32_nonneg ha0) (by norm_num)
    rw [abs_of_nonneg ha0] at e1
    rw [abs_of_nonneg hq0] at e2
    have a1 := abs_le.mp e1
    have a2 := abs_le.mp e2
    norm_num at a1 a2 ⊢
    rcases le_total 1 (f32 (f32 (a : ℚ) / 2000)) with hc | hc
    · rw [min_eq_left hc, abs_le]
      constructor <;> linarith [a1.1, a1.2, a2.1, a2.2]
    · rw [min_eq_right hc, abs_le]
      constructor <;> linarith [a1.1, a1.2, a2.1, a2.2]

theorem ripple_alpha_value_eq (a : Nat) :
    ripple_alpha_value a = f32 (255 * f32 (1 - ripple_progress a)) := by
  unfold ripple_alpha_value
  rw [f32_255]
  norm_num

theorem ripple_alpha_value_anti {a b : Nat} (h : a ≤ b) :
    ripple_alpha_value b ≤ ripple_alpha_value a := by
  rw [ripple_alpha_value_eq, ripple_alpha_value_eq]
  have hm := ripple_progress_mono h
  have hb := (ripple_progress_range b).2
  have h1 : f32 (1 - ripple_progress b) ≤ f32 (1 - ripple_progress a) :=
    f32_mono (by linarith) (by linarith)
  have h0 : 0 ≤ f32 (1 - ripple_progress b) := f32_nonneg (by linarith)
  exact f32_mono (by positivity) (by linarith)

theorem ripple_alpha_value_range (a : Nat) :
    0 ≤ ripple_alpha_value a ∧ ripple_alpha_value a ≤ 255 := by
  rw [ripple_alpha_value_eq]
  obtain ⟨p0, p1⟩ := ripple_progress_range a
  have h0 : 0 ≤ f32 (1 - ripple_progress a) := f32_nonneg (by linarith)
  have h1 : f32 (1 - ripple_progress a) ≤ f32 1 := f32_mono (by linarith) (by linarith)
  rw [f32_one] at h1
  refine ⟨f32_nonneg (by positivity), ?_⟩
  have := f32_mono (x := 255 * f32 (1 - ripple_progress a)) (y := 255) (by positivity)
    (by linarith)
  rw [f32_255] at this
  exact this

theorem ripple_alpha_value_zero : ripple_alpha_value 0 = 255 := by
  rw [ripple_alpha_value_eq, ripple_progress_zero]
  norm_num [f32_one, f32_255]

theorem ripple_alpha_value_old {a : Nat} (h : 2000 ≤ a) : ripple_alpha_value a = 0 := by
  rw [ripple_alpha_value_eq, ripple_progress_old h]
  norm_num [f32_zero]

/-- The `float` value converted to alpha is within `1 / 10000` of the exact
`255 * (1 - min(1, a / 2000))`. -/
theorem ripple_alpha_value_error (a : Nat) :
    |ripple_alpha_value a - 255 * (1 - min 1 ((a : ℚ) / 2000))| ≤ 1 / 10000 := by
  rcases le_or_lt 2000 a with h | h
  · have ha : (2000 : ℚ) ≤ (a : ℚ) := by exact_mod_cast h
    rw [ripple_alpha_value_old h, min_eq_left (by linarith)]
    norm_num
  · rw [ripple_alpha_value_eq]
    have ha : (a : ℚ) < 2000 := by exact_mod_cast h
    have hmin : min 1 ((a : ℚ) / 2000) = (a : ℚ) / 2000 :=
      min_eq_right (by linarith : (a : ℚ) / 2000 ≤ 1)
    have hp := abs_le.mp (ripple_progress_error a)
    rw [hmin] at hp ⊢
    obtain ⟨p0, p1⟩ := ripple_progress_range a
    have s0 : 0 ≤ f32 (1 - ripple_progress a) := f32_nonneg (by linarith)
    have s1 : f32 (1 - ripple_progress a) ≤ f32 1 := f32_mono (by linarith) (by linarith)
    rw [f32_one] at s1
    have e3 := f32_error (1 - ripple_progress a)
    have e4 := f32_error (255 * f32 (1 - ripple_progress a))
    rw [abs_of_nonneg (by linarith : 0 ≤ 1 - ripple_progress a)] at e3
    rw [abs_of_nonneg (by positivity : (0 : ℚ) ≤ 255 * f32 (1 - ripple_progress a))] at e4
    have a3 := abs_le.mp e3
    have a4 := abs_le.mp e4
    norm_num at hp a3 a4 ⊢
    rw [abs_le]
    constructor <;> linarith [hp.1, hp.2, a3.1, a3.2, a4.1, a4.2]
/-- The integer part of the `float` value converted to alpha is the integer part
of the exact `255 * (1 - min(1, a / 2000))` or one less, and it is the former
unless 400 divides the age. -/
theorem ripple_alpha_floor (a : Nat) :
    ⌊255 * (1 - min (1 : ℚ) ((a : ℚ) / 2000))⌋ - 1 ≤ ⌊ripple_alpha_value a⌋
    ∧ ⌊ripple_alpha_value a⌋ ≤ ⌊255 * (1 - min (1 : ℚ) ((a : ℚ) / 2000))⌋
    ∧ (¬ 400 ∣ a →
        ⌊ripple_alpha_value a⌋ = ⌊255 * (1 - min (1 : ℚ) ((a : ℚ) / 2000))⌋) := by
  rcases le_or_lt 2000 a with h | h
  · have ha : (2000 : ℚ) ≤ (a : ℚ) := by exact_mod_cast h
    rw [ripple_alpha_value_old h, min_eq_left (by linarith)]
    norm_num
  · have ha : (a : ℚ) < 2000 := by exact_mod_cast h
    have hmin : min 1 ((a : ℚ) / 2000) = (a : ℚ) / 2000 :=
      min_eq_right (by linarith : (a : ℚ) / 2000 ≤ 1)
    have herr := abs_le.mp (ripple_alpha_value_error a)
    rw [hmin] at herr ⊢
    have hv : 255 * (1 - (a : ℚ) / 2000) = ((102000 - 51 * (a : Int) : Int) : ℚ) / 400 := by
      push_cast; ring
    have hn1 := Int.floor_le (255 * (1 - (a : ℚ) / 2000))
    have hn2 := Int.lt_floor_add_one (255 * (1 - (a : ℚ) / 2000))
    generalize ⌊255 * (1 - (a : ℚ) / 2000)⌋ = n at hn1 hn2 ⊢
    rw [hv] at hn1 hn2 herr
    have i1 : 400 * n ≤ 102000 - 51 * (a : Int) := by
      have : ((400 * n : Int) : ℚ) ≤ ((102000 - 51 * (a : Int) : Int) : ℚ) := by
        push_cast at hn1 ⊢; linarith
      exact_mod_cast this
    have i2 : 102000 - 51 * (a : Int) < 400 * n + 400 := by
      have : ((102000 - 51 * (a : Int) : Int) : ℚ) < ((400 * n + 400 : Int) : ℚ) := by
        push_cast at hn2 ⊢; linarith
      exact_mod_cast this
    have i3 : ((102000 - 51 * (a : Int) : Int) : ℚ) ≤ ((400 * n + 399 : Int) : ℚ) := by
      exact_mod_cast (by omega : 102000 - 51 * (a : Int) ≤ 400 * n + 399)
    refine ⟨?_, ?_, ?_⟩
    · rw [Int.le_floor]
      push_cast at hn1 ⊢
      linarith [herr.1]
    · have : ⌊ripple_alpha_value a⌋ < n + 1 := by
        rw [Int.floor_lt]
        push_cast at i3 ⊢
        linarith [herr.2]
      omega
    · intro hdiv
      have hm : ¬ (400 : Int) ∣ 102000 - 51 * (a : Int) := by
        intro hd
        have h1 : (400 : Int) ∣ 51 * (a : Int) := by
          have := Int.dvd_sub (by norm_num : (400 : Int) ∣ 102000) hd
          simpa using this
        have h2 : (400 : Nat) ∣ 51 * a := by exact_mod_cast h1
        exact hdiv (Nat.Coprime.dvd_of_dvd_mul_left (by norm_num) h2)
      have i5 : 400 * n + 1 ≤ 102000 - 51 * (a : Int) := by
        rcases eq_or_lt_of_le i1 with h4 | h4
        · exact absurd ⟨n, h4.symm⟩ hm
        · exact Int.add_one_le_iff.mpr h4
      have i4 : ((400 * n + 1 : Int) : ℚ) ≤ ((102000 - 51 * (a : Int) : Int) : ℚ) :=
        (Int.cast_le (R := ℚ)).mpr i5
      have lo : n ≤ ⌊ripple_alpha_value a⌋ := by
        rw [Int.le_floor]
        push_cast at i4 ⊢
        linarith [herr.1]
      have hi : ⌊ripple_alpha_value a⌋ < n + 1 := by
        rw [Int.floor_lt]
        push_cast at i3 ⊢
        linarith [herr.2]
      exact le_antisymm (Int.lt_add_one_iff.mp hi) lo

theorem ripple_alpha_value_1200 : ripple_alpha_value 1200 = 13369343 / 131072 := by
  have h1 : f32 (1200 : ℚ) = 1200 := by
    rw [f32_eval 10 9830400 (by norm_num) (by norm_num) (by norm_num) (by norm_num)
      (by norm_num)]
    norm_num
  have h2 : f32 ((1200 : ℚ) / 2000) = 5033165 / 8388608 := by
    rw [f32_eval (-1) 10066330 (by norm_num) (by norm_num [abs_of_pos])
      (by norm_num [abs_of_pos]) (by norm_num) (by norm_num)]
    norm_num
  have h3 : f32 ((1 : ℚ) - 5033165 / 8388608) = 3355443 / 8388608 := by
    rw [f32_eval (-2) 13421772 (by norm_num) (by norm_num [abs_of_pos])
      (by norm_num [abs_of_pos]) (by norm_num) (by norm_num)]
    norm_num
  have h4 : f32 ((255 : ℚ) * (3355443 / 8388608)) = 13369343 / 131072 := by
    rw [f32_eval 6 13369343 (by norm_num) (by norm_num [abs_of_pos])
      (by norm_num [abs_of_pos]) (by norm_num) (by norm_num)]
    norm_num
  have hp : ripple_progress 1200 = 5033165 / 8388608 := by
    rw [ripple_progress_eq, show ((1200 : ℕ) : ℚ) = 1200 by norm_num, h1, h2]
    norm_num
  rw [ripple_alpha_value_eq, hp, h3, h4]

/-- C25 (counterexample): a ripple created at time 0 and updated at time 1200 has
age 1200; `1200 / 2000` rounds up to the `float` 0.60000002, so the `float` value
of `255 * (1 - progress)` is just below 102 and the alpha stored is 101, while the
integer part of `255 * (1 - min(1, 1200 / 2000))` is 102. -/
theorem update_ripples_alpha_off_by_one :
    ∃ r2, (update_ripples 1200 one_ripple_world).ripples[0]? = some r2
      ∧ u32sub 1200 0 = 1200
      ∧ r2.color.a = 101
      ∧ ⌊255 * (1 - min (1 : ℚ) (((1200 : Nat) : ℚ) / 2000))⌋ = 102 := by
  obtain ⟨r2, h2, hg⟩ := update_ripples_growth 1200 one_ripple_world 0 _
    (List.getElem?_cons_zero (l := List.replicate 499 zero_ripple))
  have e2 := hg rfl
  refine ⟨r2, h2, by decide, ?_, ?_⟩
  · have ha : r2.color.a = castU8 (ripple_alpha_value (u32sub 1200 0)) := by rw [e2]; rfl
    have hu : u32sub 1200 0 = 1200 := by decide
    rw [ha, hu, ripple_alpha_value_1200]
    have : (castU8 (13369343 / 131072) : Int) = 101 := by
      rw [castU8_of_range (by norm_num) (by norm_num), Int.floor_eq_iff]
      norm_num
    exact_mod_cast this
  · rw [Int.floor_eq_iff]
    norm_num

/-- C25 (amended): after `update_ripples(now)`, a ripple that was active on entry,
with age `a = now - creation_time` (unsigned), has
`radius = max_radius * progress` rounded to `float`, where `progress` is the
`float` quotient `a / 2000` capped at 1 and differs from `min(1, a/2000)` by at
most `3 / 2^24`; its alpha is the integer part of the `float` value of
`255 * (1 - progress)`, whatever alpha it had before, which is within `1 / 10000`
of `255 * (1 - min(1, a/2000))`: alpha is the integer part of that exact value or
one less, and it is the exact integer part unless 400 divides `a`; alpha is 255
at age 0 and 0 from age 2000 on; `x`, `y`, `z`, `max_radius` and the `r`, `g`, `b`
channels are unchanged; for non-negative `max_radius` the radius lies between 0
and `max_radius` rounded to `float` and is within `max_radius / 2^22 + 2^-150` of
`max_radius * min(1, a/2000)`; and between two calls made on the same state at
times of increasing age the radius does not decrease (for non-negative
`max_radius`) and alpha does not increase. -/
theorem update_ripples_growth_and_fade (t : Nat) (w : World) (i : Nat) (r : Ripple)
    (h : w.ripples[i]? = some r) (hact : r.active = true) :
    ∃ r2, (update_ripples t w).ripples[i]? = some r2
      ∧ r2.radius = f32 (r.max_radius * ripple_progress (u32sub t r.creation_time))
      ∧ |ripple_progress (u32sub t r.creation_time)
            - min 1 ((u32sub t r.creation_time : ℚ) / 2000)| ≤ 3 / 2 ^ 24
      ∧ (r2.color.a : Int) = ⌊ripple_alpha_value (u32sub t r.creation_time)⌋
      ∧ |ripple_alpha_value (u32sub t r.creation_time)
            - 255 * (1 - min 1 ((u32sub t r.creation_time : ℚ) / 2000))| ≤ 1 / 10000
      ∧ ⌊255 * (1 - min (1 : ℚ) ((u32sub t r.creation_time : ℚ) / 2000))⌋ - 1
          ≤ (r2.color.a : Int)
      ∧ (r2.color.a : Int)
          ≤ ⌊255 * (1 - min (1 : ℚ) ((u32sub t r.creation_time : ℚ) / 2000))⌋
      ∧ (¬ 400 ∣ u32sub t r.creation_time →
          (r2.color.a : Int)
            = ⌊255 * (1 - min (1 : ℚ) ((u32sub t r.creation_time : ℚ) / 2000))⌋)
      ∧ (u32sub t r.creation_time = 0 → r2.color.a = 255)
      ∧ (u32sub t r.creation_time ≥ 2000 → r2.color.a = 0)
      ∧ (r2.x = r.x ∧ r2.y = r.y ∧ r2.z = r.z ∧ r2.max_radius = r.max_radius
          ∧ r2.color.r = r.color.r ∧ r2.color.g = r.color.g ∧ r2.color.b = r.color.b)
      ∧ (0 ≤ r.max_radius →
          0 ≤ r2.radius ∧ r2.radius ≤ f32 r.max_radius
          ∧ |r2.radius - r.max_radius * min 1 ((u32sub t r.creation_time : ℚ) / 2000)|
              ≤ r.max_radius / 2 ^ 22 + 1 / 2 ^ 150)
      ∧ (∀ (t' : Nat) (r3 : Ripple), (update_ripples t' w).ripples[i]? = some r3 →
          u32sub t r.creation_time ≤ u32sub t' r.creation_time →
          r3.color.a ≤ r2.color.a ∧ (0 ≤ r.max_radius → r2.radius ≤ r3.radius)) := by
  obtain ⟨r2, h2, hg⟩ := update_ripples_growth t w i r h
  have e2 := hg hact
  obtain ⟨p0, p1⟩ := ripple_progress_range (u32sub t r.creation_time)
  obtain ⟨v0, v1⟩ := ripple_alpha_value_range (u32sub t r.creation_time)
  obtain ⟨f1, f2, f3⟩ := ripple_alpha_floor (u32sub t r.creation_time)
  have ha : r2.color.a = castU8 (ripple_alpha_value (u32sub t r.creation_time)) := by
    rw [e2]
  have hr : r2.radius = f32 (r.max_radius * ripple_progress (u32sub t r.creation_time)) := by
    rw [e2]
  have hfl : (r2.color.a : Int) = ⌊ripple_alpha_value (u32sub t r.creation_time)⌋ := by
    rw [ha]; exact castU8_of_range v0 (by linarith)
  refine ⟨r2, h2, hr, ripple_progress_error _, hfl, ripple_alpha_value_error _, ?_, ?_, ?_,
    ?_, ?_, ?_, ?_, ?_⟩
  · rw [hfl]; exact f1
  · rw [hfl]; exact f2
  · intro hd; rw [hfl]; exact f3 hd
  · intro h0
    have : (r2.color.a : Int) = 255 := by
      rw [hfl, h0, ripple_alpha_value_zero]
      norm_num
    exact_mod_cast this
  · intro h0
    have : (r2.color.a : Int) = 0 := by
      rw [hfl, ripple_alpha_value_old h0]
      norm_num
    exact_mod_cast this
  · rw [e2]; exact ⟨rfl, rfl, rfl, rfl, rfl, rfl, rfl⟩
  · intro hm
    have hprod0 : 0 ≤ r.max_radius * ripple_progress (u32sub t r.creation_time) :=
      mul_nonneg hm p0
    have hprod1 : r.max_radius * ripple_progress (u32sub t r.creation_time) ≤ r.max_radius := by
      nlinarith
    rw [hr]
    refine ⟨f32_nonneg hprod0, f32_mono hprod0 hprod1, ?_⟩
    have e1 := f32_error (r.max_radius * ripple_progress (u32sub t r.creation_time))
    rw [abs_of_nonneg hprod0] at e1
    have a1 := abs_le.mp e1
    have a2 := abs_le.mp (ripple_progress_error (u32sub t r.creation_time))
    have k1 := mul_le_mul_of_nonneg_left a2.1 hm
    have k2 := mul_le_mul_of_nonneg_left a2.2 hm
    norm_num at a1 k1 k2 ⊢
    rw [abs_le]
    constructor <;> linarith [a1.1, a1.2]
  · intro t' r3 h3 hle
    obtain ⟨r3', h3', hg'⟩ := update_ripples_growth t' w i r h
    rw [h3] at h3'
    cases h3'
    have e3 := hg' hact
    have hmono := ripple_progress_mono hle
    obtain ⟨q0, q1⟩ := ripple_progress_range (u32sub t' r.creation_time)
    obtain ⟨u0, u1⟩ := ripple_alpha_value_range (u32sub t' r.creation_time)
    constructor
    · rw [ha, e3]
      exact castU8_mono u0 (ripple_alpha_value_anti hle) (by linarith)
    · intro hm
      rw [hr, e3]
      exact f32_mono (mul_nonneg hm p0) (mul_le_mul_of_nonneg_left hmono hm)

theorem update_ripples_growth_and_fade_witness :
    ∃ r2, (update_ripples 500 one_ripple_world).ripples[0]? = some r2
      ∧ r2.radius = f32 (40 * ripple_progress (u32sub 500 0))
      ∧ (r2.color.a : Int) = ⌊ripple_alpha_value (u32sub 500 0)⌋
      ∧ (r2.color.a : Int) = ⌊255 * (1 - min (1 : ℚ) ((u32sub 500 0 : ℚ) / 2000))⌋ :=
  let ⟨r2, h2, hr, _, hfl, _, _, _, heq, _⟩ := update_ripples_growth_and_fade 500
    one_ripple_world 0
    { zero_ripple with
      active := true, max_radius := 40, color := { r := 200, g := 220, b := 255, a := 255 } }
    (List.getElem?_cons_zero (l := List.replicate 499 zero_ripple)) rfl
  ⟨r2, h2, hr, hfl, heq (by decide)⟩


/-! ## The colour of the ripple made by `create_raindrop` (C30) -/

theorem get_random_color_bright (e : Env) (w : World) :
    150 ≤ (get_random_color e w).1.r ∧ (get_random_color e w).1.r ≤ 254 := by
  unfold get_random_color intU8
  simp only
  omega

/-- The ripple made by `create_raindrop(true)` has the colour that the reused
raindrop slot held on entry, while the drop gets a fresh random colour. -/
theorem create_raindrop_colours (e : Env) (w : World) (i j : Nat)
    (hi : firstFree Raindrop.active w.raindrops = some i)
    (hj : firstFree Ripple.active w.ripples = some j) :
    ((create_raindrop e true w).ripples.getD j default).color
        = (w.raindrops.getD i default).color
    ∧ 150 ≤ ((create_raindrop e true w).raindrops.getD i default).color.r := by
  have hil := firstFree_lt _ _ _ hi
  have hjl := firstFree_lt _ _ _ hj
  have hb := fun v => (get_random_color_bright e v).1
  have h2 : ∀ v, (get_random_color e v).2 = v.tick 4 := fun _ => rfl
  simp only [create_raindrop, hi, if_true, create_ripple, h2, World.tick, hj,
    List.set_set, getD_set_self _ _ _ _ hil, getD_set_self _ _ _ _ hjl]
  first | exact hb _ | exact ⟨trivial, hb _⟩

/-- C30: at program start, for every sequence of random draws, `create_raindrop(true)`
fills raindrop slot 0 and ripple slot 0, and the ripple's colour is the all-zero
colour that the raindrop slot held before the call, not the colour of the new
drop, whose red channel is at least 150. -/
theorem create_raindrop_ripple_colour_stale (e : Env) :
    ∃ (d : Raindrop) (rp : Ripple),
      (create_raindrop e true initial_world).raindrops[0]? = some d
      ∧ (create_raindrop e true initial_world).ripples[0]? = some rp
      ∧ d.active = true ∧ rp.active = true
      ∧ rp.color = zero_color
      ∧ 150 ≤ d.color.r
      ∧ rp.color ≠ d.color := by
  have hi : firstFree Raindrop.active initial_world.raindrops = some 0 :=
    firstFree_replicate _ _ 999 rfl
  have hj : firstFree Ripple.active initial_world.ripples = some 0 :=
    firstFree_replicate _ _ 499 rfl
  obtain ⟨c1, c2⟩ := create_raindrop_colours e initial_world 0 0 hi hj
  have hd0 : initial_world.raindrops.getD 0 default = zero_raindrop := rfl
  rw [hd0] at c1
  have hil : 0 < initial_world.raindrops.length := firstFree_lt _ _ _ hi
  have hjl : 0 < initial_world.ripples.length := firstFree_lt _ _ _ hj
  have hd : (create_raindrop e true initial_world).raindrops[0]?
      = some ((create_raindrop e true initial_world).raindrops.getD 0 default)
      ∧ ((create_raindrop e true initial_world).raindrops.getD 0 default).active = true
      ∧ (create_raindrop e true initial_world).ripples[0]?
      = some ((create_raindrop e true initial_world).ripples.getD 0 default)
      ∧ ((create_raindrop e true initial_world).ripples.getD 0 default).active = true := by
    have h2 : ∀ v, (get_random_color e v).2 = v.tick 4 := fun _ => rfl
    simp only [create_raindrop, hi, if_true, create_ripple, h2, World.tick, hj,
      List.set_set, getD_set_self _ _ _ _ hil, getD_set_self _ _ _ _ hjl,
      List.getElem?_set_self hil, List.getElem?_set_self hjl]
    exact ⟨trivial, trivial, trivial, trivial⟩
  refine ⟨_, _, hd.1, hd.2.2.1, hd.2.1, hd.2.2.2, c1, c2, ?_⟩
  intro h
  rw [← h, c1] at c2
  exact absurd c2 (by decide)


/-! ## Water-line impact and leaf-collision sampling (C27, C28) -/

/-- The loop body of `update_raindrops` on a slot that holds an airborne drop. -/
theorem update_raindrops_body_airborne (e : Env) (t : Nat) (dt : ℚ) (i : Nat) (w : World)
    (d : Raindrop) (h : w.raindrops[i]? = some d) (hact : d.active = true)
    (hair : d.in_water = false) :
    update_raindrops_body e t dt i w =
      if Int.tmod w.raindrop_count 5 = 0
          ∧ check_raindrop_lotus_collision w (moved_raindrop e dt w d) = true then
        create_splash e (moved_raindrop e dt w d).x (moved_raindrop e dt w d).y
          (moved_raindrop e dt w d).z (moved_raindrop e dt w d).color
          { wind_drawn w with raindrops := (w.raindrops.set i
              { moved_raindrop e dt w d with in_water := true, water_time := t }) }
      else if (moved_raindrop e dt w d).y ≥ (POND_HEIGHT : ℚ) then
        create_ripple e (moved_raindrop e dt w d).x (POND_HEIGHT : ℚ)
          (moved_raindrop e dt w d).z (moved_raindrop e dt w d).color
          { wind_drawn w with raindrops := (w.raindrops.set i
              { moved_raindrop e dt w d with in_water := true, water_time := t }) }
      else { wind_drawn w with raindrops := w.raindrops.set i (moved_raindrop e dt w d) } := by
  unfold update_raindrops_body moved_raindrop wind_drawn
  simp only [h, hact, hair, if_true, Bool.not_false]
  by_cases hh : w.current_weather ≥ WEATHER_HEAVY_RAIN
  · simp only [hh, decide_True, if_true]
    rfl
  · simp only [hh, decide_False, if_false, Bool.false_eq_true]


theorem create_splash_frame_globals (e : Env) (x y z : ℚ) (color : SDL_Color) (w : World) :
    (create_splash e x y z color w).raindrop_count = w.raindrop_count
    ∧ (create_splash e x y z color w).ripple_count = w.ripple_count
    ∧ (create_splash e x y z color w).lotus_pads = w.lotus_pads
    ∧ (create_splash e x y z color w).camera_x = w.camera_x := by
  simp only [create_splash]
  exact create_splash_loop_induct e x y z color
    (fun v => v.raindrop_count = w.raindrop_count ∧ v.ripple_count = w.ripple_count
      ∧ v.lotus_pads = w.lotus_pads ∧ v.camera_x = w.camera_x)
    (fun j v _ hv => hv) _ _ _ _ (le_refl _) ⟨rfl, rfl, rfl, rfl⟩

theorem create_ripple_frame_globals (e : Env) (x y z : ℚ) (color : SDL_Color) (w : World) :
    (create_ripple e x y z color w).lotus_pads = w.lotus_pads
    ∧ (create_ripple e x y z color w).camera_x = w.camera_x := by
  unfold create_ripple
  cases firstFree Ripple.active w.ripples <;> simp [World.tick]

theorem wind_drawn_frame (w : World) :
    (wind_drawn w).raindrops = w.raindrops ∧ (wind_drawn w).ripples = w.ripples
    ∧ (wind_drawn w).splashes = w.splashes ∧ (wind_drawn w).raindrop_count = w.raindrop_count
    ∧ (wind_drawn w).ripple_count = w.ripple_count
    ∧ (wind_drawn w).lotus_pads = w.lotus_pads ∧ (wind_drawn w).camera_x = w.camera_x
    ∧ (wind_drawn w).splash_count = w.splash_count := by
  unfold wind_drawn
  split_ifs <;> exact ⟨rfl, rfl, rfl, rfl, rfl, rfl, rfl, rfl⟩

theorem update_raindrops_fall (e : Env) (t : Nat) (dt : ℚ) (w : World) (i : Nat) (d : Raindrop)
    (h : w.raindrops[i]? = some d) :
    ∃ d2, (update_raindrops e t dt w).raindrops[i]? = some d2 ∧ raindrop_fall t dt d d2 := by
  apply forLoop_all_slots World.raindrops (raindrop_fall t dt) (update_raindrops_body e t dt) _ _
    w i d h
  · intro k v a ha
    by_cases hact : a.active = true
    · by_cases hw : a.in_water = true
      · have hb : ∃ b, (update_raindrops_body e t dt k v).raindrops = v.raindrops.set k b := by
          unfold update_raindrops_body
          simp only [ha, hact, hw, if_true, Bool.not_true, Bool.false_eq_true, if_false]
          split_ifs
          · exact ⟨_, rfl⟩
          · exact ⟨a, (set_get_self _ _ _ ha).symm⟩
        obtain ⟨b, hb⟩ := hb
        exact ⟨b, hb, fun _ h2 => by rw [hw] at h2; cases h2⟩
      · have hw2 : a.in_water = false := by simpa using hw
        rw [update_raindrops_body_airborne e t dt k v a ha hact hw2]
        split_ifs with h1 h2
        · rw [(create_splash_frame _ _ _ _ _ _).1]
          refine ⟨_, rfl, fun _ _ => ⟨hact, rfl, rfl, rfl, fun _ => rfl, fun _ => rfl⟩⟩
        · rw [(create_ripple_frame _ _ _ _ _ _).1]
          refine ⟨_, rfl, fun _ _ => ⟨hact, rfl, rfl, rfl, fun _ => rfl, fun _ => rfl⟩⟩
        · refine ⟨_, rfl, fun _ _ => ⟨hact, rfl, rfl, rfl, fun h3 => absurd h3 h2, fun h3 => ?_⟩⟩
          rw [show (moved_raindrop e dt v a).in_water = a.in_water from rfl, hw2] at h3
          cases h3
    · refine ⟨a, ?_, fun h1 => absurd h1 hact⟩
      unfold update_raindrops_body
      simp only [ha, hact, Bool.false_eq_true, if_false]
      exact (set_get_self _ _ _ ha).symm
  · intro k v hk
    unfold update_raindrops_body
    simp only [hk]


/-- Per-slot effect of a loop over a pool whose body keeps an invariant of the
state. -/
theorem forLoop_slots_inv {σ α : Type} (get : σ → List α) (R : α → α → Prop) (Inv : σ → Prop)
    (body : Nat → σ → σ)
    (hinv : ∀ k s, Inv s → Inv (body k s))
    (hbody : ∀ k s a, Inv s → (get s)[k]? = some a →
      ∃ b, get (body k s) = (get s).set k b ∧ R a b)
    (hnone : ∀ k s, (get s)[k]? = none → get (body k s) = get s) :
    ∀ (n lo : Nat) (s : σ) (i : Nat) (a : α), Inv s → (get s)[i]? = some a →
      ((lo ≤ i ∧ i < lo + n) → ∃ b, (get (forLoop body lo n s))[i]? = some b ∧ R a b)
      ∧ (¬ (lo ≤ i ∧ i < lo + n) → (get (forLoop body lo n s))[i]? = some a)
  | 0, lo, s, i, a, _, ha => by
    refine ⟨fun h => ?_, fun _ => ha⟩
    omega
  | n + 1, lo, s, i, a, hs, ha => by
    simp only [forLoop]
    by_cases hi : i = lo
    · subst hi
      obtain ⟨b, hb, hR⟩ := hbody i s a hs ha
      have hlt : i < (get s).length := (List.getElem?_eq_some.mp ha).1
      have hb2 : (get (body i s))[i]? = some b := by
        rw [hb, List.getElem?_set_self hlt]
      have ih := forLoop_slots_inv get R Inv body hinv hbody hnone n (i + 1) (body i s) i b
        (hinv i s hs) hb2
      refine ⟨fun _ => ⟨b, ih.2 (by omega), hR⟩, fun h => ?_⟩
      omega
    · have hs2 : (get (body lo s))[i]? = some a := by
        cases hlo : (get s)[lo]? with
        | none => rw [hnone lo s hlo]; exact ha
        | some c =>
          obtain ⟨b, hb, -⟩ := hbody lo s c hs hlo
          rw [hb, List.getElem?_set_ne (fun h => hi h.symm)]
          exact ha
      have ih := forLoop_slots_inv get R Inv body hinv hbody hnone n (lo + 1) (body lo s) i a
        (hinv lo s hs) hs2
      refine ⟨fun h => ih.1 (by omega), fun h => ih.2 (by omega)⟩

theorem check_raindrop_lotus_collision_congr (v w : World) (d : Raindrop)
    (hp : v.lotus_pads = w.lotus_pads) (hc : v.camera_x = w.camera_x) :
    check_raindrop_lotus_collision v d = check_raindrop_lotus_collision w d := by
  unfold check_raindrop_lotus_collision
  rw [hp]
  congr 1
  funext pad
  unfold pad_hit project_x
  rw [hc]

/-- Outside heavy rain and thunderstorm the moved drop depends on the state only
through `wind_strength`. -/
theorem moved_raindrop_congr (e : Env) (dt : ℚ) (v w : World) (d : Raindrop)
    (hs : v.wind_strength = w.wind_strength) (hc : v.current_weather = w.current_weather)
    (hcalm : w.current_weather < WEATHER_HEAVY_RAIN) :
    moved_raindrop e dt v d = moved_raindrop e dt w d := by
  unfold moved_raindrop
  simp only [hs, hc, if_neg (not_le.mpr hcalm)]

theorem create_splash_frame_weather (e : Env) (x y z : ℚ) (color : SDL_Color) (w : World) :
    (create_splash e x y z color w).wind_strength = w.wind_strength
    ∧ (create_splash e x y z color w).current_weather = w.current_weather := by
  simp only [create_splash]
  exact create_splash_loop_induct e x y z color
    (fun v => v.wind_strength = w.wind_strength ∧ v.current_weather = w.current_weather)
    (fun j v _ hv => hv) _ _ _ _ (le_refl _) ⟨rfl, rfl⟩

theorem create_ripple_frame_weather (e : Env) (x y z : ℚ) (color : SDL_Color) (w : World) :
    (create_ripple e x y z color w).wind_strength = w.wind_strength
    ∧ (create_ripple e x y z color w).current_weather = w.current_weather := by
  unfold create_ripple
  cases firstFree Ripple.active w.ripples <;> simp [World.tick]

/-- The loop body of `update_raindrops` writes neither the wind nor the tier. -/
theorem update_raindrops_body_weather (e : Env) (t : Nat) (dt : ℚ) (k : Nat) (v : World) :
    (update_raindrops_body e t dt k v).wind_strength = v.wind_strength
    ∧ (update_raindrops_body e t dt k v).current_weather = v.current_weather := by
  have hw : (wind_drawn v).wind_strength = v.wind_strength
      ∧ (wind_drawn v).current_weather = v.current_weather := by
    unfold wind_drawn
    split_ifs <;> exact ⟨rfl, rfl⟩
  cases ha : v.raindrops[k]? with
  | none =>
    unfold update_raindrops_body
    simp only [ha]
    exact ⟨trivial, trivial⟩
  | some a =>
    by_cases hact : a.active = true
    · by_cases hin : a.in_water = true
      · unfold update_raindrops_body
        simp only [ha, hact, hin, if_true, Bool.not_true, Bool.false_eq_true, if_false]
        split_ifs <;> exact ⟨rfl, rfl⟩
      · have hin2 : a.in_water = false := by simpa using hin
        rw [update_raindrops_body_airborne e t dt k v a ha hact hin2]
        split_ifs
        · rw [(create_splash_frame_weather _ _ _ _ _ _).1,
            (create_splash_frame_weather _ _ _ _ _ _).2]
          exact hw
        · rw [(create_ripple_frame_weather _ _ _ _ _ _).1,
            (create_ripple_frame_weather _ _ _ _ _ _).2]
          exact hw
        · exact hw
    · unfold update_raindrops_body
      simp only [ha, hact, Bool.false_eq_true, if_false]
      exact ⟨trivial, trivial⟩

theorem NoExpiry_set (t : Nat) (v v' : World) (k : Nat) (b : Raindrop)
    (h : NoExpiry t v) (hr : v'.raindrops = v.raindrops.set k b)
    (hb : b.in_water = true → b.water_time = t) : NoExpiry t v' := by
  intro d hd hact hw
  rw [hr] at hd
  rcases List.mem_or_eq_of_mem_set hd with hm | rfl
  · exact h d hm hact hw
  · rw [hb hw, u32sub_self]
    omega

/-- The loop body of `update_raindrops` changes neither `raindrop_count` nor the
pads nor the camera as long as no drop in water is old enough to be released. -/
theorem update_raindrops_body_steady (e : Env) (t : Nat) (dt : ℚ) (k : Nat) (v : World)
    (hne : NoExpiry t v) :
    (update_raindrops_body e t dt k v).raindrop_count = v.raindrop_count
    ∧ (update_raindrops_body e t dt k v).lotus_pads = v.lotus_pads
    ∧ (update_raindrops_body e t dt k v).camera_x = v.camera_x
    ∧ NoExpiry t (update_raindrops_body e t dt k v) := by
  obtain ⟨f1, -, -, f4, -, f6, f7, -⟩ := wind_drawn_frame v
  cases ha : v.raindrops[k]? with
  | none =>
    unfold update_raindrops_body
    simp only [ha]
    exact ⟨trivial, trivial, trivial, hne⟩
  | some a =>
    by_cases hact : a.active = true
    · by_cases hw : a.in_water = true
      · have hold := hne a (List.mem_iff_getElem?.mpr ⟨k, ha⟩) hact hw
        unfold update_raindrops_body
        simp only [ha, hact, hw, if_true, Bool.not_true, Bool.false_eq_true, if_false]
        rw [if_neg (by omega)]
        exact ⟨rfl, rfl, rfl, hne⟩
      · have hw2 : a.in_water = false := by simpa using hw
        rw [update_raindrops_body_airborne e t dt k v a ha hact hw2]
        split_ifs with h1 h2
        · obtain ⟨g1, -, g3, g4⟩ := create_splash_frame_globals e (moved_raindrop e dt v a).x
            (moved_raindrop e dt v a).y (moved_raindrop e dt v a).z (moved_raindrop e dt v a).color
            { wind_drawn v with raindrops := (v.raindrops.set k
              { moved_raindrop e dt v a with in_water := true, water_time := t }) }
          refine ⟨by rw [g1]; exact f4, by rw [g3]; exact f6, by rw [g4]; exact f7, ?_⟩
          exact NoExpiry_set t v _ k _ hne (create_splash_frame _ _ _ _ _ _).1 (fun _ => rfl)
        · obtain ⟨g1, g2⟩ := create_ripple_frame_globals e (moved_raindrop e dt v a).x
            (POND_HEIGHT : ℚ) (moved_raindrop e dt v a).z (moved_raindrop e dt v a).color
            { wind_drawn v with raindrops := (v.raindrops.set k
              { moved_raindrop e dt v a with in_water := true, water_time := t }) }
          refine ⟨by rw [(create_ripple_frame _ _ _ _ _ _).2.2.2.1]; exact f4,
            by rw [g1]; exact f6, by rw [g2]; exact f7, ?_⟩
          exact NoExpiry_set t v _ k _ hne (create_ripple_frame _ _ _ _ _ _).1 (fun _ => rfl)
        · refine ⟨f4, f6, f7, ?_⟩
          refine NoExpiry_set t v _ k (moved_raindrop e dt v a) hne rfl (fun h3 => ?_)
          rw [show (moved_raindrop e dt v a).in_water = a.in_water from rfl, hw2] at h3
          cases h3
    · unfold update_raindrops_body
      simp only [ha, hact, Bool.false_eq_true, if_false]
      exact ⟨trivial, trivial, trivial, hne⟩


/-- With `raindrop_count` a multiple of 5, no drop due for release and a tier
below heavy rain (no random wind), `update_raindrops` marks in water every
airborne drop that touches a pad after its move, whatever its position in the
pool. -/
theorem update_raindrops_all_hit (e : Env) (t : Nat) (dt : ℚ) (w : World)
    (hmod : Int.tmod w.raindrop_count 5 = 0) (hne : NoExpiry t w)
    (hcalm : w.current_weather < WEATHER_HEAVY_RAIN)
    (i : Nat) (d : Raindrop) (h : w.raindrops[i]? = some d) (hact : d.active = true)
    (hair : d.in_water = false)
    (hhit : check_raindrop_lotus_collision w (moved_raindrop e dt w d) = true) :
    (update_raindrops e t dt w).raindrops[i]?
      = some { moved_raindrop e dt w d with in_water := true, water_time := t } := by
  have hlt : i < w.raindrops.length := (List.getElem?_eq_some.mp h).1
  have key := (forLoop_slots_inv World.raindrops
    (fun a b => a.active = true → a.in_water = false →
      check_raindrop_lotus_collision w (moved_raindrop e dt w a) = true →
      b = { moved_raindrop e dt w a with in_water := true, water_time := t })
    (fun v => v.raindrop_count = w.raindrop_count ∧ v.lotus_pads = w.lotus_pads
      ∧ v.camera_x = w.camera_x ∧ NoExpiry t v
      ∧ v.wind_strength = w.wind_strength ∧ v.current_weather = w.current_weather)
    (update_raindrops_body e t dt) ?_ ?_ ?_ w.raindrops.length 0 w i d
    ⟨rfl, rfl, rfl, hne, rfl, rfl⟩ h).1 ⟨Nat.zero_le _, by omega⟩
  · obtain ⟨b, hb, hR⟩ := key
    unfold update_raindrops
    rw [hb, hR hact hair hhit]
  · intro k v ⟨h1, h2, h3, h4, h5, h6⟩
    obtain ⟨a1, a2, a3, a4⟩ := update_raindrops_body_steady e t dt k v h4
    obtain ⟨a5, a6⟩ := update_raindrops_body_weather e t dt k v
    exact ⟨by rw [a1, h1], by rw [a2, h2], by rw [a3, h3], a4, by rw [a5, h5], by rw [a6, h6]⟩
  · intro k v a ⟨h1, h2, h3, h4, h5, h6⟩ ha
    by_cases hact : a.active = true
    · by_cases hw : a.in_water = true
      · have hb : ∃ b, (update_raindrops_body e t dt k v).raindrops = v.raindrops.set k b := by
          unfold update_raindrops_body
          simp only [ha, hact, hw, if_true, Bool.not_true, Bool.false_eq_true, if_false]
          split_ifs
          · exact ⟨_, rfl⟩
          · exact ⟨a, (set_get_self _ _ _ ha).symm⟩
        obtain ⟨b, hb⟩ := hb
        exact ⟨b, hb, fun _ h2 => by rw [hw] at h2; cases h2⟩
      · have hw2 : a.in_water = false := by simpa using hw
        rw [update_raindrops_body_airborne e t dt k v a ha hact hw2,
          moved_raindrop_congr e dt v w a h5 h6 hcalm,
          check_raindrop_lotus_collision_congr v w _ h2 h3, h1]
        by_cases hc : check_raindrop_lotus_collision w (moved_raindrop e dt w a) = true
        · rw [if_pos ⟨hmod, hc⟩, (create_splash_frame _ _ _ _ _ _).1]
          exact ⟨_, rfl, fun _ _ _ => rfl⟩
        · rw [if_neg (fun h5 => hc h5.2)]
          split_ifs
          · rw [(create_ripple_frame _ _ _ _ _ _).1]
            exact ⟨_, rfl, fun _ _ h5 => absurd h5 hc⟩
          · exact ⟨_, rfl, fun _ _ h5 => absurd h5 hc⟩
    · refine ⟨a, ?_, fun h1 => absurd h1 hact⟩
      unfold update_raindrops_body
      simp only [ha, hact, Bool.false_eq_true, if_false]
      exact (set_get_self _ _ _ ha).symm
  · intro k v hk
    unfold update_raindrops_body
    simp only [hk]

/-- The drop of `leaf_world` after one frame of 1/60 s: it has fallen from
`y = 300` to `y = 305`. -/
theorem leaf_drop_moved (e : Env) :
    moved_raindrop e (1 / 60) leaf_world leaf_drop = { leaf_drop with y := 305 } := by
  unfold moved_raindrop
  have hcalm : ¬ leaf_world.current_weather ≥ WEATHER_HEAVY_RAIN := by decide
  simp only [if_neg hcalm]
  simp only [leaf_drop, zero_raindrop, leaf_world, initial_world]
  norm_num

theorem leaf_world_hit :
    check_raindrop_lotus_collision leaf_world { leaf_drop with y := 305 } = true := by
  unfold check_raindrop_lotus_collision leaf_world
  simp only [List.any_cons]
  have : pad_hit { initial_world with
      raindrops := List.replicate 5 leaf_drop ++ List.replicate 995 zero_raindrop
      lotus_pads := leaf_pad :: List.replicate 24 zero_lotus_pad
      raindrop_count := 5 } { leaf_drop with y := 305 } leaf_pad = true := by
    rw [pad_hit_iff]
    simp only [leaf_drop, leaf_pad, zero_raindrop, zero_lotus_pad, project_x, initial_world]
    norm_num
    rw [Real.sqrt_lt' (by norm_num)]
    norm_num
  rw [this]
  rfl

theorem leaf_world_NoExpiry (t : Nat) : NoExpiry t leaf_world := by
  intro d hd _ hw
  simp only [leaf_world, List.mem_append, List.mem_replicate] at hd
  rcases hd with ⟨-, rfl⟩ | ⟨-, rfl⟩ <;> simp [leaf_drop, zero_raindrop] at hw


theorem forall_mem_set {α : Type} (Q : α → Prop) (l : List α) (k : Nat) (b : α)
    (h : ∀ a ∈ l, Q a) (hb : Q b) : ∀ a ∈ l.set k b, Q a := by
  intro a ha
  rcases List.mem_or_eq_of_mem_set ha with hm | rfl
  · exact h a hm
  · exact hb

/-- While `raindrop_count` is not a multiple of 5 the loop body of
`update_raindrops` writes no splash, and a drop it marks in water is at or below
the water line. -/
theorem update_raindrops_body_guard (e : Env) (t : Nat) (dt : ℚ) (k : Nat) (v : World)
    (hmod : Int.tmod v.raindrop_count 5 ≠ 0)
    (hP : ∀ d ∈ v.raindrops, d.active = true → d.in_water = true →
      d.y ≥ (POND_HEIGHT : ℚ) ∧ d.water_time = t) :
    (update_raindrops_body e t dt k v).splashes = v.splashes
    ∧ (∀ d ∈ (update_raindrops_body e t dt k v).raindrops, d.active = true →
        d.in_water = true → d.y ≥ (POND_HEIGHT : ℚ) ∧ d.water_time = t) := by
  obtain ⟨f1, -, f3, -⟩ := wind_drawn_frame v
  cases ha : v.raindrops[k]? with
  | none =>
    unfold update_raindrops_body
    simp only [ha]
    exact ⟨trivial, hP⟩
  | some a =>
    by_cases hact : a.active = true
    · by_cases hw : a.in_water = true
      · have hold := hP a (List.mem_iff_getElem?.mpr ⟨k, ha⟩) hact hw
        unfold update_raindrops_body
        simp only [ha, hact, hw, if_true, Bool.not_true, Bool.false_eq_true, if_false]
        rw [hold.2, u32sub_self, if_neg (by omega)]
        exact ⟨rfl, hP⟩
      · have hw2 : a.in_water = false := by simpa using hw
        rw [update_raindrops_body_airborne e t dt k v a ha hact hw2,
          if_neg (fun h5 => hmod h5.1)]
        split_ifs with h2
        · rw [(create_ripple_frame _ _ _ _ _ _).2.1, (create_ripple_frame _ _ _ _ _ _).1]
          exact ⟨f3, forall_mem_set _ _ _ _ hP (fun _ _ => ⟨h2, rfl⟩)⟩
        · refine ⟨f3, forall_mem_set _ _ _ _ hP (fun _ h3 => ?_)⟩
          rw [show (moved_raindrop e dt v a).in_water = a.in_water from rfl, hw2] at h3
          cases h3
    · unfold update_raindrops_body
      simp only [ha, hact, Bool.false_eq_true, if_false]
      exact ⟨trivial, hP⟩

/-- C27 (counterexample): a state with five airborne drops, in the adjacent slots
0 to 4, and none in water, all above a lotus pad and above the water line
(`y = 300`, falling to `y = 305 < POND_HEIGHT` in a frame of 1/60 s), with
`raindrop_count = 5`: one call of `update_raindrops` marks all five in water,
which above the water line only the leaf-hit branch does, so adjacent drops are
both tested and five drops, not one, are turned into splash bursts. -/
theorem leaf_collision_not_sampled :
    (∀ d ∈ leaf_world.raindrops, d.active = true → d.in_water = false)
    ∧ activeCount Raindrop.active leaf_world.raindrops = 5
    ∧ leaf_world.raindrop_count = 5
    ∧ (305 : ℚ) < (POND_HEIGHT : ℚ)
    ∧ ∀ i, i < 5 →
        leaf_world.raindrops[i]? = some leaf_drop
        ∧ (update_raindrops (const_env 0) 1000 (1 / 60) leaf_world).raindrops[i]?
            = some { leaf_drop with y := 305, in_water := true, water_time := 1000 } := by
  refine ⟨?_, ?_, rfl, ?_, ?_⟩
  · intro d hd _
    simp only [leaf_world, List.mem_append, List.mem_replicate] at hd
    rcases hd with ⟨-, rfl⟩ | ⟨-, rfl⟩ <;> rfl
  · simp only [leaf_world, activeCount, List.countP_append, List.countP_replicate]
    rfl
  · rw [POND_HEIGHT_eq]
    norm_num
  · intro i hi
    have hs : leaf_world.raindrops[i]? = some leaf_drop := by
      show (List.replicate 5 leaf_drop ++ List.replicate 995 zero_raindrop)[i]? = some leaf_drop
      rw [List.getElem?_append_left (by rw [List.length_replicate]; exact hi),
        List.getElem?_replicate, if_pos hi]
    have hm := leaf_drop_moved (const_env 0)
    have key := update_raindrops_all_hit (const_env 0) 1000 (1 / 60) leaf_world rfl
      (leaf_world_NoExpiry 1000) (by decide) i leaf_drop hs rfl rfl
      (by rw [hm]; exact leaf_world_hit)
    rw [hm] at key
    exact ⟨hs, key⟩

/-- C27 (amended): the leaf test of `update_raindrops` is guarded by the global
`raindrop_count`, not by the position of the drop: in a call on a state with no
drop in water, `raindrop_count` is unchanged by the call; when it is not a
multiple of 5 no drop is tested, so that no splash is written and every drop
marked in water by the call is at or below the water line; and when it is a
multiple of 5 (in a tier below heavy rain, where no wind is drawn) every airborne
drop that touches a pad after its move is marked in water at time `now`, whatever
its slot. -/
theorem update_raindrops_leaf_guard (e : Env) (t : Nat) (dt : ℚ) (w : World)
    (hno : ∀ d ∈ w.raindrops, d.active = true → d.in_water = false) :
    (update_raindrops e t dt w).raindrop_count = w.raindrop_count
    ∧ (Int.tmod w.raindrop_count 5 ≠ 0 →
        (update_raindrops e t dt w).splashes = w.splashes
        ∧ (∀ d ∈ (update_raindrops e t dt w).raindrops, d.active = true →
            d.in_water = true → d.y ≥ (POND_HEIGHT : ℚ) ∧ d.water_time = t))
    ∧ (Int.tmod w.raindrop_count 5 = 0 → w.current_weather < WEATHER_HEAVY_RAIN →
        ∀ (i : Nat) (d : Raindrop), w.raindrops[i]? = some d → d.active = true →
          check_raindrop_lotus_collision w (moved_raindrop e dt w d) = true →
          (update_raindrops e t dt w).raindrops[i]?
            = some { moved_raindrop e dt w d with in_water := true, water_time := t }) := by
  refine ⟨?_, ?_, fun hmod hcalm i d h hact hhit =>
    update_raindrops_all_hit e t dt w hmod
      (fun d hd hact hw => by rw [hno d hd hact] at hw; cases hw) hcalm i d h hact
      (hno d (List.mem_iff_getElem?.mpr ⟨i, h⟩) hact) hhit⟩
  · have key := forLoop_inv (update_raindrops_body e t dt)
      (fun v => v.raindrop_count = w.raindrop_count ∧ NoExpiry t v)
      (fun k v ⟨h1, h2⟩ => by
        obtain ⟨a1, -, -, a4⟩ := update_raindrops_body_steady e t dt k v h2
        exact ⟨by rw [a1, h1], a4⟩)
      w.raindrops.length 0 w
      ⟨rfl, fun d hd hact hw => by rw [hno d hd hact] at hw; cases hw⟩
    exact key.1
  · intro hmod
    have key := forLoop_inv (update_raindrops_body e t dt)
      (fun v => v.raindrop_count = w.raindrop_count ∧ v.splashes = w.splashes
        ∧ (∀ d ∈ v.raindrops, d.active = true → d.in_water = true →
            d.y ≥ (POND_HEIGHT : ℚ) ∧ d.water_time = t))
      (fun k v ⟨h1, h2, h3⟩ => by
        have hne : NoExpiry t v := by
          intro d hd hact hw
          rw [(h3 d hd hact hw).2, u32sub_self]
          omega
        obtain ⟨a1, -⟩ := update_raindrops_body_steady e t dt k v hne
        obtain ⟨b1, b2⟩ := update_raindrops_body_guard e t dt k v (by rw [h1]; exact hmod) h3
        exact ⟨by rw [a1, h1], by rw [b1, h2], b2⟩)
      w.raindrops.length 0 w
      ⟨rfl, rfl, fun d hd hact hw => by rw [hno d hd hact] at hw; cases hw⟩
    exact key.2

theorem four_drop_world_slot (i : Nat) (hi : i < 4) :
    four_drop_world.raindrops[i]? = some leaf_drop := by
  show (List.replicate 4 leaf_drop ++ List.replicate 996 zero_raindrop)[i]? = some leaf_drop
  rw [List.getElem?_append_left (by rw [List.length_replicate]; exact hi),
    List.getElem?_replicate, if_pos hi]

theorem update_raindrops_leaf_guard_witness :
    check_raindrop_lotus_collision four_drop_world { leaf_drop with y := 305 } = true
    ∧ (update_raindrops (const_env 0) 1000 (1 / 60) four_drop_world).raindrop_count = 4
    ∧ (update_raindrops (const_env 0) 1000 (1 / 60) four_drop_world).splashes
        = four_drop_world.splashes
    ∧ ∃ d2, (update_raindrops (const_env 0) 1000 (1 / 60) four_drop_world).raindrops[0]?
          = some d2
        ∧ d2.active = true ∧ d2.y = 305 ∧ d2.in_water = false := by
  have h := update_raindrops_leaf_guard (const_env 0) 1000 (1 / 60) four_drop_world
    (by
      intro d hd _
      simp only [four_drop_world, List.mem_append, List.mem_replicate] at hd
      rcases hd with ⟨-, rfl⟩ | ⟨-, rfl⟩ <;> rfl)
  obtain ⟨h1, h2, -⟩ := h
  obtain ⟨h3, h4⟩ := h2 (by decide)
  obtain ⟨d2, hd2, hf⟩ := update_raindrops_fall (const_env 0) 1000 (1 / 60) four_drop_world 0
    leaf_drop (four_drop_world_slot 0 (by decide))
  obtain ⟨f1, f2, -⟩ := hf rfl rfl
  have hy : d2.y = 305 := by
    rw [f2]
    simp only [leaf_drop, zero_raindrop]
    norm_num
  refine ⟨?_, h1, h3, d2, hd2, f1, hy, ?_⟩
  · rw [check_raindrop_lotus_collision_congr four_drop_world leaf_world _ rfl rfl]
    exact leaf_world_hit
  · cases hw : d2.in_water with
    | false => rfl
    | true =>
      exfalso
      have := (h4 d2 (List.mem_iff_getElem?.mpr ⟨0, hd2⟩) f1 hw).1
      rw [hy, POND_HEIGHT_eq] at this
      norm_num at this

/-- The path loop calls `branch` only for `type = 0` and `segments > 3`, only in
passes with `1 < j < segments - 1`, and only with `width - 1` and with
`segments / 2` segments (one more above intensity 70). -/
theorem lightning_path_congr (e : Env) (i : Nat) (segments width type : Int)
    (zigzag_factor branch_prob : ℚ) (b1 b2 : Int → Int → Int → Int → World → World) :
    ∀ (k : Nat) (j cx cy : Int) (w : World),
      (∀ m : Nat, m < k → type = 0 → segments > 3 → 1 < j + m → j + m < segments - 1 →
        ∀ (bx bY bs : Int) (u : World),
          bs = (if u.weather_intensity > 70 then Int.tdiv segments 2 + 1
              else Int.tdiv segments 2) →
          b1 bx bY bs (width - 1) u = b2 bx bY bs (width - 1) u) →
      lightning_path e i segments width type zigzag_factor branch_prob b1 k j cx cy w
        = lightning_path e i segments width type zigzag_factor branch_prob b2 k j cx cy w
  | 0, _, _, _, _, _ => rfl
  | k + 1, j, cx, cy, w, h => by
    simp only [lightning_path]
    have hstep : ∀ (cx1 cy1 : Int) (v : World),
        lightning_path e i segments width type zigzag_factor branch_prob b1 k (j + 1) cx1 cy1 v
        = lightning_path e i segments width type zigzag_factor branch_prob b2 k (j + 1) cx1 cy1 v := by
      intro cx1 cy1 v
      apply lightning_path_congr e i segments width type zigzag_factor branch_prob b1 b2 k
      intro m hm ht hs h1 h2
      have := h (m + 1) (by omega) ht hs (by push_cast; omega) (by push_cast; omega)
      exact this
    rw [hstep]
    congr 1
    by_cases hc : type = 0 ∧ segments > 3 ∧ j > 1 ∧ j < segments - 1
    · have h0 := h 0 (by omega) hc.1 hc.2.1 (by simpa using hc.2.2.1) (by simpa using hc.2.2.2)
      rw [if_pos hc, if_pos hc]
      exact if_congr Iff.rfl (h0 _ _ _ _ rfl) rfl
    · rw [if_neg hc, if_neg hc]


theorem create_lightning_unfold (e : Env) (x y segments width type : Int) (w : World) :
    create_lightning e x y segments width type w
      = create_lightning_with
          (fun bx bY bs bw v => if type = 0 then create_lightning e bx bY bs bw 1 v else v)
          e x y segments width type w := by
  rw [create_lightning]
  unfold create_lightning_with
  simp only [dite_eq_ite]

theorem create_lightning_of_type_ne (e : Env) (x y segments width type : Int) (w : World)
    (ht : type ≠ 0) :
    create_lightning e x y segments width type w
      = create_lightning_leaf e x y segments width type w := by
  rw [create_lightning_unfold]
  unfold create_lightning_leaf
  simp only [ht, if_false]

theorem create_lightning_type_zero (e : Env) (x y segments width : Int) (w : World) :
    create_lightning e x y segments width 0 w
      = create_lightning_with (fun bx bY bs bw v => create_lightning_leaf e bx bY bs bw 1 v)
          e x y segments width 0 w := by
  rw [create_lightning_unfold]
  simp only [if_true]
  congr 1
  funext bx bY bs bw v
  exact create_lightning_of_type_ne e bx bY bs bw 1 v (by decide)

theorem branch_segments_lt (segments : Int) (h : segments > 3) :
    Int.tdiv segments 2 + 1 < segments ∧ Int.tdiv segments 2 < segments := by
  rw [Int.tdiv_eq_ediv (by omega) (by decide)]
  omega

theorem create_lightning_with_congr (b1 b2 : Int → Int → Int → Int → World → World)
    (e : Env) (x y segments width type : Int) (w : World)
    (h : type = 0 → segments > 3 → ∀ (bx bY bs : Int) (u : World),
      bs = (if u.weather_intensity > 70 then Int.tdiv segments 2 + 1
          else Int.tdiv segments 2) →
      b1 bx bY bs (width - 1) u = b2 bx bY bs (width - 1) u) :
    create_lightning_with b1 e x y segments width type w
      = create_lightning_with b2 e x y segments width type w := by
  unfold create_lightning_with
  cases firstFree Lightning.active w.lightnings with
  | none => rfl
  | some i =>
    simp only
    rw [lightning_path_congr e i segments width type _ _ b1 b2 segments.toNat 1 x y _
      (fun m _ ht hs _ _ => h ht hs)]

/-- The function `create_lightning` satisfies the recursion equation of the
source, in which the recursive call is not guarded. -/
theorem create_lightning_equation (e : Env) (x y segments width type : Int) (w : World) :
    create_lightning e x y segments width type w
      = create_lightning_with (fun bx bY bs bw v => create_lightning e bx bY bs bw 1 v)
          e x y segments width type w := by
  rw [create_lightning_unfold]
  apply create_lightning_with_congr
  intro ht _ bx bY bs u _
  simp only [ht, if_true]

/-- The recursion equation of the source has one solution only. -/
theorem create_lightning_unique (e : Env)
    (f : Int → Int → Int → Int → Int → World → World)
    (hf : ∀ x y segments width type w,
      f x y segments width type w
        = create_lightning_with (fun bx bY bs bw v => f bx bY bs bw 1 v)
            e x y segments width type w) :
    ∀ x y segments width type w,
      f x y segments width type w = create_lightning e x y segments width type w := by
  have h1 : ∀ x y segments width w,
      f x y segments width 1 w = create_lightning e x y segments width 1 w := by
    intro x y segments width w
    rw [hf, create_lightning_equation]
    apply create_lightning_with_congr
    intro ht
    exact absurd ht (by decide)
  intro x y segments width type w
  rw [hf, create_lightning_equation]
  apply create_lightning_with_congr
  intro _ _ bx bY bs u _
  exact h1 bx bY bs (width - 1) u

/-- C21: `create_lightning` is a total function of its arguments and the state:
it satisfies the recursion equation of the source and is the only function that
does; a call with `type ≠ 0` is the body run with no recursive call; a call with
`type = 0` is the body whose recursive calls all have type 1 and themselves make
no call, so calls nest at most two deep; the path loop uses the recursive call
only with `width - 1` and with `segments / 2` segments (one more when
`weather_intensity > 70`), makes no use of it unless `type = 0` and
`segments > 3`, and none in passes `j` outside `1 < j < segments - 1`; and for
`segments > 3` the segments of a branch are strictly fewer than the parent's. -/
theorem create_lightning_self_limiting (e : Env) (x y segments width type : Int) (w : World) :
    create_lightning e x y segments width type w
        = create_lightning_with (fun bx bY bs bw v => create_lightning e bx bY bs bw 1 v)
            e x y segments width type w
    ∧ (∀ f : Int → Int → Int → Int → Int → World → World,
        (∀ x y segments width type w,
          f x y segments width type w
            = create_lightning_with (fun bx bY bs bw v => f bx bY bs bw 1 v)
                e x y segments width type w) →
        f x y segments width type w = create_lightning e x y segments width type w)
    ∧ (type ≠ 0 →
      create_lightning e x y segments width type w
        = create_lightning_leaf e x y segments width type w)
    ∧ create_lightning e x y segments width 0 w
        = create_lightning_with (fun bx bY bs bw v => create_lightning_leaf e bx bY bs bw 1 v)
            e x y segments width 0 w
    ∧ (∀ (b1 b2 : Int → Int → Int → Int → World → World) (i : Nat) (zf bp : ℚ) (k : Nat)
        (j cx cy : Int) (v : World),
        (∀ (bx bY bs : Int) (u : World),
          bs = (if u.weather_intensity > 70 then Int.tdiv segments 2 + 1
              else Int.tdiv segments 2) →
          b1 bx bY bs (width - 1) u = b2 bx bY bs (width - 1) u) →
        lightning_path e i segments width type zf bp b1 k j cx cy v
          = lightning_path e i segments width type zf bp b2 k j cx cy v)
    ∧ (∀ (b1 b2 : Int → Int → Int → Int → World → World) (i : Nat) (zf bp : ℚ) (k : Nat)
        (j cx cy : Int) (v : World),
        ¬ (type = 0 ∧ segments > 3) →
        lightning_path e i segments width type zf bp b1 k j cx cy v
          = lightning_path e i segments width type zf bp b2 k j cx cy v)
    ∧ (∀ (b1 b2 : Int → Int → Int → Int → World → World) (i : Nat) (zf bp : ℚ) (k : Nat)
        (j cx cy : Int) (v : World),
        (∀ m : Nat, m < k → ¬ (1 < j + m ∧ j + m < segments - 1)) →
        lightning_path e i segments width type zf bp b1 k j cx cy v
          = lightning_path e i segments width type zf bp b2 k j cx cy v)
    ∧ (segments > 3 →
        Int.tdiv segments 2 + 1 < segments ∧ Int.tdiv segments 2 < segments) := by
  refine ⟨create_lightning_equation e x y segments width type w,
    fun f hf => create_lightning_unique e f hf x y segments width type w,
    create_lightning_of_type_ne e x y segments width type w,
    create_lightning_type_zero e x y segments width w, ?_, ?_, ?_, branch_segments_lt segments⟩
  · intro b1 b2 i zf bp k j cx cy v h
    exact lightning_path_congr e i segments width type zf bp b1 b2 k j cx cy v
      (fun m _ _ _ _ _ bx bY bs u hbs => h bx bY bs u hbs)
  · intro b1 b2 i zf bp k j cx cy v h
    exact lightning_path_congr e i segments width type zf bp b1 b2 k j cx cy v
      (fun m _ ht hs _ _ => absurd ⟨ht, hs⟩ h)
  · intro b1 b2 i zf bp k j cx cy v h
    exact lightning_path_congr e i segments width type zf bp b1 b2 k j cx cy v
      (fun m hm _ _ h1 h2 => absurd ⟨h1, h2⟩ (h m hm))

/-! ## Safety of lightning generation (C29) -/

theorem NoZeroDivisor_bind (c : Int) (r : Except Fault World)
    (f : World → Except Fault World) (hr : NoZeroDivisor c r)
    (hf : ∀ v, v.weather_intensity = c → NoZeroDivisor c (f v)) :
    NoZeroDivisor c (r.bind f) := by
  cases r with
  | error x => exact hr
  | ok v => exact hf v hr

theorem lightning_path_checked_good (e : Env) (i : Nat) (segments width type : Int)
    (zf bp : ℚ) (branch : Int → Int → Int → Int → World → Except Fault World) (c : Int)
    (hzf : castInt zf ≠ 0)
    (hb : ∀ bx bY bs bw u, u.weather_intensity = c → NoZeroDivisor c (branch bx bY bs bw u)) :
    ∀ (k : Nat) (j cx cy : Int) (w : World), w.weather_intensity = c →
      (segments ≠ 0 ∨ k = 0) →
      NoZeroDivisor c (lightning_path_checked e i segments width type zf bp branch k j cx cy w)
  | 0, _, _, _, w, hw, _ => hw
  | k + 1, j, cx, cy, w, hw, hs => by
    have hseg : segments ≠ 0 := by
      rcases hs with h | h
      · exact h
      · omega
    simp only [lightning_path_checked]
    rw [if_neg hzf, if_neg hseg]
    by_cases hj : j < 0 ∨ j ≥ 20
    · rw [if_pos hj]
      rfl
    · rw [if_neg hj]
      apply NoZeroDivisor_bind
      · split_ifs <;> first | exact hb _ _ _ _ _ hw | exact hw
      · intro v hv
        exact lightning_path_checked_good e i segments width type zf bp branch c hzf hb
          k (j + 1) _ _ v hv (Or.inl hseg)

theorem zigzag_divisor_pos (c : Int) (h0 : 0 ≤ c) :
    40 ≤ castInt (40.0 * (1.0 + (c : ℚ) / 200.0)) := by
  have hc : (0 : ℚ) ≤ (c : ℚ) := by exact_mod_cast h0
  have hq : (40 : ℚ) ≤ 40.0 * (1.0 + (c : ℚ) / 200.0) := by
    norm_num
    linarith
  rw [castInt_of_nonneg (by linarith)]
  exact Int.le_floor.mpr (by exact_mod_cast hq)

theorem create_lightning_checked_with_good
    (branch : Int → Int → Int → Int → World → Except Fault World)
    (e : Env) (x y segments width type : Int) (w : World) (c : Int)
    (hw : w.weather_intensity = c) (h0 : 0 ≤ c)
    (hb : ∀ bx bY bs bw u, u.weather_intensity = c → NoZeroDivisor c (branch bx bY bs bw u)) :
    NoZeroDivisor c (create_lightning_checked_with branch e x y segments width type w) := by
  unfold create_lightning_checked_with
  cases firstFree Lightning.active w.lightnings with
  | none => exact hw
  | some i =>
    simp only
    apply NoZeroDivisor_bind
    · apply lightning_path_checked_good e i segments width type _ _ branch c _ hb
      · exact hw
      · by_cases hs : segments = 0
        · right; rw [hs]; rfl
        · left; exact hs
      · have := zigzag_divisor_pos c h0
        rw [hw]
        omega
    · intro v hv
      exact hv


/-- When no check fails the checked path loop computes the path loop. -/
theorem lightning_path_checked_ok (e : Env) (i : Nat) (segments width type : Int)
    (zf bp : ℚ) (branchC : Int → Int → Int → Int → World → Except Fault World)
    (branch : Int → Int → Int → Int → World → World) (c : Int)
    (hzf : castInt zf ≠ 0)
    (hb1 : ∀ bx bY bs u, type = 0 → segments > 3 → u.weather_intensity = c →
      bs = (if u.weather_intensity > 70 then Int.tdiv segments 2 + 1
          else Int.tdiv segments 2) →
      branchC bx bY bs (width - 1) u = Except.ok (branch bx bY bs (width - 1) u))
    (hb2 : ∀ bx bY bs u, type = 0 → segments > 3 → u.weather_intensity = c →
      bs = (if u.weather_intensity > 70 then Int.tdiv segments 2 + 1
          else Int.tdiv segments 2) →
      (branch bx bY bs (width - 1) u).weather_intensity = c) :
    ∀ (k : Nat) (j cx cy : Int) (w : World), w.weather_intensity = c →
      (segments ≠ 0 ∨ k = 0) → 0 ≤ j → j + k ≤ 20 →
      lightning_path_checked e i segments width type zf bp branchC k j cx cy w
        = Except.ok (lightning_path e i segments width type zf bp branch k j cx cy w)
  | 0, _, _, _, _, _, _, _, _ => rfl
  | k + 1, j, cx, cy, w, hw, hs, hj0, hjk => by
    have hseg : segments ≠ 0 := by
      rcases hs with h | h
      · exact h
      · omega
    have hj : ¬ (j < 0 ∨ j ≥ 20) := by omega
    have ih := fun (cx1 cy1 : Int) (v : World) (hv : v.weather_intensity = c) =>
      lightning_path_checked_ok e i segments width type zf bp branchC branch c hzf hb1 hb2
        k (j + 1) cx1 cy1 v hv (Or.inl hseg) (by omega) (by push_cast at hjk ⊢; omega)
    simp only [lightning_path_checked, lightning_path]
    rw [if_neg hzf, if_neg hseg, if_neg hj]
    by_cases hc : type = 0 ∧ segments > 3 ∧ j > 1 ∧ j < segments - 1
    · rw [if_pos hc, if_pos hc]
      by_cases hr : ((Int.tmod (rand e
          { w.tick 1 with
            lightnings := w.lightnings.set i
              { w.lightnings.getD i default with
                points := (w.lightnings.getD i default).points.set j.toNat
                  (cx + (Int.tmod (rand e w) (castInt zf) - castInt (zf / 2)),
                    if cy + Int.tdiv WINDOW_HEIGHT segments > POND_HEIGHT then POND_HEIGHT
                    else cy + Int.tdiv WINDOW_HEIGHT segments) } }) 100 : Int) : ℚ) < bp
      · rw [if_pos hr, if_pos hr, hb1 _ _ _ _ hc.1 hc.2.1 ?_ ?_]
        · apply ih
          refine hb2 _ _ _ _ hc.1 hc.2.1 ?_ ?_
          · exact hw
          · rfl
        · exact hw
        · rfl
      · rw [if_neg hr, if_neg hr]
        exact ih _ _ _ hw
    · rw [if_neg hc, if_neg hc]
      exact ih _ _ _ hw


theorem create_lightning_checked_with_ok
    (branchC : Int → Int → Int → Int → World → Except Fault World)
    (branch : Int → Int → Int → Int → World → World)
    (e : Env) (x y segments width type : Int) (w : World) (c : Int)
    (hw : w.weather_intensity = c) (h0 : 0 ≤ c) (hseg : segments ≤ 19)
    (hb1 : ∀ bx bY bs u, type = 0 → segments > 3 → u.weather_intensity = c →
      bs = (if u.weather_intensity > 70 then Int.tdiv segments 2 + 1
          else Int.tdiv segments 2) →
      branchC bx bY bs (width - 1) u = Except.ok (branch bx bY bs (width - 1) u))
    (hb2 : ∀ bx bY bs u, type = 0 → segments > 3 → u.weather_intensity = c →
      bs = (if u.weather_intensity > 70 then Int.tdiv segments 2 + 1
          else Int.tdiv segments 2) →
      (branch bx bY bs (width - 1) u).weather_intensity = c) :
    create_lightning_checked_with branchC e x y segments width type w
      = Except.ok (create_lightning_with branch e x y segments width type w) := by
  unfold create_lightning_checked_with create_lightning_with
  cases firstFree Lightning.active w.lightnings with
  | none => rfl
  | some i =>
    simp only
    rw [lightning_path_checked_ok e i segments width type _ _ branchC branch c _ hb1 hb2]
    · rfl
    · exact hw
    · by_cases hs : segments = 0
      · right; rw [hs]; rfl
      · left; exact hs
    · decide
    · omega
    · have := zigzag_divisor_pos c h0
      rw [hw]
      omega

theorem create_lightning_leaf_checked (e : Env) (x y segments width type : Int) (w : World)
    (h0 : 0 ≤ w.weather_intensity) (hseg : segments ≤ 19) :
    create_lightning_checked_with (fun _ _ _ _ u => Except.ok u) e x y segments width type w
      = Except.ok (create_lightning_leaf e x y segments width type w)
    ∧ (create_lightning_leaf e x y segments width type w).weather_intensity
        = w.weather_intensity := by
  have hgood := create_lightning_checked_with_good (fun _ _ _ _ u => Except.ok u)
    e x y segments width type w w.weather_intensity rfl h0 (fun _ _ _ _ u hu => hu)
  have hok : create_lightning_checked_with (fun _ _ _ _ u => Except.ok u) e x y segments width
      type w = Except.ok (create_lightning_leaf e x y segments width type w) := by
    unfold create_lightning_leaf
    exact create_lightning_checked_with_ok _ _ e x y segments width type w w.weather_intensity
      rfl h0 hseg (fun _ _ _ _ _ _ _ _ => rfl) (fun _ _ _ u _ _ hu _ => hu)
  rw [hok] at hgood
  exact ⟨hok, hgood⟩

/-- The checks are not idle: a pass of the path loop at index 20 is a fault. -/
theorem lightning_path_checked_overflow (e : Env) (i : Nat) (segments width type : Int)
    (zf bp : ℚ) (branch : Int → Int → Int → Int → World → Except Fault World)
    (k : Nat) (j cx cy : Int) (w : World) (hzf : castInt zf ≠ 0) (hseg : segments ≠ 0)
    (hj : 20 ≤ j) :
    lightning_path_checked e i segments width type zf bp branch (k + 1) j cx cy w
      = Except.error Fault.index_out_of_bounds := by
  simp only [lightning_path_checked]
  rw [if_neg hzf, if_neg hseg, if_pos (Or.inr hj)]

/-- C29: in a state with non-negative `weather_intensity` (in particular in
`[0, 100]`), a type-0 call `create_lightning(x, y, segments, width, 0)` with
`5 ≤ segments ≤ 14` runs without fault when every write to `points[j]`, in the main
bolt and in every branch, is checked against `0 ≤ j ≤ 19` and every division by
`segments` and remainder by `(int)zigzag_factor` is checked against a zero
divisor, and it computes the result of `create_lightning`; and for every
`segments` and `type` the checked run never stops at a zero divisor. -/
theorem create_lightning_safe (e : Env) (x y segments width type : Int) (w : World)
    (hi : 0 ≤ w.weather_intensity) :
    (5 ≤ segments → segments ≤ 14 →
      create_lightning_checked e x y segments width 0 w
        = Except.ok (create_lightning e x y segments width 0 w))
    ∧ create_lightning_checked e x y segments width type w
        ≠ Except.error Fault.zero_divisor := by
  constructor
  · intro h5 h14
    unfold create_lightning_checked
    rw [create_lightning_type_zero]
    simp only [if_true]
    have hbs : ∀ (bs : Int) (u : World),
        bs = (if u.weather_intensity > 70 then Int.tdiv segments 2 + 1
          else Int.tdiv segments 2) → bs ≤ 19 := by
      intro bs u h
      rw [Int.tdiv_eq_ediv (by omega) (by decide)] at h
      split_ifs at h <;> omega
    apply create_lightning_checked_with_ok _ _ e x y segments width 0 w w.weather_intensity
      rfl hi (by omega)
    · intro bx bY bs u _ _ hu h
      exact (create_lightning_leaf_checked e bx bY bs (width - 1) 1 u (by rw [hu]; exact hi)
        (hbs bs u h)).1
    · intro bx bY bs u _ _ hu h
      rw [(create_lightning_leaf_checked e bx bY bs (width - 1) 1 u (by rw [hu]; exact hi)
        (hbs bs u h)).2]
      exact hu
  · have hgood : NoZeroDivisor w.weather_intensity
        (create_lightning_checked e x y segments width type w) := by
      unfold create_lightning_checked
      apply create_lightning_checked_with_good _ e x y segments width type w _ rfl hi
      intro bx bY bs bw u hu
      split_ifs
      · exact create_lightning_checked_with_good _ e bx bY bs bw 1 u _ hu hi
          (fun _ _ _ _ v hv => hv)
      · exact hu
    intro h
    rw [h] at hgood
    cases hgood

theorem create_lightning_safe_witness :
    create_lightning_checked (const_env 7) 400 0 10 3 0 initial_world
        = Except.ok (create_lightning (const_env 7) 400 0 10 3 0 initial_world)
    ∧ create_lightning_checked (const_env 7) 400 0 10 3 0 initial_world
        ≠ Except.error Fault.zero_divisor :=
  have h := create_lightning_safe (const_env 7) 400 0 10 3 0 initial_world (by decide)
  ⟨h.1 (by decide) (by decide), h.2⟩

end NightRain
